import Mathlib

/-!
# Descriptor translation of the D3D11 backend (`source/d3d11/render_d3d11_utils.cpp`)

A shallow embedding of the conversion functions between the API's abstract
descriptions (`memory_heap`, `resource_usage`, `resource_desc`,
`resource_view_desc`) and the native D3D11 descriptors, followed by the
properties established about them.

Conventions of the embedding:

* machine integers are natural numbers; a 32-bit operation that can leave the
  range is written with an explicit `% 2 ^ 32`, and the 32-bit complement
  `~x` is `UINT_not x`;
* a function that writes through a reference parameter takes the previous
  content of that parameter and returns the new content;
* an `assert` that fails is a contract violation: the function returns `none`;
* `static_cast` between two 32-bit enumerations keeps the number unchanged;
* a native view descriptor appears in two forms: field by field, one field
  per member field of the payload union, for the properties of the member
  selected by `ViewDimension`; and as stored (`..._stored`), the payload union
  as its 32-bit words, for the properties that depend on which member fields
  share storage.
-/

set_option autoImplicit false

namespace reshade.d3d11

/-! ## Integer helpers -/

/-- The value of `std::numeric_limits<UINT>::max()`. -/
def UINT_MAX : Nat := 0xFFFFFFFF

/-- The complement `~x` of a 32-bit unsigned word. -/
def UINT_not (x : Nat) : Nat := 0xFFFFFFFF ^^^ x

/-! ## Enumerator values declared in headers

The translation unit includes `render_d3d11.hpp`, which brings in the API
header and `d3d11.h`. Neither is part of the translated sources, so the
enumerators the functions mention are written down here with the values these
headers give them. -/

/-- Modelled from the spec: the enumerators of `reshade::api::resource_usage`
that the translators mention. The spec describes the type as a bitmask over
these names; the API header that declares it is missing from the sources. The
values are those of the D3D12 resource states the enumeration mirrors, so
`depth_stencil` and `shader_resource` are two-bit masks (read | write,
pixel | non-pixel). -/
def resource_usage.undefined : Nat := 0
/-- Modelled from the spec: the enumerator `resource_usage::render_target`. -/
def resource_usage.render_target : Nat := 0x4
/-- Modelled from the spec: the enumerator `resource_usage::depth_stencil`. -/
def resource_usage.depth_stencil : Nat := 0x30
/-- Modelled from the spec: the enumerator `resource_usage::shader_resource`. -/
def resource_usage.shader_resource : Nat := 0xC0
/-- Modelled from the spec: the enumerator `resource_usage::unordered_access`. -/
def resource_usage.unordered_access : Nat := 0x8
/-- Modelled from the spec: the enumerator `resource_usage::index_buffer`. -/
def resource_usage.index_buffer : Nat := 0x2
/-- Modelled from the spec: the enumerator `resource_usage::vertex_buffer`. -/
def resource_usage.vertex_buffer : Nat := 0x1
/-- Modelled from the spec: the enumerator `resource_usage::constant_buffer`. -/
def resource_usage.constant_buffer : Nat := 0x8000
/-- Modelled from the spec: the enumerator `resource_usage::copy_dest`. -/
def resource_usage.copy_dest : Nat := 0x400
/-- Modelled from the spec: the enumerator `resource_usage::copy_source`. -/
def resource_usage.copy_source : Nat := 0x800
/-- Modelled from the spec: the enumerator `resource_usage::resolve_dest`. -/
def resource_usage.resolve_dest : Nat := 0x1000
/-- Modelled from the spec: the enumerator `resource_usage::resolve_source`. -/
def resource_usage.resolve_source : Nat := 0x2000

/-- The bind flag `D3D11_BIND_VERTEX_BUFFER` of `d3d11.h`. -/
def D3D11_BIND_VERTEX_BUFFER : Nat := 0x1
/-- The bind flag `D3D11_BIND_INDEX_BUFFER` of `d3d11.h`. -/
def D3D11_BIND_INDEX_BUFFER : Nat := 0x2
/-- The bind flag `D3D11_BIND_CONSTANT_BUFFER` of `d3d11.h`. -/
def D3D11_BIND_CONSTANT_BUFFER : Nat := 0x4
/-- The bind flag `D3D11_BIND_SHADER_RESOURCE` of `d3d11.h`. -/
def D3D11_BIND_SHADER_RESOURCE : Nat := 0x8
/-- The bind flag `D3D11_BIND_STREAM_OUTPUT` of `d3d11.h`; no translator mentions it. -/
def D3D11_BIND_STREAM_OUTPUT : Nat := 0x10
/-- The bind flag `D3D11_BIND_RENDER_TARGET` of `d3d11.h`. -/
def D3D11_BIND_RENDER_TARGET : Nat := 0x20
/-- The bind flag `D3D11_BIND_DEPTH_STENCIL` of `d3d11.h`. -/
def D3D11_BIND_DEPTH_STENCIL : Nat := 0x40
/-- The bind flag `D3D11_BIND_UNORDERED_ACCESS` of `d3d11.h`. -/
def D3D11_BIND_UNORDERED_ACCESS : Nat := 0x80

/-! ## Usage bitmask and bind flags (source lines 49-106) -/

/-- The function `convert_resource_usage_to_bind_flags(usage, bind_flags)`:
every one of the seven tests either sets or clears one native flag. -/
def convert_resource_usage_to_bind_flags (usage : Nat) (bind_flags : Nat) : Nat :=
  let bind_flags :=
    if (usage &&& resource_usage.render_target) ≠ 0 then
      bind_flags ||| D3D11_BIND_RENDER_TARGET
    else
      bind_flags &&& UINT_not D3D11_BIND_RENDER_TARGET
  let bind_flags :=
    if (usage &&& resource_usage.depth_stencil) ≠ 0 then
      bind_flags ||| D3D11_BIND_DEPTH_STENCIL
    else
      bind_flags &&& UINT_not D3D11_BIND_DEPTH_STENCIL
  let bind_flags :=
    if (usage &&& resource_usage.shader_resource) ≠ 0 then
      bind_flags ||| D3D11_BIND_SHADER_RESOURCE
    else
      bind_flags &&& UINT_not D3D11_BIND_SHADER_RESOURCE
  let bind_flags :=
    if (usage &&& resource_usage.unordered_access) ≠ 0 then
      bind_flags ||| D3D11_BIND_UNORDERED_ACCESS
    else
      bind_flags &&& UINT_not D3D11_BIND_UNORDERED_ACCESS
  let bind_flags :=
    if (usage &&& resource_usage.index_buffer) ≠ 0 then
      bind_flags ||| D3D11_BIND_INDEX_BUFFER
    else
      bind_flags &&& UINT_not D3D11_BIND_INDEX_BUFFER
  let bind_flags :=
    if (usage &&& resource_usage.vertex_buffer) ≠ 0 then
      bind_flags ||| D3D11_BIND_VERTEX_BUFFER
    else
      bind_flags &&& UINT_not D3D11_BIND_VERTEX_BUFFER
  let bind_flags :=
    if (usage &&& resource_usage.constant_buffer) ≠ 0 then
      bind_flags ||| D3D11_BIND_CONSTANT_BUFFER
    else
      bind_flags &&& UINT_not D3D11_BIND_CONSTANT_BUFFER
  bind_flags

/-- The function `convert_bind_flags_to_resource_usage(bind_flags, usage)`:
the copy bits are added first, then one usage mask per native flag found. -/
def convert_bind_flags_to_resource_usage (bind_flags : Nat) (usage : Nat) : Nat :=
  let usage := usage ||| (resource_usage.copy_dest ||| resource_usage.copy_source)
  let usage :=
    if (bind_flags &&& D3D11_BIND_RENDER_TARGET) ≠ 0 then
      usage ||| resource_usage.render_target else usage
  let usage :=
    if (bind_flags &&& D3D11_BIND_DEPTH_STENCIL) ≠ 0 then
      usage ||| resource_usage.depth_stencil else usage
  let usage :=
    if (bind_flags &&& D3D11_BIND_SHADER_RESOURCE) ≠ 0 then
      usage ||| resource_usage.shader_resource else usage
  let usage :=
    if (bind_flags &&& D3D11_BIND_UNORDERED_ACCESS) ≠ 0 then
      usage ||| resource_usage.unordered_access else usage
  let usage :=
    if (bind_flags &&& D3D11_BIND_INDEX_BUFFER) ≠ 0 then
      usage ||| resource_usage.index_buffer else usage
  let usage :=
    if (bind_flags &&& D3D11_BIND_VERTEX_BUFFER) ≠ 0 then
      usage ||| resource_usage.vertex_buffer else usage
  let usage :=
    if (bind_flags &&& D3D11_BIND_CONSTANT_BUFFER) ≠ 0 then
      usage ||| resource_usage.constant_buffer else usage
  usage


/-- The usage value made of the chosen ones among the seven masks that have a
bind flag of their own: a subset of the seven, given by one Boolean each. -/
def bind_mapped_usage (rt ds sr ua ib vb cb : Bool) : Nat :=
  (if rt then resource_usage.render_target else 0) |||
  (if ds then resource_usage.depth_stencil else 0) |||
  (if sr then resource_usage.shader_resource else 0) |||
  (if ua then resource_usage.unordered_access else 0) |||
  (if ib then resource_usage.index_buffer else 0) |||
  (if vb then resource_usage.vertex_buffer else 0) |||
  (if cb then resource_usage.constant_buffer else 0)

/-- The seven usage masks that have a bind flag, together. -/
def resource_usage_bind_mapped : Nat :=
  resource_usage.render_target ||| resource_usage.depth_stencil |||
  resource_usage.shader_resource ||| resource_usage.unordered_access |||
  resource_usage.index_buffer ||| resource_usage.vertex_buffer |||
  resource_usage.constant_buffer

/-- The four usage masks without a bind flag: copy and resolve, source and destination. -/
def resource_usage_copy_resolve : Nat :=
  resource_usage.copy_source ||| resource_usage.copy_dest |||
  resource_usage.resolve_source ||| resource_usage.resolve_dest

/-- The seven bind flags the translators mention, together. -/
def D3D11_BIND_mapped : Nat :=
  D3D11_BIND_RENDER_TARGET ||| D3D11_BIND_DEPTH_STENCIL ||| D3D11_BIND_SHADER_RESOURCE |||
  D3D11_BIND_UNORDERED_ACCESS ||| D3D11_BIND_INDEX_BUFFER ||| D3D11_BIND_VERTEX_BUFFER |||
  D3D11_BIND_CONSTANT_BUFFER

/-! ## Abstract resource-view description -/

/-- Modelled from the spec: the tag `reshade::api::resource_view_type` of a
view description, declared in the API header that is missing from the sources.
The spec lists these eleven tags; `unknown` is the tag a value-initialised
description has. -/
inductive resource_view_type where
  | unknown
  | buffer
  | texture_1d
  | texture_1d_array
  | texture_2d
  | texture_2d_array
  | texture_2d_multisample
  | texture_2d_multisample_array
  | texture_3d
  | texture_cube
  | texture_cube_array
  deriving DecidableEq

/-- Modelled from the spec: the structure `reshade::api::resource_view_desc`,
declared in the API header that is missing from the sources: a tag, a format
and a sixteen-byte payload that is a union of `buffer` (two 64-bit fields
`offset`, `size`) and `texture` (four 32-bit fields). The payload is stored
here as the four 32-bit words of the `texture` member; the `buffer` member is
the little-endian view of the same words (`buffer_offset`, `buffer_size`
below), so that writing one member changes what the other one reads, as it
does in the union. `format` holds the number of the `format` enumerator. -/
structure resource_view_desc where
  type : resource_view_type
  format : Nat
  texture_first_level : Nat
  texture_levels : Nat
  texture_first_layer : Nat
  texture_layers : Nat
  deriving DecidableEq

/-- The 64-bit member `buffer.offset`: the first two payload words. -/
def resource_view_desc.buffer_offset (desc : resource_view_desc) : Nat :=
  desc.texture_first_level + 2 ^ 32 * desc.texture_levels

/-- The 64-bit member `buffer.size`: the last two payload words. -/
def resource_view_desc.buffer_size (desc : resource_view_desc) : Nat :=
  desc.texture_first_layer + 2 ^ 32 * desc.texture_layers

/-- The assignment `desc.buffer.offset = value`. -/
def resource_view_desc.set_buffer_offset (desc : resource_view_desc) (value : Nat) :
    resource_view_desc :=
  { desc with
    texture_first_level := value % 2 ^ 32
    texture_levels := value / 2 ^ 32 % 2 ^ 32 }

/-- The assignment `desc.buffer.size = value`. -/
def resource_view_desc.set_buffer_size (desc : resource_view_desc) (value : Nat) :
    resource_view_desc :=
  { desc with
    texture_first_layer := value % 2 ^ 32
    texture_layers := value / 2 ^ 32 % 2 ^ 32 }

/-- The value-initialised description of `resource_view_desc desc = {};`:
every member zero, so the tag is `unknown`. -/
def resource_view_desc.value_initialized : resource_view_desc :=
  { type := resource_view_type.unknown
    format := 0
    texture_first_level := 0
    texture_levels := 0
    texture_first_layer := 0
    texture_layers := 0 }

/-! ## Native view descriptors

The descriptors of `d3d11.h`. Every member of the payload union that a
translator accesses is a field of its own, named `Member_Field` for
`Member.Field`; members no translator accesses are left out. The overlap of
the union members in memory is not represented here: the properties stated on
these structures only relate fields of the member selected by `ViewDimension`.
The stored descriptors further down represent the payload as the words of the
union, for the properties that depend on which members share storage. -/

/-- The enumeration `D3D11_DSV_DIMENSION` of `d3d11.h`. -/
inductive D3D11_DSV_DIMENSION where
  | D3D11_DSV_DIMENSION_UNKNOWN
  | D3D11_DSV_DIMENSION_TEXTURE1D
  | D3D11_DSV_DIMENSION_TEXTURE1DARRAY
  | D3D11_DSV_DIMENSION_TEXTURE2D
  | D3D11_DSV_DIMENSION_TEXTURE2DARRAY
  | D3D11_DSV_DIMENSION_TEXTURE2DMS
  | D3D11_DSV_DIMENSION_TEXTURE2DMSARRAY
  deriving DecidableEq

/-- The enumeration `D3D11_RTV_DIMENSION` of `d3d11.h`. -/
inductive D3D11_RTV_DIMENSION where
  | D3D11_RTV_DIMENSION_UNKNOWN
  | D3D11_RTV_DIMENSION_BUFFER
  | D3D11_RTV_DIMENSION_TEXTURE1D
  | D3D11_RTV_DIMENSION_TEXTURE1DARRAY
  | D3D11_RTV_DIMENSION_TEXTURE2D
  | D3D11_RTV_DIMENSION_TEXTURE2DARRAY
  | D3D11_RTV_DIMENSION_TEXTURE2DMS
  | D3D11_RTV_DIMENSION_TEXTURE2DMSARRAY
  | D3D11_RTV_DIMENSION_TEXTURE3D
  deriving DecidableEq

/-- The enumeration `D3D11_SRV_DIMENSION` of `d3d11.h`. -/
inductive D3D11_SRV_DIMENSION where
  | D3D11_SRV_DIMENSION_UNKNOWN
  | D3D11_SRV_DIMENSION_BUFFER
  | D3D11_SRV_DIMENSION_TEXTURE1D
  | D3D11_SRV_DIMENSION_TEXTURE1DARRAY
  | D3D11_SRV_DIMENSION_TEXTURE2D
  | D3D11_SRV_DIMENSION_TEXTURE2DARRAY
  | D3D11_SRV_DIMENSION_TEXTURE2DMS
  | D3D11_SRV_DIMENSION_TEXTURE2DMSARRAY
  | D3D11_SRV_DIMENSION_TEXTURE3D
  | D3D11_SRV_DIMENSION_TEXTURECUBE
  | D3D11_SRV_DIMENSION_TEXTURECUBEARRAY
  | D3D11_SRV_DIMENSION_BUFFEREX
  deriving DecidableEq

/-- The enumeration `D3D11_UAV_DIMENSION` of `d3d11.h`. -/
inductive D3D11_UAV_DIMENSION where
  | D3D11_UAV_DIMENSION_UNKNOWN
  | D3D11_UAV_DIMENSION_BUFFER
  | D3D11_UAV_DIMENSION_TEXTURE1D
  | D3D11_UAV_DIMENSION_TEXTURE1DARRAY
  | D3D11_UAV_DIMENSION_TEXTURE2D
  | D3D11_UAV_DIMENSION_TEXTURE2DARRAY
  | D3D11_UAV_DIMENSION_TEXTURE3D
  deriving DecidableEq

open D3D11_DSV_DIMENSION D3D11_RTV_DIMENSION D3D11_SRV_DIMENSION D3D11_UAV_DIMENSION

/-- The structure `D3D11_DEPTH_STENCIL_VIEW_DESC`. -/
structure D3D11_DEPTH_STENCIL_VIEW_DESC where
  Format : Nat
  ViewDimension : D3D11_DSV_DIMENSION
  Flags : Nat
  Texture1D_MipSlice : Nat
  Texture1DArray_MipSlice : Nat
  Texture1DArray_FirstArraySlice : Nat
  Texture1DArray_ArraySize : Nat
  Texture2D_MipSlice : Nat
  Texture2DArray_MipSlice : Nat
  Texture2DArray_FirstArraySlice : Nat
  Texture2DArray_ArraySize : Nat
  Texture2DMSArray_FirstArraySlice : Nat
  Texture2DMSArray_ArraySize : Nat
  deriving DecidableEq

/-- The structure `D3D11_RENDER_TARGET_VIEW_DESC`. -/
structure D3D11_RENDER_TARGET_VIEW_DESC where
  Format : Nat
  ViewDimension : D3D11_RTV_DIMENSION
  Texture1D_MipSlice : Nat
  Texture1DArray_MipSlice : Nat
  Texture1DArray_FirstArraySlice : Nat
  Texture1DArray_ArraySize : Nat
  Texture2D_MipSlice : Nat
  Texture2DArray_MipSlice : Nat
  Texture2DArray_FirstArraySlice : Nat
  Texture2DArray_ArraySize : Nat
  Texture2DMSArray_FirstArraySlice : Nat
  Texture2DMSArray_ArraySize : Nat
  Texture3D_MipSlice : Nat
  Texture3D_FirstWSlice : Nat
  Texture3D_WSize : Nat
  deriving DecidableEq

/-- The structure `D3D11_SHADER_RESOURCE_VIEW_DESC`. -/
structure D3D11_SHADER_RESOURCE_VIEW_DESC where
  Format : Nat
  ViewDimension : D3D11_SRV_DIMENSION
  Buffer_FirstElement : Nat
  Buffer_NumElements : Nat
  Texture1D_MostDetailedMip : Nat
  Texture1D_MipLevels : Nat
  Texture1DArray_MostDetailedMip : Nat
  Texture1DArray_MipLevels : Nat
  Texture1DArray_FirstArraySlice : Nat
  Texture1DArray_ArraySize : Nat
  Texture2D_MostDetailedMip : Nat
  Texture2D_MipLevels : Nat
  Texture2DArray_MostDetailedMip : Nat
  Texture2DArray_MipLevels : Nat
  Texture2DArray_FirstArraySlice : Nat
  Texture2DArray_ArraySize : Nat
  Texture2DMSArray_FirstArraySlice : Nat
  Texture2DMSArray_ArraySize : Nat
  Texture3D_MostDetailedMip : Nat
  Texture3D_MipLevels : Nat
  TextureCube_MostDetailedMip : Nat
  TextureCube_MipLevels : Nat
  TextureCubeArray_MostDetailedMip : Nat
  TextureCubeArray_MipLevels : Nat
  TextureCubeArray_First2DArrayFace : Nat
  TextureCubeArray_NumCubes : Nat
  BufferEx_FirstElement : Nat
  BufferEx_NumElements : Nat
  BufferEx_Flags : Nat
  deriving DecidableEq

/-- The structure `D3D11_UNORDERED_ACCESS_VIEW_DESC`. -/
structure D3D11_UNORDERED_ACCESS_VIEW_DESC where
  Format : Nat
  ViewDimension : D3D11_UAV_DIMENSION
  Buffer_FirstElement : Nat
  Buffer_NumElements : Nat
  Buffer_Flags : Nat
  Texture1D_MipSlice : Nat
  Texture1DArray_MipSlice : Nat
  Texture1DArray_FirstArraySlice : Nat
  Texture1DArray_ArraySize : Nat
  Texture2D_MipSlice : Nat
  Texture2DArray_MipSlice : Nat
  Texture2DArray_FirstArraySlice : Nat
  Texture2DArray_ArraySize : Nat
  Texture3D_MipSlice : Nat
  Texture3D_FirstWSlice : Nat
  Texture3D_WSize : Nat
  deriving DecidableEq

/-! ## Abstract description to native view descriptor (source lines 337-577)

Each function takes the description and the previous content of
`internal_desc`, and returns the new content, or `none` when an `assert`
fails. A tag without a `case` leaves everything but `Format` as it was. -/

/-- The overload `convert_resource_view_desc(const resource_view_desc &,
D3D11_DEPTH_STENCIL_VIEW_DESC &)`, source lines 337-373. -/
def convert_resource_view_desc_to_dsv (desc : resource_view_desc)
    (internal_desc : D3D11_DEPTH_STENCIL_VIEW_DESC) : Option D3D11_DEPTH_STENCIL_VIEW_DESC :=
  let internal_desc := { internal_desc with Format := desc.format }
  if desc.type ≠ resource_view_type.buffer ∧ desc.texture_levels = 1 then
    match desc.type with
    | resource_view_type.texture_1d =>
      some { internal_desc with
        ViewDimension := D3D11_DSV_DIMENSION_TEXTURE1D
        Texture1D_MipSlice := desc.texture_first_level }
    | resource_view_type.texture_1d_array =>
      some { internal_desc with
        ViewDimension := D3D11_DSV_DIMENSION_TEXTURE1DARRAY
        Texture1DArray_MipSlice := desc.texture_first_level
        Texture1DArray_FirstArraySlice := desc.texture_first_layer
        Texture1DArray_ArraySize := desc.texture_layers }
    | resource_view_type.texture_2d =>
      some { internal_desc with
        ViewDimension := D3D11_DSV_DIMENSION_TEXTURE2D
        Texture2D_MipSlice := desc.texture_first_level }
    | resource_view_type.texture_2d_array =>
      some { internal_desc with
        ViewDimension := D3D11_DSV_DIMENSION_TEXTURE2DARRAY
        Texture2DArray_MipSlice := desc.texture_first_level
        Texture2DArray_FirstArraySlice := desc.texture_first_layer
        Texture2DArray_ArraySize := desc.texture_layers }
    | resource_view_type.texture_2d_multisample =>
      some { internal_desc with
        ViewDimension := D3D11_DSV_DIMENSION_TEXTURE2DMS }
    | resource_view_type.texture_2d_multisample_array =>
      some { internal_desc with
        ViewDimension := D3D11_DSV_DIMENSION_TEXTURE2DMSARRAY
        Texture2DMSArray_FirstArraySlice := desc.texture_first_layer
        Texture2DMSArray_ArraySize := desc.texture_layers }
    | _ => some internal_desc
  else
    none

/-- The overload `convert_resource_view_desc(const resource_view_desc &,
D3D11_RENDER_TARGET_VIEW_DESC &)`, source lines 374-415. -/
def convert_resource_view_desc_to_rtv (desc : resource_view_desc)
    (internal_desc : D3D11_RENDER_TARGET_VIEW_DESC) : Option D3D11_RENDER_TARGET_VIEW_DESC :=
  let internal_desc := { internal_desc with Format := desc.format }
  if desc.type ≠ resource_view_type.buffer ∧ desc.texture_levels = 1 then
    match desc.type with
    | resource_view_type.texture_1d =>
      some { internal_desc with
        ViewDimension := D3D11_RTV_DIMENSION_TEXTURE1D
        Texture1D_MipSlice := desc.texture_first_level }
    | resource_view_type.texture_1d_array =>
      some { internal_desc with
        ViewDimension := D3D11_RTV_DIMENSION_TEXTURE1DARRAY
        Texture1DArray_MipSlice := desc.texture_first_level
        Texture1DArray_FirstArraySlice := desc.texture_first_layer
        Texture1DArray_ArraySize := desc.texture_layers }
    | resource_view_type.texture_2d =>
      some { internal_desc with
        ViewDimension := D3D11_RTV_DIMENSION_TEXTURE2D
        Texture2D_MipSlice := desc.texture_first_level }
    | resource_view_type.texture_2d_array =>
      some { internal_desc with
        ViewDimension := D3D11_RTV_DIMENSION_TEXTURE2DARRAY
        Texture2DArray_MipSlice := desc.texture_first_level
        Texture2DArray_FirstArraySlice := desc.texture_first_layer
        Texture2DArray_ArraySize := desc.texture_layers }
    | resource_view_type.texture_2d_multisample =>
      some { internal_desc with
        ViewDimension := D3D11_RTV_DIMENSION_TEXTURE2DMS }
    | resource_view_type.texture_2d_multisample_array =>
      some { internal_desc with
        ViewDimension := D3D11_RTV_DIMENSION_TEXTURE2DMSARRAY
        Texture2DMSArray_FirstArraySlice := desc.texture_first_layer
        Texture2DMSArray_ArraySize := desc.texture_layers }
    | resource_view_type.texture_3d =>
      some { internal_desc with
        ViewDimension := D3D11_RTV_DIMENSION_TEXTURE3D
        Texture3D_MipSlice := desc.texture_first_level
        Texture3D_FirstWSlice := desc.texture_first_layer
        Texture3D_WSize := desc.texture_layers }
    | _ => some internal_desc
  else
    none

/-- The overload `convert_resource_view_desc(const resource_view_desc &,
D3D11_SHADER_RESOURCE_VIEW_DESC &)`, source lines 443-508. -/
def convert_resource_view_desc_to_srv (desc : resource_view_desc)
    (internal_desc : D3D11_SHADER_RESOURCE_VIEW_DESC) : Option D3D11_SHADER_RESOURCE_VIEW_DESC :=
  let internal_desc := { internal_desc with Format := desc.format }
  match desc.type with
  | resource_view_type.buffer =>
    if desc.buffer_offset ≤ UINT_MAX then
      if desc.buffer_size ≤ UINT_MAX then
        some { internal_desc with
          ViewDimension := D3D11_SRV_DIMENSION_BUFFER
          Buffer_FirstElement := desc.buffer_offset % 2 ^ 32
          Buffer_NumElements := desc.buffer_size % 2 ^ 32 }
      else
        none
    else
      none
  | resource_view_type.texture_1d =>
    some { internal_desc with
      ViewDimension := D3D11_SRV_DIMENSION_TEXTURE1D
      Texture1D_MostDetailedMip := desc.texture_first_level
      Texture1D_MipLevels := desc.texture_levels }
  | resource_view_type.texture_1d_array =>
    some { internal_desc with
      ViewDimension := D3D11_SRV_DIMENSION_TEXTURE1DARRAY
      Texture1DArray_MostDetailedMip := desc.texture_first_level
      Texture1DArray_MipLevels := desc.texture_levels
      Texture1DArray_FirstArraySlice := desc.texture_first_layer
      Texture1DArray_ArraySize := desc.texture_layers }
  | resource_view_type.texture_2d =>
    some { internal_desc with
      ViewDimension := D3D11_SRV_DIMENSION_TEXTURE2D
      Texture2D_MostDetailedMip := desc.texture_first_level
      Texture2D_MipLevels := desc.texture_levels }
  | resource_view_type.texture_2d_array =>
    some { internal_desc with
      ViewDimension := D3D11_SRV_DIMENSION_TEXTURE2DARRAY
      Texture2DArray_MostDetailedMip := desc.texture_first_level
      Texture2DArray_MipLevels := desc.texture_levels
      Texture2DArray_FirstArraySlice := desc.texture_first_layer
      Texture2DArray_ArraySize := desc.texture_layers }
  | resource_view_type.texture_2d_multisample =>
    some { internal_desc with
      ViewDimension := D3D11_SRV_DIMENSION_TEXTURE2DMS }
  | resource_view_type.texture_2d_multisample_array =>
    some { internal_desc with
      ViewDimension := D3D11_SRV_DIMENSION_TEXTURE2DMSARRAY
      Texture2DMSArray_FirstArraySlice := desc.texture_first_layer
      Texture2DMSArray_ArraySize := desc.texture_layers }
  | resource_view_type.texture_3d =>
    some { internal_desc with
      ViewDimension := D3D11_SRV_DIMENSION_TEXTURE3D
      Texture3D_MostDetailedMip := desc.texture_first_level
      Texture3D_MipLevels := desc.texture_levels }
  | resource_view_type.texture_cube =>
    some { internal_desc with
      ViewDimension := D3D11_SRV_DIMENSION_TEXTURECUBE
      TextureCube_MostDetailedMip := desc.texture_first_level
      TextureCube_MipLevels := desc.texture_levels }
  | resource_view_type.texture_cube_array =>
    some { internal_desc with
      ViewDimension := D3D11_SRV_DIMENSION_TEXTURECUBEARRAY
      TextureCubeArray_MostDetailedMip := desc.texture_first_level
      TextureCubeArray_MipLevels := desc.texture_levels
      TextureCubeArray_First2DArrayFace := desc.texture_first_layer
      TextureCubeArray_NumCubes :=
        if desc.texture_layers = 0xFFFFFFFF then 0xFFFFFFFF else desc.texture_layers / 6 }
  | _ => some internal_desc

/-- The overload `convert_resource_view_desc(const resource_view_desc &,
D3D11_UNORDERED_ACCESS_VIEW_DESC &)`, source lines 537-577. -/
def convert_resource_view_desc_to_uav (desc : resource_view_desc)
    (internal_desc : D3D11_UNORDERED_ACCESS_VIEW_DESC) :
    Option D3D11_UNORDERED_ACCESS_VIEW_DESC :=
  let internal_desc := { internal_desc with Format := desc.format }
  if desc.type = resource_view_type.buffer ∨ desc.texture_levels = 1 then
    match desc.type with
    | resource_view_type.buffer =>
      if desc.buffer_offset ≤ UINT_MAX then
        if desc.buffer_size ≤ UINT_MAX then
          some { internal_desc with
            ViewDimension := D3D11_UAV_DIMENSION_BUFFER
            Buffer_FirstElement := desc.buffer_offset % 2 ^ 32
            Buffer_NumElements := desc.buffer_size % 2 ^ 32 }
        else
          none
      else
        none
    | resource_view_type.texture_1d =>
      some { internal_desc with
        ViewDimension := D3D11_UAV_DIMENSION_TEXTURE1D
        Texture1D_MipSlice := desc.texture_first_level }
    | resource_view_type.texture_1d_array =>
      some { internal_desc with
        ViewDimension := D3D11_UAV_DIMENSION_TEXTURE1DARRAY
        Texture1DArray_MipSlice := desc.texture_first_level
        Texture1DArray_FirstArraySlice := desc.texture_first_layer
        Texture1DArray_ArraySize := desc.texture_layers }
    | resource_view_type.texture_2d =>
      some { internal_desc with
        ViewDimension := D3D11_UAV_DIMENSION_TEXTURE2D
        Texture2D_MipSlice := desc.texture_first_level }
    | resource_view_type.texture_2d_array =>
      some { internal_desc with
        ViewDimension := D3D11_UAV_DIMENSION_TEXTURE2DARRAY
        Texture2DArray_MipSlice := desc.texture_first_level
        Texture2DArray_FirstArraySlice := desc.texture_first_layer
        Texture2DArray_ArraySize := desc.texture_layers }
    | resource_view_type.texture_3d =>
      some { internal_desc with
        ViewDimension := D3D11_UAV_DIMENSION_TEXTURE3D
        Texture3D_MipSlice := desc.texture_first_level
        Texture3D_FirstWSlice := desc.texture_first_layer
        Texture3D_WSize := desc.texture_layers }
    | _ => some internal_desc
  else
    none

/-! ## Native view descriptor to abstract description (source lines 605-860)

Each function starts from the value-initialised description; a
`ViewDimension` without a `case` returns it with only the format (and, where
the source sets it, `texture.levels = 1`) filled in. -/

/-- The overload `convert_resource_view_desc(const
D3D11_DEPTH_STENCIL_VIEW_DESC &)`, source lines 605-643. -/
def convert_resource_view_desc_from_dsv (internal_desc : D3D11_DEPTH_STENCIL_VIEW_DESC) :
    resource_view_desc :=
  let desc := resource_view_desc.value_initialized
  let desc := { desc with format := internal_desc.Format }
  let desc := { desc with texture_levels := 1 }
  match internal_desc.ViewDimension with
  | D3D11_DSV_DIMENSION_TEXTURE1D =>
    { desc with
      type := resource_view_type.texture_1d
      texture_first_level := internal_desc.Texture1D_MipSlice }
  | D3D11_DSV_DIMENSION_TEXTURE1DARRAY =>
    { desc with
      type := resource_view_type.texture_1d_array
      texture_first_level := internal_desc.Texture1DArray_MipSlice
      texture_first_layer := internal_desc.Texture1DArray_FirstArraySlice
      texture_layers := internal_desc.Texture1DArray_ArraySize }
  | D3D11_DSV_DIMENSION_TEXTURE2D =>
    { desc with
      type := resource_view_type.texture_2d
      texture_first_level := internal_desc.Texture2D_MipSlice }
  | D3D11_DSV_DIMENSION_TEXTURE2DARRAY =>
    { desc with
      type := resource_view_type.texture_2d_array
      texture_first_level := internal_desc.Texture2DArray_MipSlice
      texture_first_layer := internal_desc.Texture2DArray_FirstArraySlice
      texture_layers := internal_desc.Texture2DArray_ArraySize }
  | D3D11_DSV_DIMENSION_TEXTURE2DMS =>
    { desc with
      type := resource_view_type.texture_2d_multisample }
  | D3D11_DSV_DIMENSION_TEXTURE2DMSARRAY =>
    { desc with
      type := resource_view_type.texture_2d_multisample_array
      texture_first_layer := internal_desc.Texture2DMSArray_FirstArraySlice
      texture_layers := internal_desc.Texture2DMSArray_ArraySize }
  | _ => desc

/-- The overload `convert_resource_view_desc(const
D3D11_RENDER_TARGET_VIEW_DESC &)`, source lines 644-687. -/
def convert_resource_view_desc_from_rtv (internal_desc : D3D11_RENDER_TARGET_VIEW_DESC) :
    resource_view_desc :=
  let desc := resource_view_desc.value_initialized
  let desc := { desc with format := internal_desc.Format }
  let desc := { desc with texture_levels := 1 }
  match internal_desc.ViewDimension with
  | D3D11_RTV_DIMENSION_TEXTURE1D =>
    { desc with
      type := resource_view_type.texture_1d
      texture_first_level := internal_desc.Texture1D_MipSlice }
  | D3D11_RTV_DIMENSION_TEXTURE1DARRAY =>
    { desc with
      type := resource_view_type.texture_1d_array
      texture_first_level := internal_desc.Texture1DArray_MipSlice
      texture_first_layer := internal_desc.Texture1DArray_FirstArraySlice
      texture_layers := internal_desc.Texture1DArray_ArraySize }
  | D3D11_RTV_DIMENSION_TEXTURE2D =>
    { desc with
      type := resource_view_type.texture_2d
      texture_first_level := internal_desc.Texture2D_MipSlice }
  | D3D11_RTV_DIMENSION_TEXTURE2DARRAY =>
    { desc with
      type := resource_view_type.texture_2d_array
      texture_first_level := internal_desc.Texture2DArray_MipSlice
      texture_first_layer := internal_desc.Texture2DArray_FirstArraySlice
      texture_layers := internal_desc.Texture2DArray_ArraySize }
  | D3D11_RTV_DIMENSION_TEXTURE2DMS =>
    { desc with
      type := resource_view_type.texture_2d_multisample }
  | D3D11_RTV_DIMENSION_TEXTURE2DMSARRAY =>
    { desc with
      type := resource_view_type.texture_2d_multisample_array
      texture_first_layer := internal_desc.Texture2DMSArray_FirstArraySlice
      texture_layers := internal_desc.Texture2DMSArray_ArraySize }
  | D3D11_RTV_DIMENSION_TEXTURE3D =>
    { desc with
      type := resource_view_type.texture_3d
      texture_first_level := internal_desc.Texture3D_MipSlice
      texture_first_layer := internal_desc.Texture3D_FirstWSlice
      texture_layers := internal_desc.Texture3D_WSize }
  | _ => desc

/-- The overload `convert_resource_view_desc(const
D3D11_SHADER_RESOURCE_VIEW_DESC &)`, source lines 717-788. -/
def convert_resource_view_desc_from_srv (internal_desc : D3D11_SHADER_RESOURCE_VIEW_DESC) :
    resource_view_desc :=
  let desc := resource_view_desc.value_initialized
  let desc := { desc with format := internal_desc.Format }
  match internal_desc.ViewDimension with
  | D3D11_SRV_DIMENSION_BUFFER =>
    let desc := { desc with type := resource_view_type.buffer }
    let desc := desc.set_buffer_offset internal_desc.Buffer_FirstElement
    desc.set_buffer_size internal_desc.Buffer_NumElements
  | D3D11_SRV_DIMENSION_TEXTURE1D =>
    { desc with
      type := resource_view_type.texture_1d
      texture_first_level := internal_desc.Texture1D_MostDetailedMip
      texture_levels := internal_desc.Texture1D_MipLevels }
  | D3D11_SRV_DIMENSION_TEXTURE1DARRAY =>
    { desc with
      type := resource_view_type.texture_1d_array
      texture_first_level := internal_desc.Texture1DArray_MostDetailedMip
      texture_levels := internal_desc.Texture1DArray_MipLevels
      texture_first_layer := internal_desc.Texture1DArray_FirstArraySlice
      texture_layers := internal_desc.Texture1DArray_ArraySize }
  | D3D11_SRV_DIMENSION_TEXTURE2D =>
    { desc with
      type := resource_view_type.texture_2d
      texture_first_level := internal_desc.Texture2D_MostDetailedMip
      texture_levels := internal_desc.Texture2D_MipLevels }
  | D3D11_SRV_DIMENSION_TEXTURE2DARRAY =>
    { desc with
      type := resource_view_type.texture_2d_array
      texture_first_level := internal_desc.Texture2DArray_MostDetailedMip
      texture_levels := internal_desc.Texture2DArray_MipLevels
      texture_first_layer := internal_desc.Texture2DArray_FirstArraySlice
      texture_layers := internal_desc.Texture2DArray_ArraySize }
  | D3D11_SRV_DIMENSION_TEXTURE2DMS =>
    { desc with
      type := resource_view_type.texture_2d_multisample }
  | D3D11_SRV_DIMENSION_TEXTURE2DMSARRAY =>
    { desc with
      type := resource_view_type.texture_2d_multisample_array
      texture_first_layer := internal_desc.Texture2DMSArray_FirstArraySlice
      texture_layers := internal_desc.Texture2DMSArray_ArraySize }
  | D3D11_SRV_DIMENSION_TEXTURE3D =>
    { desc with
      type := resource_view_type.texture_3d
      texture_first_level := internal_desc.Texture3D_MostDetailedMip
      texture_levels := internal_desc.Texture3D_MipLevels }
  | D3D11_SRV_DIMENSION_TEXTURECUBE =>
    { desc with
      type := resource_view_type.texture_cube
      texture_first_level := internal_desc.TextureCube_MostDetailedMip
      texture_levels := internal_desc.TextureCube_MipLevels }
  | D3D11_SRV_DIMENSION_TEXTURECUBEARRAY =>
    { desc with
      type := resource_view_type.texture_cube_array
      texture_first_level := internal_desc.TextureCubeArray_MostDetailedMip
      texture_levels := internal_desc.TextureCubeArray_MipLevels
      texture_first_layer := internal_desc.TextureCubeArray_First2DArrayFace
      texture_layers :=
        if internal_desc.TextureCubeArray_NumCubes = 0xFFFFFFFF then 0xFFFFFFFF
        else internal_desc.TextureCubeArray_NumCubes * 6 % 2 ^ 32 }
  | D3D11_SRV_DIMENSION_BUFFEREX =>
    let desc := desc.set_buffer_offset internal_desc.BufferEx_FirstElement
    desc.set_buffer_size internal_desc.BufferEx_NumElements
  | _ => desc

/-- The overload `convert_resource_view_desc(const
D3D11_UNORDERED_ACCESS_VIEW_DESC &)`, source lines 819-860. -/
def convert_resource_view_desc_from_uav (internal_desc : D3D11_UNORDERED_ACCESS_VIEW_DESC) :
    resource_view_desc :=
  let desc := resource_view_desc.value_initialized
  let desc := { desc with format := internal_desc.Format }
  let desc := { desc with texture_levels := 1 }
  match internal_desc.ViewDimension with
  | D3D11_UAV_DIMENSION_BUFFER =>
    let desc := { desc with type := resource_view_type.buffer }
    let desc := desc.set_buffer_offset internal_desc.Buffer_FirstElement
    desc.set_buffer_size internal_desc.Buffer_NumElements
  | D3D11_UAV_DIMENSION_TEXTURE1D =>
    { desc with
      type := resource_view_type.texture_1d
      texture_first_level := internal_desc.Texture1D_MipSlice }
  | D3D11_UAV_DIMENSION_TEXTURE1DARRAY =>
    { desc with
      type := resource_view_type.texture_1d_array
      texture_first_level := internal_desc.Texture1DArray_MipSlice
      texture_first_layer := internal_desc.Texture1DArray_FirstArraySlice
      texture_layers := internal_desc.Texture1DArray_ArraySize }
  | D3D11_UAV_DIMENSION_TEXTURE2D =>
    { desc with
      type := resource_view_type.texture_2d
      texture_first_level := internal_desc.Texture2D_MipSlice }
  | D3D11_UAV_DIMENSION_TEXTURE2DARRAY =>
    { desc with
      type := resource_view_type.texture_2d_array
      texture_first_level := internal_desc.Texture2DArray_MipSlice
      texture_first_layer := internal_desc.Texture2DArray_FirstArraySlice
      texture_layers := internal_desc.Texture2DArray_ArraySize }
  | D3D11_UAV_DIMENSION_TEXTURE3D =>
    { desc with
      type := resource_view_type.texture_3d
      texture_first_level := internal_desc.Texture3D_MipSlice
      texture_first_layer := internal_desc.Texture3D_FirstWSlice
      texture_layers := internal_desc.Texture3D_WSize }
  | _ => desc

/-! ## Payload fields read by each case

For every translator, the payload fields that the `case` of a tag reads
(together with what the leading `assert` reads), as a list of projections;
`none` for a tag that has no `case`. -/

/-- Fields of the description read by the depth-stencil translator. -/
def dsv_case_reads : resource_view_type → Option (List (resource_view_desc → Nat))
  | resource_view_type.texture_1d =>
    some [resource_view_desc.texture_levels, resource_view_desc.texture_first_level]
  | resource_view_type.texture_1d_array =>
    some [resource_view_desc.texture_levels, resource_view_desc.texture_first_level,
      resource_view_desc.texture_first_layer, resource_view_desc.texture_layers]
  | resource_view_type.texture_2d =>
    some [resource_view_desc.texture_levels, resource_view_desc.texture_first_level]
  | resource_view_type.texture_2d_array =>
    some [resource_view_desc.texture_levels, resource_view_desc.texture_first_level,
      resource_view_desc.texture_first_layer, resource_view_desc.texture_layers]
  | resource_view_type.texture_2d_multisample =>
    some [resource_view_desc.texture_levels]
  | resource_view_type.texture_2d_multisample_array =>
    some [resource_view_desc.texture_levels, resource_view_desc.texture_first_layer,
      resource_view_desc.texture_layers]
  | _ => none

/-- Fields of the description read by the render-target translator. -/
def rtv_case_reads : resource_view_type → Option (List (resource_view_desc → Nat))
  | resource_view_type.texture_1d =>
    some [resource_view_desc.texture_levels, resource_view_desc.texture_first_level]
  | resource_view_type.texture_1d_array =>
    some [resource_view_desc.texture_levels, resource_view_desc.texture_first_level,
      resource_view_desc.texture_first_layer, resource_view_desc.texture_layers]
  | resource_view_type.texture_2d =>
    some [resource_view_desc.texture_levels, resource_view_desc.texture_first_level]
  | resource_view_type.texture_2d_array =>
    some [resource_view_desc.texture_levels, resource_view_desc.texture_first_level,
      resource_view_desc.texture_first_layer, resource_view_desc.texture_layers]
  | resource_view_type.texture_2d_multisample =>
    some [resource_view_desc.texture_levels]
  | resource_view_type.texture_2d_multisample_array =>
    some [resource_view_desc.texture_levels, resource_view_desc.texture_first_layer,
      resource_view_desc.texture_layers]
  | resource_view_type.texture_3d =>
    some [resource_view_desc.texture_levels, resource_view_desc.texture_first_level,
      resource_view_desc.texture_first_layer, resource_view_desc.texture_layers]
  | _ => none

/-- Fields of the description read by the shader-resource translator. -/
def srv_case_reads : resource_view_type → Option (List (resource_view_desc → Nat))
  | resource_view_type.buffer =>
    some [resource_view_desc.buffer_offset, resource_view_desc.buffer_size]
  | resource_view_type.texture_1d =>
    some [resource_view_desc.texture_first_level, resource_view_desc.texture_levels]
  | resource_view_type.texture_1d_array =>
    some [resource_view_desc.texture_first_level, resource_view_desc.texture_levels,
      resource_view_desc.texture_first_layer, resource_view_desc.texture_layers]
  | resource_view_type.texture_2d =>
    some [resource_view_desc.texture_first_level, resource_view_desc.texture_levels]
  | resource_view_type.texture_2d_array =>
    some [resource_view_desc.texture_first_level, resource_view_desc.texture_levels,
      resource_view_desc.texture_first_layer, resource_view_desc.texture_layers]
  | resource_view_type.texture_2d_multisample =>
    some []
  | resource_view_type.texture_2d_multisample_array =>
    some [resource_view_desc.texture_first_layer, resource_view_desc.texture_layers]
  | resource_view_type.texture_3d =>
    some [resource_view_desc.texture_first_level, resource_view_desc.texture_levels]
  | resource_view_type.texture_cube =>
    some [resource_view_desc.texture_first_level, resource_view_desc.texture_levels]
  | resource_view_type.texture_cube_array =>
    some [resource_view_desc.texture_first_level, resource_view_desc.texture_levels,
      resource_view_desc.texture_first_layer, resource_view_desc.texture_layers]
  | _ => none

/-- Fields of the description read by the unordered-access translator. -/
def uav_case_reads : resource_view_type → Option (List (resource_view_desc → Nat))
  | resource_view_type.buffer =>
    some [resource_view_desc.buffer_offset, resource_view_desc.buffer_size]
  | resource_view_type.texture_1d =>
    some [resource_view_desc.texture_levels, resource_view_desc.texture_first_level]
  | resource_view_type.texture_1d_array =>
    some [resource_view_desc.texture_levels, resource_view_desc.texture_first_level,
      resource_view_desc.texture_first_layer, resource_view_desc.texture_layers]
  | resource_view_type.texture_2d =>
    some [resource_view_desc.texture_levels, resource_view_desc.texture_first_level]
  | resource_view_type.texture_2d_array =>
    some [resource_view_desc.texture_levels, resource_view_desc.texture_first_level,
      resource_view_desc.texture_first_layer, resource_view_desc.texture_layers]
  | resource_view_type.texture_3d =>
    some [resource_view_desc.texture_levels, resource_view_desc.texture_first_level,
      resource_view_desc.texture_first_layer, resource_view_desc.texture_layers]
  | _ => none

/-- Fields of the native descriptor read by the reverse depth-stencil translator. -/
def dsv_dimension_reads :
    D3D11_DSV_DIMENSION → Option (List (D3D11_DEPTH_STENCIL_VIEW_DESC → Nat))
  | D3D11_DSV_DIMENSION_TEXTURE1D =>
    some [D3D11_DEPTH_STENCIL_VIEW_DESC.Texture1D_MipSlice]
  | D3D11_DSV_DIMENSION_TEXTURE1DARRAY =>
    some [D3D11_DEPTH_STENCIL_VIEW_DESC.Texture1DArray_MipSlice,
      D3D11_DEPTH_STENCIL_VIEW_DESC.Texture1DArray_FirstArraySlice,
      D3D11_DEPTH_STENCIL_VIEW_DESC.Texture1DArray_ArraySize]
  | D3D11_DSV_DIMENSION_TEXTURE2D =>
    some [D3D11_DEPTH_STENCIL_VIEW_DESC.Texture2D_MipSlice]
  | D3D11_DSV_DIMENSION_TEXTURE2DARRAY =>
    some [D3D11_DEPTH_STENCIL_VIEW_DESC.Texture2DArray_MipSlice,
      D3D11_DEPTH_STENCIL_VIEW_DESC.Texture2DArray_FirstArraySlice,
      D3D11_DEPTH_STENCIL_VIEW_DESC.Texture2DArray_ArraySize]
  | D3D11_DSV_DIMENSION_TEXTURE2DMS =>
    some []
  | D3D11_DSV_DIMENSION_TEXTURE2DMSARRAY =>
    some [D3D11_DEPTH_STENCIL_VIEW_DESC.Texture2DMSArray_FirstArraySlice,
      D3D11_DEPTH_STENCIL_VIEW_DESC.Texture2DMSArray_ArraySize]
  | _ => none

/-- Fields of the native descriptor read by the reverse render-target translator. -/
def rtv_dimension_reads :
    D3D11_RTV_DIMENSION → Option (List (D3D11_RENDER_TARGET_VIEW_DESC → Nat))
  | D3D11_RTV_DIMENSION_TEXTURE1D =>
    some [D3D11_RENDER_TARGET_VIEW_DESC.Texture1D_MipSlice]
  | D3D11_RTV_DIMENSION_TEXTURE1DARRAY =>
    some [D3D11_RENDER_TARGET_VIEW_DESC.Texture1DArray_MipSlice,
      D3D11_RENDER_TARGET_VIEW_DESC.Texture1DArray_FirstArraySlice,
      D3D11_RENDER_TARGET_VIEW_DESC.Texture1DArray_ArraySize]
  | D3D11_RTV_DIMENSION_TEXTURE2D =>
    some [D3D11_RENDER_TARGET_VIEW_DESC.Texture2D_MipSlice]
  | D3D11_RTV_DIMENSION_TEXTURE2DARRAY =>
    some [D3D11_RENDER_TARGET_VIEW_DESC.Texture2DArray_MipSlice,
      D3D11_RENDER_TARGET_VIEW_DESC.Texture2DArray_FirstArraySlice,
      D3D11_RENDER_TARGET_VIEW_DESC.Texture2DArray_ArraySize]
  | D3D11_RTV_DIMENSION_TEXTURE2DMS =>
    some []
  | D3D11_RTV_DIMENSION_TEXTURE2DMSARRAY =>
    some [D3D11_RENDER_TARGET_VIEW_DESC.Texture2DMSArray_FirstArraySlice,
      D3D11_RENDER_TARGET_VIEW_DESC.Texture2DMSArray_ArraySize]
  | D3D11_RTV_DIMENSION_TEXTURE3D =>
    some [D3D11_RENDER_TARGET_VIEW_DESC.Texture3D_MipSlice,
      D3D11_RENDER_TARGET_VIEW_DESC.Texture3D_FirstWSlice,
      D3D11_RENDER_TARGET_VIEW_DESC.Texture3D_WSize]
  | _ => none

/-- Fields of the native descriptor read by the reverse shader-resource translator. -/
def srv_dimension_reads :
    D3D11_SRV_DIMENSION → Option (List (D3D11_SHADER_RESOURCE_VIEW_DESC → Nat))
  | D3D11_SRV_DIMENSION_BUFFER =>
    some [D3D11_SHADER_RESOURCE_VIEW_DESC.Buffer_FirstElement,
      D3D11_SHADER_RESOURCE_VIEW_DESC.Buffer_NumElements]
  | D3D11_SRV_DIMENSION_TEXTURE1D =>
    some [D3D11_SHADER_RESOURCE_VIEW_DESC.Texture1D_MostDetailedMip,
      D3D11_SHADER_RESOURCE_VIEW_DESC.Texture1D_MipLevels]
  | D3D11_SRV_DIMENSION_TEXTURE1DARRAY =>
    some [D3D11_SHADER_RESOURCE_VIEW_DESC.Texture1DArray_MostDetailedMip,
      D3D11_SHADER_RESOURCE_VIEW_DESC.Texture1DArray_MipLevels,
      D3D11_SHADER_RESOURCE_VIEW_DESC.Texture1DArray_FirstArraySlice,
      D3D11_SHADER_RESOURCE_VIEW_DESC.Texture1DArray_ArraySize]
  | D3D11_SRV_DIMENSION_TEXTURE2D =>
    some [D3D11_SHADER_RESOURCE_VIEW_DESC.Texture2D_MostDetailedMip,
      D3D11_SHADER_RESOURCE_VIEW_DESC.Texture2D_MipLevels]
  | D3D11_SRV_DIMENSION_TEXTURE2DARRAY =>
    some [D3D11_SHADER_RESOURCE_VIEW_DESC.Texture2DArray_MostDetailedMip,
      D3D11_SHADER_RESOURCE_VIEW_DESC.Texture2DArray_MipLevels,
      D3D11_SHADER_RESOURCE_VIEW_DESC.Texture2DArray_FirstArraySlice,
      D3D11_SHADER_RESOURCE_VIEW_DESC.Texture2DArray_ArraySize]
  | D3D11_SRV_DIMENSION_TEXTURE2DMS =>
    some []
  | D3D11_SRV_DIMENSION_TEXTURE2DMSARRAY =>
    some [D3D11_SHADER_RESOURCE_VIEW_DESC.Texture2DMSArray_FirstArraySlice,
      D3D11_SHADER_RESOURCE_VIEW_DESC.Texture2DMSArray_ArraySize]
  | D3D11_SRV_DIMENSION_TEXTURE3D =>
    some [D3D11_SHADER_RESOURCE_VIEW_DESC.Texture3D_MostDetailedMip,
      D3D11_SHADER_RESOURCE_VIEW_DESC.Texture3D_MipLevels]
  | D3D11_SRV_DIMENSION_TEXTURECUBE =>
    some [D3D11_SHADER_RESOURCE_VIEW_DESC.TextureCube_MostDetailedMip,
      D3D11_SHADER_RESOURCE_VIEW_DESC.TextureCube_MipLevels]
  | D3D11_SRV_DIMENSION_TEXTURECUBEARRAY =>
    some [D3D11_SHADER_RESOURCE_VIEW_DESC.TextureCubeArray_MostDetailedMip,
      D3D11_SHADER_RESOURCE_VIEW_DESC.TextureCubeArray_MipLevels,
      D3D11_SHADER_RESOURCE_VIEW_DESC.TextureCubeArray_First2DArrayFace,
      D3D11_SHADER_RESOURCE_VIEW_DESC.TextureCubeArray_NumCubes]
  | D3D11_SRV_DIMENSION_BUFFEREX =>
    some [D3D11_SHADER_RESOURCE_VIEW_DESC.BufferEx_FirstElement,
      D3D11_SHADER_RESOURCE_VIEW_DESC.BufferEx_NumElements]
  | _ => none

/-- Fields of the native descriptor read by the reverse unordered-access translator. -/
def uav_dimension_reads :
    D3D11_UAV_DIMENSION → Option (List (D3D11_UNORDERED_ACCESS_VIEW_DESC → Nat))
  | D3D11_UAV_DIMENSION_BUFFER =>
    some [D3D11_UNORDERED_ACCESS_VIEW_DESC.Buffer_FirstElement,
      D3D11_UNORDERED_ACCESS_VIEW_DESC.Buffer_NumElements]
  | D3D11_UAV_DIMENSION_TEXTURE1D =>
    some [D3D11_UNORDERED_ACCESS_VIEW_DESC.Texture1D_MipSlice]
  | D3D11_UAV_DIMENSION_TEXTURE1DARRAY =>
    some [D3D11_UNORDERED_ACCESS_VIEW_DESC.Texture1DArray_MipSlice,
      D3D11_UNORDERED_ACCESS_VIEW_DESC.Texture1DArray_FirstArraySlice,
      D3D11_UNORDERED_ACCESS_VIEW_DESC.Texture1DArray_ArraySize]
  | D3D11_UAV_DIMENSION_TEXTURE2D =>
    some [D3D11_UNORDERED_ACCESS_VIEW_DESC.Texture2D_MipSlice]
  | D3D11_UAV_DIMENSION_TEXTURE2DARRAY =>
    some [D3D11_UNORDERED_ACCESS_VIEW_DESC.Texture2DArray_MipSlice,
      D3D11_UNORDERED_ACCESS_VIEW_DESC.Texture2DArray_FirstArraySlice,
      D3D11_UNORDERED_ACCESS_VIEW_DESC.Texture2DArray_ArraySize]
  | D3D11_UAV_DIMENSION_TEXTURE3D =>
    some [D3D11_UNORDERED_ACCESS_VIEW_DESC.Texture3D_MipSlice,
      D3D11_UNORDERED_ACCESS_VIEW_DESC.Texture3D_FirstWSlice,
      D3D11_UNORDERED_ACCESS_VIEW_DESC.Texture3D_WSize]
  | _ => none

/-! ## Concrete descriptors used in the examples -/

/-- A zero-filled `D3D11_SHADER_RESOURCE_VIEW_DESC`, the previous content of
`internal_desc` in the examples. -/
def zeroed_srv_desc : D3D11_SHADER_RESOURCE_VIEW_DESC :=
  { Format := 0
    ViewDimension := D3D11_SRV_DIMENSION_UNKNOWN
    Buffer_FirstElement := 0
    Buffer_NumElements := 0
    Texture1D_MostDetailedMip := 0
    Texture1D_MipLevels := 0
    Texture1DArray_MostDetailedMip := 0
    Texture1DArray_MipLevels := 0
    Texture1DArray_FirstArraySlice := 0
    Texture1DArray_ArraySize := 0
    Texture2D_MostDetailedMip := 0
    Texture2D_MipLevels := 0
    Texture2DArray_MostDetailedMip := 0
    Texture2DArray_MipLevels := 0
    Texture2DArray_FirstArraySlice := 0
    Texture2DArray_ArraySize := 0
    Texture2DMSArray_FirstArraySlice := 0
    Texture2DMSArray_ArraySize := 0
    Texture3D_MostDetailedMip := 0
    Texture3D_MipLevels := 0
    TextureCube_MostDetailedMip := 0
    TextureCube_MipLevels := 0
    TextureCubeArray_MostDetailedMip := 0
    TextureCubeArray_MipLevels := 0
    TextureCubeArray_First2DArrayFace := 0
    TextureCubeArray_NumCubes := 0
    BufferEx_FirstElement := 0
    BufferEx_NumElements := 0
    BufferEx_Flags := 0 }

/-- A zero-filled `D3D11_DEPTH_STENCIL_VIEW_DESC`, the previous content of
`internal_desc` in the examples. -/
def zeroed_dsv_desc : D3D11_DEPTH_STENCIL_VIEW_DESC :=
  { Format := 0
    ViewDimension := D3D11_DSV_DIMENSION_UNKNOWN
    Flags := 0
    Texture1D_MipSlice := 0
    Texture1DArray_MipSlice := 0
    Texture1DArray_FirstArraySlice := 0
    Texture1DArray_ArraySize := 0
    Texture2D_MipSlice := 0
    Texture2DArray_MipSlice := 0
    Texture2DArray_FirstArraySlice := 0
    Texture2DArray_ArraySize := 0
    Texture2DMSArray_FirstArraySlice := 0
    Texture2DMSArray_ArraySize := 0 }

/-! ## Memory heap and native usage (source lines 11-47) -/

/-- Modelled from the spec: the enumeration `reshade::api::memory_heap`,
declared in the API header that is missing from the sources. The spec gives
it these four values. -/
inductive memory_heap where
  | gpu_only
  | cpu_to_gpu
  | gpu_to_cpu
  | cpu_only
  deriving DecidableEq

/-- The enumeration `D3D11_USAGE` of `d3d11.h`. -/
inductive D3D11_USAGE where
  | D3D11_USAGE_DEFAULT
  | D3D11_USAGE_IMMUTABLE
  | D3D11_USAGE_DYNAMIC
  | D3D11_USAGE_STAGING
  deriving DecidableEq

open D3D11_USAGE

/-- The flag `D3D11_CPU_ACCESS_WRITE` of `d3d11.h`. -/
def D3D11_CPU_ACCESS_WRITE : Nat := 0x10000
/-- The flag `D3D11_CPU_ACCESS_READ` of `d3d11.h`. -/
def D3D11_CPU_ACCESS_READ : Nat := 0x20000

/-- The function `convert_memory_heap_to_d3d_usage(heap, usage,
cpu_access_flags)`: the new content of `usage` and of `cpu_access_flags`.
Every case assigns `usage`, so its previous content is not a parameter; the
flags are only ever added to. -/
def convert_memory_heap_to_d3d_usage (heap : memory_heap) (cpu_access_flags : Nat) :
    D3D11_USAGE × Nat :=
  match heap with
  | memory_heap.gpu_only =>
    (D3D11_USAGE_DEFAULT, cpu_access_flags)
  | memory_heap.cpu_to_gpu =>
    (D3D11_USAGE_DYNAMIC, cpu_access_flags ||| D3D11_CPU_ACCESS_WRITE)
  | memory_heap.gpu_to_cpu =>
    (D3D11_USAGE_STAGING, cpu_access_flags ||| D3D11_CPU_ACCESS_READ)
  | memory_heap.cpu_only =>
    (D3D11_USAGE_STAGING, cpu_access_flags ||| (D3D11_CPU_ACCESS_READ ||| D3D11_CPU_ACCESS_WRITE))

/-- The function `convert_d3d_usage_to_memory_heap(usage, heap)`: the new
content of `heap`. Every enumerator of `D3D11_USAGE` has a case, so the
previous content of `heap` is not a parameter. -/
def convert_d3d_usage_to_memory_heap (usage : D3D11_USAGE) : memory_heap :=
  match usage with
  | D3D11_USAGE_DEFAULT => memory_heap.gpu_only
  | D3D11_USAGE_IMMUTABLE => memory_heap.gpu_only
  | D3D11_USAGE_DYNAMIC => memory_heap.cpu_to_gpu
  | D3D11_USAGE_STAGING => memory_heap.gpu_to_cpu

/-! ## Abstract resource description -/

/-- Modelled from the spec: the tag `reshade::api::resource_type` of a resource
description, declared in the API header that is missing from the sources. The
spec gives it these four values. -/
inductive resource_type where
  | buffer
  | texture_1d
  | texture_2d
  | texture_3d
  deriving DecidableEq

/-- Modelled from the spec: the structure `reshade::api::resource_desc`,
declared in the API header that is missing from the sources: a tag, a payload
that is a union of `buffer` (one 64-bit field `size`) and `texture` (32-bit
`width` and `height`, 16-bit `depth_or_layers`, `levels` and `samples`, and a
`format`), a heap and a usage bitmask. As for `resource_view_desc`, the
payload is stored as the fields of the `texture` member and `buffer.size` is
the little-endian 64-bit view of `width` and `height`. -/
structure resource_desc where
  type : resource_type
  texture_width : Nat
  texture_height : Nat
  texture_depth_or_layers : Nat
  texture_levels : Nat
  texture_format : Nat
  texture_samples : Nat
  heap : memory_heap
  usage : Nat
  deriving DecidableEq

/-- The 64-bit member `buffer.size`. -/
def resource_desc.buffer_size (desc : resource_desc) : Nat :=
  desc.texture_width + 2 ^ 32 * desc.texture_height

/-- The assignment `desc.buffer.size = value`. -/
def resource_desc.set_buffer_size (desc : resource_desc) (value : Nat) : resource_desc :=
  { desc with
    texture_width := value % 2 ^ 32
    texture_height := value / 2 ^ 32 % 2 ^ 32 }

/-- The value-initialised description of `resource_desc desc = {};`: every
member zero. The tag and the heap are given the first enumerator; every
translator below assigns both before it returns, so this choice is never
observed. -/
def resource_desc.value_initialized : resource_desc :=
  { type := resource_type.buffer
    texture_width := 0
    texture_height := 0
    texture_depth_or_layers := 0
    texture_levels := 0
    texture_format := 0
    texture_samples := 0
    heap := memory_heap.gpu_only
    usage := 0 }

/-! ## Native resource descriptors -/

/-- The value of `std::numeric_limits<uint16_t>::max()`. -/
def UINT16_MAX : Nat := 65535

/-- The structure `D3D11_BUFFER_DESC` of `d3d11.h`. -/
structure D3D11_BUFFER_DESC where
  ByteWidth : Nat
  Usage : D3D11_USAGE
  BindFlags : Nat
  CPUAccessFlags : Nat
  MiscFlags : Nat
  StructureByteStride : Nat
  deriving DecidableEq

/-- The structure `D3D11_TEXTURE1D_DESC` of `d3d11.h`. -/
structure D3D11_TEXTURE1D_DESC where
  Width : Nat
  MipLevels : Nat
  ArraySize : Nat
  Format : Nat
  Usage : D3D11_USAGE
  BindFlags : Nat
  CPUAccessFlags : Nat
  MiscFlags : Nat
  deriving DecidableEq

/-- The structure `D3D11_TEXTURE2D_DESC` of `d3d11.h`; `SampleDesc_Count` and
`SampleDesc_Quality` are the fields of its member `SampleDesc`. -/
structure D3D11_TEXTURE2D_DESC where
  Width : Nat
  Height : Nat
  MipLevels : Nat
  ArraySize : Nat
  Format : Nat
  SampleDesc_Count : Nat
  SampleDesc_Quality : Nat
  Usage : D3D11_USAGE
  BindFlags : Nat
  CPUAccessFlags : Nat
  MiscFlags : Nat
  deriving DecidableEq

/-- The structure `D3D11_TEXTURE3D_DESC` of `d3d11.h`. -/
structure D3D11_TEXTURE3D_DESC where
  Width : Nat
  Height : Nat
  Depth : Nat
  MipLevels : Nat
  Format : Nat
  Usage : D3D11_USAGE
  BindFlags : Nat
  CPUAccessFlags : Nat
  MiscFlags : Nat
  deriving DecidableEq

/-! ## Resource description to native descriptor (source lines 234-277) -/

/-- The overload `convert_resource_desc(const resource_desc &,
D3D11_BUFFER_DESC &)`, source lines 234-241. -/
def convert_resource_desc_to_buffer (desc : resource_desc)
    (internal_desc : D3D11_BUFFER_DESC) : Option D3D11_BUFFER_DESC :=
  if desc.type = resource_type.buffer then
    if desc.buffer_size ≤ UINT_MAX then
      some { internal_desc with
        ByteWidth := desc.buffer_size % 2 ^ 32
        Usage := (convert_memory_heap_to_d3d_usage desc.heap internal_desc.CPUAccessFlags).1
        CPUAccessFlags :=
          (convert_memory_heap_to_d3d_usage desc.heap internal_desc.CPUAccessFlags).2
        BindFlags := convert_resource_usage_to_bind_flags desc.usage internal_desc.BindFlags }
    else
      none
  else
    none

/-- The overload `convert_resource_desc(const resource_desc &,
D3D11_TEXTURE1D_DESC &)`, source lines 242-253. -/
def convert_resource_desc_to_texture1d (desc : resource_desc)
    (internal_desc : D3D11_TEXTURE1D_DESC) : Option D3D11_TEXTURE1D_DESC :=
  if desc.type = resource_type.texture_1d then
    if desc.texture_height = 1 then
      if desc.texture_samples = 1 then
        some { internal_desc with
          Width := desc.texture_width
          MipLevels := desc.texture_levels
          ArraySize := desc.texture_depth_or_layers
          Format := desc.texture_format
          Usage := (convert_memory_heap_to_d3d_usage desc.heap internal_desc.CPUAccessFlags).1
          CPUAccessFlags :=
            (convert_memory_heap_to_d3d_usage desc.heap internal_desc.CPUAccessFlags).2
          BindFlags := convert_resource_usage_to_bind_flags desc.usage internal_desc.BindFlags }
      else
        none
    else
      none
  else
    none

/-- The overload `convert_resource_desc(const resource_desc &,
D3D11_TEXTURE2D_DESC &)`, source lines 254-265. -/
def convert_resource_desc_to_texture2d (desc : resource_desc)
    (internal_desc : D3D11_TEXTURE2D_DESC) : Option D3D11_TEXTURE2D_DESC :=
  if desc.type = resource_type.texture_2d then
    some { internal_desc with
      Width := desc.texture_width
      Height := desc.texture_height
      MipLevels := desc.texture_levels
      ArraySize := desc.texture_depth_or_layers
      Format := desc.texture_format
      SampleDesc_Count := desc.texture_samples
      Usage := (convert_memory_heap_to_d3d_usage desc.heap internal_desc.CPUAccessFlags).1
      CPUAccessFlags :=
        (convert_memory_heap_to_d3d_usage desc.heap internal_desc.CPUAccessFlags).2
      BindFlags := convert_resource_usage_to_bind_flags desc.usage internal_desc.BindFlags }
  else
    none

/-- The overload `convert_resource_desc(const resource_desc &,
D3D11_TEXTURE3D_DESC &)`, source lines 266-277. -/
def convert_resource_desc_to_texture3d (desc : resource_desc)
    (internal_desc : D3D11_TEXTURE3D_DESC) : Option D3D11_TEXTURE3D_DESC :=
  if desc.type = resource_type.texture_3d then
    if desc.texture_samples = 1 then
      some { internal_desc with
        Width := desc.texture_width
        Height := desc.texture_height
        Depth := desc.texture_depth_or_layers
        MipLevels := desc.texture_levels
        Format := desc.texture_format
        Usage := (convert_memory_heap_to_d3d_usage desc.heap internal_desc.CPUAccessFlags).1
        CPUAccessFlags :=
          (convert_memory_heap_to_d3d_usage desc.heap internal_desc.CPUAccessFlags).2
        BindFlags := convert_resource_usage_to_bind_flags desc.usage internal_desc.BindFlags }
    else
      none
  else
    none

/-! ## Native descriptor to resource description (source lines 278-335)

The texture overloads return `none` when one of their `assert`s fails; the
buffer overload has none. A narrowing `static_cast<uint16_t>` is `% 2 ^ 16`. -/

/-- The overload `convert_resource_desc(const D3D11_BUFFER_DESC &)`, source
lines 278-286. -/
def convert_resource_desc_from_buffer (internal_desc : D3D11_BUFFER_DESC) : resource_desc :=
  let desc := resource_desc.value_initialized
  let desc := { desc with type := resource_type.buffer }
  let desc := desc.set_buffer_size internal_desc.ByteWidth
  { desc with
    heap := convert_d3d_usage_to_memory_heap internal_desc.Usage
    usage := convert_bind_flags_to_resource_usage internal_desc.BindFlags desc.usage }

/-- The overload `convert_resource_desc(const D3D11_TEXTURE1D_DESC &)`, source
lines 287-302. -/
def convert_resource_desc_from_texture1d (internal_desc : D3D11_TEXTURE1D_DESC) :
    Option resource_desc :=
  let desc := resource_desc.value_initialized
  let desc := { desc with
    type := resource_type.texture_1d
    texture_width := internal_desc.Width
    texture_height := 1 }
  if internal_desc.ArraySize ≤ UINT16_MAX then
    let desc := { desc with texture_depth_or_layers := internal_desc.ArraySize % 2 ^ 16 }
    if internal_desc.MipLevels ≤ UINT16_MAX then
      some { desc with
        texture_levels := internal_desc.MipLevels % 2 ^ 16
        texture_format := internal_desc.Format
        texture_samples := 1
        heap := convert_d3d_usage_to_memory_heap internal_desc.Usage
        usage := convert_bind_flags_to_resource_usage internal_desc.BindFlags desc.usage }
    else
      none
  else
    none

/-- The overload `convert_resource_desc(const D3D11_TEXTURE2D_DESC &)`, source
lines 303-319. The sample count is narrowed without an `assert`, and the
resolve bit is chosen from the narrowed `desc.texture.samples`. -/
def convert_resource_desc_from_texture2d (internal_desc : D3D11_TEXTURE2D_DESC) :
    Option resource_desc :=
  let desc := resource_desc.value_initialized
  let desc := { desc with
    type := resource_type.texture_2d
    texture_width := internal_desc.Width
    texture_height := internal_desc.Height }
  if internal_desc.ArraySize ≤ UINT16_MAX then
    let desc := { desc with texture_depth_or_layers := internal_desc.ArraySize % 2 ^ 16 }
    if internal_desc.MipLevels ≤ UINT16_MAX then
      let desc := { desc with
        texture_levels := internal_desc.MipLevels % 2 ^ 16
        texture_format := internal_desc.Format
        texture_samples := internal_desc.SampleDesc_Count % 2 ^ 16
        heap := convert_d3d_usage_to_memory_heap internal_desc.Usage
        usage := convert_bind_flags_to_resource_usage internal_desc.BindFlags desc.usage }
      some { desc with
        usage := desc.usage |||
          (if desc.texture_samples > 1 then resource_usage.resolve_source
            else resource_usage.resolve_dest) }
    else
      none
  else
    none

/-- The overload `convert_resource_desc(const D3D11_TEXTURE3D_DESC &)`, source
lines 320-335. -/
def convert_resource_desc_from_texture3d (internal_desc : D3D11_TEXTURE3D_DESC) :
    Option resource_desc :=
  let desc := resource_desc.value_initialized
  let desc := { desc with
    type := resource_type.texture_3d
    texture_width := internal_desc.Width
    texture_height := internal_desc.Height }
  if internal_desc.Depth ≤ UINT16_MAX then
    let desc := { desc with texture_depth_or_layers := internal_desc.Depth % 2 ^ 16 }
    if internal_desc.MipLevels ≤ UINT16_MAX then
      some { desc with
        texture_levels := internal_desc.MipLevels % 2 ^ 16
        texture_format := internal_desc.Format
        texture_samples := 1
        heap := convert_d3d_usage_to_memory_heap internal_desc.Usage
        usage := convert_bind_flags_to_resource_usage internal_desc.BindFlags desc.usage }
    else
      none
  else
    none

/-! ## Versioned native view descriptors (source lines 416-442, 509-536, 578-604, 688-716, 789-818, 861-889)

A versioned descriptor (`...DESC1`) has the fields of the base descriptor and
one more field, `PlaneSlice`, in its `Texture2D` and `Texture2DArray` members.
In this field-wise form the `reinterpret_cast` of a versioned descriptor to
the base type is the projection onto the fields the two share, and the two
`PlaneSlice` fields stand apart from them. Where the `PlaneSlice` fields are
stored, and what a delegated call does to the words they occupy, is the
subject of the stored descriptors further down. -/

/-- The structure `D3D11_RENDER_TARGET_VIEW_DESC1` of `d3d11_3.h`. -/
structure D3D11_RENDER_TARGET_VIEW_DESC1 extends D3D11_RENDER_TARGET_VIEW_DESC where
  Texture2D_PlaneSlice : Nat
  Texture2DArray_PlaneSlice : Nat
  deriving DecidableEq

/-- The structure `D3D11_SHADER_RESOURCE_VIEW_DESC1` of `d3d11_3.h`. -/
structure D3D11_SHADER_RESOURCE_VIEW_DESC1 extends D3D11_SHADER_RESOURCE_VIEW_DESC where
  Texture2D_PlaneSlice : Nat
  Texture2DArray_PlaneSlice : Nat
  deriving DecidableEq

/-- The structure `D3D11_UNORDERED_ACCESS_VIEW_DESC1` of `d3d11_3.h`. -/
structure D3D11_UNORDERED_ACCESS_VIEW_DESC1 extends D3D11_UNORDERED_ACCESS_VIEW_DESC where
  Texture2D_PlaneSlice : Nat
  Texture2DArray_PlaneSlice : Nat
  deriving DecidableEq

/-- The overload `convert_resource_view_desc(const resource_view_desc &,
D3D11_RENDER_TARGET_VIEW_DESC1 &)`, source lines 416-442. -/
def convert_resource_view_desc_to_rtv1 (desc : resource_view_desc)
    (internal_desc : D3D11_RENDER_TARGET_VIEW_DESC1) : Option D3D11_RENDER_TARGET_VIEW_DESC1 :=
  if desc.type = resource_view_type.texture_2d ∨
      desc.type = resource_view_type.texture_2d_array then
    let internal_desc := { internal_desc with Format := desc.format }
    if desc.type ≠ resource_view_type.buffer ∧ desc.texture_levels = 1 then
      match desc.type with
      | resource_view_type.texture_2d =>
        some { internal_desc with
          ViewDimension := D3D11_RTV_DIMENSION_TEXTURE2D
          Texture2D_MipSlice := desc.texture_first_level }
      | resource_view_type.texture_2d_array =>
        some { internal_desc with
          ViewDimension := D3D11_RTV_DIMENSION_TEXTURE2DARRAY
          Texture2DArray_MipSlice := desc.texture_first_level
          Texture2DArray_FirstArraySlice := desc.texture_first_layer
          Texture2DArray_ArraySize := desc.texture_layers }
      | _ => some internal_desc
    else
      none
  else
    (convert_resource_view_desc_to_rtv desc
        internal_desc.toD3D11_RENDER_TARGET_VIEW_DESC).map
      fun base => { internal_desc with toD3D11_RENDER_TARGET_VIEW_DESC := base }

/-- The overload `convert_resource_view_desc(const resource_view_desc &,
D3D11_SHADER_RESOURCE_VIEW_DESC1 &)`, source lines 509-536. -/
def convert_resource_view_desc_to_srv1 (desc : resource_view_desc)
    (internal_desc : D3D11_SHADER_RESOURCE_VIEW_DESC1) :
    Option D3D11_SHADER_RESOURCE_VIEW_DESC1 :=
  if desc.type = resource_view_type.texture_2d ∨
      desc.type = resource_view_type.texture_2d_array then
    let internal_desc := { internal_desc with Format := desc.format }
    match desc.type with
    | resource_view_type.texture_2d =>
      some { internal_desc with
        ViewDimension := D3D11_SRV_DIMENSION_TEXTURE2D
        Texture2D_MostDetailedMip := desc.texture_first_level
        Texture2D_MipLevels := desc.texture_levels }
    | resource_view_type.texture_2d_array =>
      some { internal_desc with
        ViewDimension := D3D11_SRV_DIMENSION_TEXTURE2DARRAY
        Texture2DArray_MostDetailedMip := desc.texture_first_level
        Texture2DArray_MipLevels := desc.texture_levels
        Texture2DArray_FirstArraySlice := desc.texture_first_layer
        Texture2DArray_ArraySize := desc.texture_layers }
    | _ => some internal_desc
  else
    (convert_resource_view_desc_to_srv desc
        internal_desc.toD3D11_SHADER_RESOURCE_VIEW_DESC).map
      fun base => { internal_desc with toD3D11_SHADER_RESOURCE_VIEW_DESC := base }

/-- The overload `convert_resource_view_desc(const resource_view_desc &,
D3D11_UNORDERED_ACCESS_VIEW_DESC1 &)`, source lines 578-604. -/
def convert_resource_view_desc_to_uav1 (desc : resource_view_desc)
    (internal_desc : D3D11_UNORDERED_ACCESS_VIEW_DESC1) :
    Option D3D11_UNORDERED_ACCESS_VIEW_DESC1 :=
  if desc.type = resource_view_type.texture_2d ∨
      desc.type = resource_view_type.texture_2d_array then
    let internal_desc := { internal_desc with Format := desc.format }
    if desc.type = resource_view_type.buffer ∨ desc.texture_levels = 1 then
      match desc.type with
      | resource_view_type.texture_2d =>
        some { internal_desc with
          ViewDimension := D3D11_UAV_DIMENSION_TEXTURE2D
          Texture2D_MipSlice := desc.texture_first_level }
      | resource_view_type.texture_2d_array =>
        some { internal_desc with
          ViewDimension := D3D11_UAV_DIMENSION_TEXTURE2DARRAY
          Texture2DArray_MipSlice := desc.texture_first_level
          Texture2DArray_FirstArraySlice := desc.texture_first_layer
          Texture2DArray_ArraySize := desc.texture_layers }
      | _ => some internal_desc
    else
      none
  else
    (convert_resource_view_desc_to_uav desc
        internal_desc.toD3D11_UNORDERED_ACCESS_VIEW_DESC).map
      fun base => { internal_desc with toD3D11_UNORDERED_ACCESS_VIEW_DESC := base }

/-- The overload `convert_resource_view_desc(const
D3D11_RENDER_TARGET_VIEW_DESC1 &)`, source lines 688-716. -/
def convert_resource_view_desc_from_rtv1 (internal_desc : D3D11_RENDER_TARGET_VIEW_DESC1) :
    resource_view_desc :=
  if internal_desc.ViewDimension = D3D11_RTV_DIMENSION_TEXTURE2D ∨
      internal_desc.ViewDimension = D3D11_RTV_DIMENSION_TEXTURE2DARRAY then
    let desc := resource_view_desc.value_initialized
    let desc := { desc with format := internal_desc.Format }
    let desc := { desc with texture_levels := 1 }
    match internal_desc.ViewDimension with
    | D3D11_RTV_DIMENSION_TEXTURE2D =>
      { desc with
        type := resource_view_type.texture_2d
        texture_first_level := internal_desc.Texture2D_MipSlice }
    | D3D11_RTV_DIMENSION_TEXTURE2DARRAY =>
      { desc with
        type := resource_view_type.texture_2d_array
        texture_first_level := internal_desc.Texture2DArray_MipSlice
        texture_first_layer := internal_desc.Texture2DArray_FirstArraySlice
        texture_layers := internal_desc.Texture2DArray_ArraySize }
    | _ => desc
  else
    convert_resource_view_desc_from_rtv internal_desc.toD3D11_RENDER_TARGET_VIEW_DESC

/-- The overload `convert_resource_view_desc(const
D3D11_SHADER_RESOURCE_VIEW_DESC1 &)`, source lines 789-818. -/
def convert_resource_view_desc_from_srv1 (internal_desc : D3D11_SHADER_RESOURCE_VIEW_DESC1) :
    resource_view_desc :=
  if internal_desc.ViewDimension = D3D11_SRV_DIMENSION_TEXTURE2D ∨
      internal_desc.ViewDimension = D3D11_SRV_DIMENSION_TEXTURE2DARRAY then
    let desc := resource_view_desc.value_initialized
    let desc := { desc with format := internal_desc.Format }
    match internal_desc.ViewDimension with
    | D3D11_SRV_DIMENSION_TEXTURE2D =>
      { desc with
        type := resource_view_type.texture_2d
        texture_first_level := internal_desc.Texture2D_MostDetailedMip
        texture_levels := internal_desc.Texture2D_MipLevels }
    | D3D11_SRV_DIMENSION_TEXTURE2DARRAY =>
      { desc with
        type := resource_view_type.texture_2d_array
        texture_first_level := internal_desc.Texture2DArray_MostDetailedMip
        texture_levels := internal_desc.Texture2DArray_MipLevels
        texture_first_layer := internal_desc.Texture2DArray_FirstArraySlice
        texture_layers := internal_desc.Texture2DArray_ArraySize }
    | _ => desc
  else
    convert_resource_view_desc_from_srv internal_desc.toD3D11_SHADER_RESOURCE_VIEW_DESC

/-- The overload `convert_resource_view_desc(const
D3D11_UNORDERED_ACCESS_VIEW_DESC1 &)`, source lines 861-889. -/
def convert_resource_view_desc_from_uav1 (internal_desc : D3D11_UNORDERED_ACCESS_VIEW_DESC1) :
    resource_view_desc :=
  if internal_desc.ViewDimension = D3D11_UAV_DIMENSION_TEXTURE2D ∨
      internal_desc.ViewDimension = D3D11_UAV_DIMENSION_TEXTURE2DARRAY then
    let desc := resource_view_desc.value_initialized
    let desc := { desc with format := internal_desc.Format }
    let desc := { desc with texture_levels := 1 }
    match internal_desc.ViewDimension with
    | D3D11_UAV_DIMENSION_TEXTURE2D =>
      { desc with
        type := resource_view_type.texture_2d
        texture_first_level := internal_desc.Texture2D_MipSlice }
    | D3D11_UAV_DIMENSION_TEXTURE2DARRAY =>
      { desc with
        type := resource_view_type.texture_2d_array
        texture_first_level := internal_desc.Texture2DArray_MipSlice
        texture_first_layer := internal_desc.Texture2DArray_FirstArraySlice
        texture_layers := internal_desc.Texture2DArray_ArraySize }
    | _ => desc
  else
    convert_resource_view_desc_from_uav internal_desc.toD3D11_UNORDERED_ACCESS_VIEW_DESC

/-! ## More concrete descriptors used in the examples -/

/-- A zero-filled `D3D11_BUFFER_DESC`. -/
def zeroed_buffer_desc : D3D11_BUFFER_DESC :=
  { ByteWidth := 0
    Usage := D3D11_USAGE_DEFAULT
    BindFlags := 0
    CPUAccessFlags := 0
    MiscFlags := 0
    StructureByteStride := 0 }

/-- A zero-filled `D3D11_TEXTURE1D_DESC`. -/
def zeroed_texture1d_desc : D3D11_TEXTURE1D_DESC :=
  { Width := 0
    MipLevels := 0
    ArraySize := 0
    Format := 0
    Usage := D3D11_USAGE_DEFAULT
    BindFlags := 0
    CPUAccessFlags := 0
    MiscFlags := 0 }

/-- A zero-filled `D3D11_TEXTURE2D_DESC`. -/
def zeroed_texture2d_desc : D3D11_TEXTURE2D_DESC :=
  { Width := 0
    Height := 0
    MipLevels := 0
    ArraySize := 0
    Format := 0
    SampleDesc_Count := 0
    SampleDesc_Quality := 0
    Usage := D3D11_USAGE_DEFAULT
    BindFlags := 0
    CPUAccessFlags := 0
    MiscFlags := 0 }

/-- A zero-filled `D3D11_TEXTURE3D_DESC`. -/
def zeroed_texture3d_desc : D3D11_TEXTURE3D_DESC :=
  { Width := 0
    Height := 0
    Depth := 0
    MipLevels := 0
    Format := 0
    Usage := D3D11_USAGE_DEFAULT
    BindFlags := 0
    CPUAccessFlags := 0
    MiscFlags := 0 }

/-- A zero-filled `D3D11_RENDER_TARGET_VIEW_DESC`. -/
def zeroed_rtv_desc : D3D11_RENDER_TARGET_VIEW_DESC :=
  { Format := 0
    ViewDimension := D3D11_RTV_DIMENSION_UNKNOWN
    Texture1D_MipSlice := 0
    Texture1DArray_MipSlice := 0
    Texture1DArray_FirstArraySlice := 0
    Texture1DArray_ArraySize := 0
    Texture2D_MipSlice := 0
    Texture2DArray_MipSlice := 0
    Texture2DArray_FirstArraySlice := 0
    Texture2DArray_ArraySize := 0
    Texture2DMSArray_FirstArraySlice := 0
    Texture2DMSArray_ArraySize := 0
    Texture3D_MipSlice := 0
    Texture3D_FirstWSlice := 0
    Texture3D_WSize := 0 }

/-- A zero-filled `D3D11_UNORDERED_ACCESS_VIEW_DESC`. -/
def zeroed_uav_desc : D3D11_UNORDERED_ACCESS_VIEW_DESC :=
  { Format := 0
    ViewDimension := D3D11_UAV_DIMENSION_UNKNOWN
    Buffer_FirstElement := 0
    Buffer_NumElements := 0
    Buffer_Flags := 0
    Texture1D_MipSlice := 0
    Texture1DArray_MipSlice := 0
    Texture1DArray_FirstArraySlice := 0
    Texture1DArray_ArraySize := 0
    Texture2D_MipSlice := 0
    Texture2DArray_MipSlice := 0
    Texture2DArray_FirstArraySlice := 0
    Texture2DArray_ArraySize := 0
    Texture3D_MipSlice := 0
    Texture3D_FirstWSlice := 0
    Texture3D_WSize := 0 }

/-! ## Fixed-function enumerations (source lines 108-198)

The offset-coded translators compute on the number of the abstract value, so
an abstract value is given by its 32-bit number and the native value by its
number; the addition is the 32-bit one. -/

/-- The function `convert_blend_op(value, internal_value)`: the new content of
`internal_value`, the number of `value` plus one. -/
def convert_blend_op (value : Nat) : Nat :=
  (value + 1) % 2 ^ 32

/-- Modelled from the spec: the number of the enumerator
`cull_mode::front_and_back`, declared in the API header that is missing from
the sources; the spec names it as the cull mode this backend lacks. In the
header it is `front | back`, with `none = 0`, `front = 1`, `back = 2`. -/
def cull_mode.front_and_back : Nat := 3

/-- The function `convert_cull_mode(value, internal_value)`: `none` when the
`assert` fails, otherwise the new content of `internal_value`. -/
def convert_cull_mode (value : Nat) : Option Nat :=
  if value ≠ cull_mode.front_and_back then
    some ((value + 1) % 2 ^ 32)
  else
    none

/-- The function `convert_compare_op(value, internal_value)`. -/
def convert_compare_op (value : Nat) : Nat :=
  (value + 1) % 2 ^ 32

/-- The function `convert_stencil_op(value, internal_value)`. -/
def convert_stencil_op (value : Nat) : Nat :=
  (value + 1) % 2 ^ 32

/-- The enumeration `reshade::api::fill_mode`, with the enumerators the
`switch` of `convert_fill_mode` lists. -/
inductive fill_mode where
  | solid
  | wireframe
  | point
  deriving DecidableEq

/-- The enumeration `D3D11_FILL_MODE` of `d3d11.h`. -/
inductive D3D11_FILL_MODE where
  | D3D11_FILL_WIREFRAME
  | D3D11_FILL_SOLID
  deriving DecidableEq

/-- The enumeration `reshade::api::blend_factor`, with the enumerators the
`switch` of `convert_blend_factor` lists. -/
inductive blend_factor where
  | zero
  | one
  | src_color
  | inv_src_color
  | dst_color
  | inv_dst_color
  | src_alpha
  | inv_src_alpha
  | dst_alpha
  | inv_dst_alpha
  | constant_color
  | constant_alpha
  | inv_constant_color
  | inv_constant_alpha
  | src_alpha_sat
  | src1_color
  | inv_src1_color
  | src1_alpha
  | inv_src1_alpha
  deriving DecidableEq

/-- The enumeration `D3D11_BLEND` of `d3d11.h`. -/
inductive D3D11_BLEND where
  | D3D11_BLEND_ZERO
  | D3D11_BLEND_ONE
  | D3D11_BLEND_SRC_COLOR
  | D3D11_BLEND_INV_SRC_COLOR
  | D3D11_BLEND_SRC_ALPHA
  | D3D11_BLEND_INV_SRC_ALPHA
  | D3D11_BLEND_DEST_ALPHA
  | D3D11_BLEND_INV_DEST_ALPHA
  | D3D11_BLEND_DEST_COLOR
  | D3D11_BLEND_INV_DEST_COLOR
  | D3D11_BLEND_SRC_ALPHA_SAT
  | D3D11_BLEND_BLEND_FACTOR
  | D3D11_BLEND_INV_BLEND_FACTOR
  | D3D11_BLEND_SRC1_COLOR
  | D3D11_BLEND_INV_SRC1_COLOR
  | D3D11_BLEND_SRC1_ALPHA
  | D3D11_BLEND_INV_SRC1_ALPHA
  deriving DecidableEq

open D3D11_FILL_MODE D3D11_BLEND

/-- The function `convert_blend_factor(value, internal_value)`: the new
content of `internal_value`; every enumerator has a case. -/
def convert_blend_factor (value : blend_factor) : D3D11_BLEND :=
  match value with
  | blend_factor.zero => D3D11_BLEND_ZERO
  | blend_factor.one => D3D11_BLEND_ONE
  | blend_factor.src_color => D3D11_BLEND_SRC_COLOR
  | blend_factor.inv_src_color => D3D11_BLEND_INV_SRC_COLOR
  | blend_factor.dst_color => D3D11_BLEND_DEST_COLOR
  | blend_factor.inv_dst_color => D3D11_BLEND_INV_DEST_COLOR
  | blend_factor.src_alpha => D3D11_BLEND_SRC_ALPHA
  | blend_factor.inv_src_alpha => D3D11_BLEND_INV_SRC_ALPHA
  | blend_factor.dst_alpha => D3D11_BLEND_DEST_ALPHA
  | blend_factor.inv_dst_alpha => D3D11_BLEND_INV_DEST_ALPHA
  | blend_factor.constant_color => D3D11_BLEND_BLEND_FACTOR
  | blend_factor.constant_alpha => D3D11_BLEND_BLEND_FACTOR
  | blend_factor.inv_constant_color => D3D11_BLEND_INV_BLEND_FACTOR
  | blend_factor.inv_constant_alpha => D3D11_BLEND_INV_BLEND_FACTOR
  | blend_factor.src_alpha_sat => D3D11_BLEND_SRC_ALPHA_SAT
  | blend_factor.src1_color => D3D11_BLEND_SRC1_COLOR
  | blend_factor.inv_src1_color => D3D11_BLEND_INV_SRC1_COLOR
  | blend_factor.src1_alpha => D3D11_BLEND_SRC1_ALPHA
  | blend_factor.inv_src1_alpha => D3D11_BLEND_INV_SRC1_ALPHA

/-- The function `convert_fill_mode(value, internal_value)`: the new content
of `internal_value`, or `none` for `point`, whose case is `assert(false)`. -/
def convert_fill_mode (value : fill_mode) : Option D3D11_FILL_MODE :=
  match value with
  | fill_mode.solid => some D3D11_FILL_SOLID
  | fill_mode.wireframe => some D3D11_FILL_WIREFRAME
  | fill_mode.point => none

/-! ## Native view descriptors as stored in memory

In `d3d11.h` and `d3d11_3.h` the payload of a view descriptor is a union: its
members start at the same address, and every member field is one 32-bit word.
A stored descriptor holds `Format`, `ViewDimension` (and `Flags` for the
depth-stencil kind) and the words of the union. A member field is the word at
the offset it has inside its member, so fields of different members at the
same offset are the same word: assigning one changes what the other reads.
The tables `*_field.word` give the offsets, in the order of declaration of the
fields in each member. A versioned descriptor (`...DESC1`) starts with the
words of the base descriptor and has one more word; its members keep the
fields of the base members at the same offsets, and its `Texture2D` and
`Texture2DArray` members have one more field after them, `PlaneSlice`. The
`reinterpret_cast` of a versioned descriptor to the base type is the view of
its leading words.

The translators of this section are the source functions embedded above, on
stored descriptors. -/

/-- The member fields of the payload union of
`D3D11_DEPTH_STENCIL_VIEW_DESC` that a translator accesses, named
`Member_Field` for `Member.Field`. -/
inductive dsv_field where
  | Texture1D_MipSlice
  | Texture1DArray_MipSlice
  | Texture1DArray_FirstArraySlice
  | Texture1DArray_ArraySize
  | Texture2D_MipSlice
  | Texture2DArray_MipSlice
  | Texture2DArray_FirstArraySlice
  | Texture2DArray_ArraySize
  | Texture2DMSArray_FirstArraySlice
  | Texture2DMSArray_ArraySize
  deriving DecidableEq

/-- The offset, in 32-bit words from the start of the union, of each member
field of `D3D11_DEPTH_STENCIL_VIEW_DESC`. -/
def dsv_field.word : dsv_field → Nat
  | dsv_field.Texture1D_MipSlice => 0
  | dsv_field.Texture1DArray_MipSlice => 0
  | dsv_field.Texture1DArray_FirstArraySlice => 1
  | dsv_field.Texture1DArray_ArraySize => 2
  | dsv_field.Texture2D_MipSlice => 0
  | dsv_field.Texture2DArray_MipSlice => 0
  | dsv_field.Texture2DArray_FirstArraySlice => 1
  | dsv_field.Texture2DArray_ArraySize => 2
  | dsv_field.Texture2DMSArray_FirstArraySlice => 0
  | dsv_field.Texture2DMSArray_ArraySize => 1

/-- The structure `D3D11_DEPTH_STENCIL_VIEW_DESC` as stored: the payload
union is its three words. -/
structure D3D11_DEPTH_STENCIL_VIEW_DESC_stored where
  Format : Nat
  ViewDimension : D3D11_DSV_DIMENSION
  Flags : Nat
  word_0 : Nat
  word_1 : Nat
  word_2 : Nat
  deriving DecidableEq

/-- The word of the payload at an offset. -/
def D3D11_DEPTH_STENCIL_VIEW_DESC_stored.word
    (internal_desc : D3D11_DEPTH_STENCIL_VIEW_DESC_stored) : Nat → Nat
  | 0 => internal_desc.word_0
  | 1 => internal_desc.word_1
  | 2 => internal_desc.word_2
  | _ => 0

/-- The descriptor with the word of the payload at an offset replaced. -/
def D3D11_DEPTH_STENCIL_VIEW_DESC_stored.set_word
    (internal_desc : D3D11_DEPTH_STENCIL_VIEW_DESC_stored) (offset value : Nat) :
    D3D11_DEPTH_STENCIL_VIEW_DESC_stored :=
  match offset with
  | 0 => { internal_desc with word_0 := value }
  | 1 => { internal_desc with word_1 := value }
  | 2 => { internal_desc with word_2 := value }
  | _ => internal_desc

/-- Reading `internal_desc.Member.Field`. -/
def D3D11_DEPTH_STENCIL_VIEW_DESC_stored.get
    (internal_desc : D3D11_DEPTH_STENCIL_VIEW_DESC_stored) (field : dsv_field) : Nat :=
  internal_desc.word field.word

/-- The assignment `internal_desc.Member.Field = value`. -/
def D3D11_DEPTH_STENCIL_VIEW_DESC_stored.set
    (internal_desc : D3D11_DEPTH_STENCIL_VIEW_DESC_stored) (field : dsv_field) (value : Nat) :
    D3D11_DEPTH_STENCIL_VIEW_DESC_stored :=
  internal_desc.set_word field.word value

/-- The member fields of the payload union of
`D3D11_RENDER_TARGET_VIEW_DESC` that a translator accesses, named
`Member_Field` for `Member.Field`. -/
inductive rtv_field where
  | Texture1D_MipSlice
  | Texture1DArray_MipSlice
  | Texture1DArray_FirstArraySlice
  | Texture1DArray_ArraySize
  | Texture2D_MipSlice
  | Texture2DArray_MipSlice
  | Texture2DArray_FirstArraySlice
  | Texture2DArray_ArraySize
  | Texture2DMSArray_FirstArraySlice
  | Texture2DMSArray_ArraySize
  | Texture3D_MipSlice
  | Texture3D_FirstWSlice
  | Texture3D_WSize
  deriving DecidableEq

/-- The offset, in 32-bit words from the start of the union, of each member
field of `D3D11_RENDER_TARGET_VIEW_DESC`. -/
def rtv_field.word : rtv_field → Nat
  | rtv_field.Texture1D_MipSlice => 0
  | rtv_field.Texture1DArray_MipSlice => 0
  | rtv_field.Texture1DArray_FirstArraySlice => 1
  | rtv_field.Texture1DArray_ArraySize => 2
  | rtv_field.Texture2D_MipSlice => 0
  | rtv_field.Texture2DArray_MipSlice => 0
  | rtv_field.Texture2DArray_FirstArraySlice => 1
  | rtv_field.Texture2DArray_ArraySize => 2
  | rtv_field.Texture2DMSArray_FirstArraySlice => 0
  | rtv_field.Texture2DMSArray_ArraySize => 1
  | rtv_field.Texture3D_MipSlice => 0
  | rtv_field.Texture3D_FirstWSlice => 1
  | rtv_field.Texture3D_WSize => 2

/-- The structure `D3D11_RENDER_TARGET_VIEW_DESC` as stored: the payload
union is its three words. -/
structure D3D11_RENDER_TARGET_VIEW_DESC_stored where
  Format : Nat
  ViewDimension : D3D11_RTV_DIMENSION
  word_0 : Nat
  word_1 : Nat
  word_2 : Nat
  deriving DecidableEq

/-- The word of the payload at an offset. -/
def D3D11_RENDER_TARGET_VIEW_DESC_stored.word
    (internal_desc : D3D11_RENDER_TARGET_VIEW_DESC_stored) : Nat → Nat
  | 0 => internal_desc.word_0
  | 1 => internal_desc.word_1
  | 2 => internal_desc.word_2
  | _ => 0

/-- The descriptor with the word of the payload at an offset replaced. -/
def D3D11_RENDER_TARGET_VIEW_DESC_stored.set_word
    (internal_desc : D3D11_RENDER_TARGET_VIEW_DESC_stored) (offset value : Nat) :
    D3D11_RENDER_TARGET_VIEW_DESC_stored :=
  match offset with
  | 0 => { internal_desc with word_0 := value }
  | 1 => { internal_desc with word_1 := value }
  | 2 => { internal_desc with word_2 := value }
  | _ => internal_desc

/-- Reading `internal_desc.Member.Field`. -/
def D3D11_RENDER_TARGET_VIEW_DESC_stored.get
    (internal_desc : D3D11_RENDER_TARGET_VIEW_DESC_stored) (field : rtv_field) : Nat :=
  internal_desc.word field.word

/-- The assignment `internal_desc.Member.Field = value`. -/
def D3D11_RENDER_TARGET_VIEW_DESC_stored.set
    (internal_desc : D3D11_RENDER_TARGET_VIEW_DESC_stored) (field : rtv_field) (value : Nat) :
    D3D11_RENDER_TARGET_VIEW_DESC_stored :=
  internal_desc.set_word field.word value

/-- The member fields of the payload union of
`D3D11_SHADER_RESOURCE_VIEW_DESC` that a translator accesses, named
`Member_Field` for `Member.Field`. -/
inductive srv_field where
  | Buffer_FirstElement
  | Buffer_NumElements
  | Texture1D_MostDetailedMip
  | Texture1D_MipLevels
  | Texture1DArray_MostDetailedMip
  | Texture1DArray_MipLevels
  | Texture1DArray_FirstArraySlice
  | Texture1DArray_ArraySize
  | Texture2D_MostDetailedMip
  | Texture2D_MipLevels
  | Texture2DArray_MostDetailedMip
  | Texture2DArray_MipLevels
  | Texture2DArray_FirstArraySlice
  | Texture2DArray_ArraySize
  | Texture2DMSArray_FirstArraySlice
  | Texture2DMSArray_ArraySize
  | Texture3D_MostDetailedMip
  | Texture3D_MipLevels
  | TextureCube_MostDetailedMip
  | TextureCube_MipLevels
  | TextureCubeArray_MostDetailedMip
  | TextureCubeArray_MipLevels
  | TextureCubeArray_First2DArrayFace
  | TextureCubeArray_NumCubes
  | BufferEx_FirstElement
  | BufferEx_NumElements
  | BufferEx_Flags
  deriving DecidableEq

/-- The offset, in 32-bit words from the start of the union, of each member
field of `D3D11_SHADER_RESOURCE_VIEW_DESC`. -/
def srv_field.word : srv_field → Nat
  | srv_field.Buffer_FirstElement => 0
  | srv_field.Buffer_NumElements => 1
  | srv_field.Texture1D_MostDetailedMip => 0
  | srv_field.Texture1D_MipLevels => 1
  | srv_field.Texture1DArray_MostDetailedMip => 0
  | srv_field.Texture1DArray_MipLevels => 1
  | srv_field.Texture1DArray_FirstArraySlice => 2
  | srv_field.Texture1DArray_ArraySize => 3
  | srv_field.Texture2D_MostDetailedMip => 0
  | srv_field.Texture2D_MipLevels => 1
  | srv_field.Texture2DArray_MostDetailedMip => 0
  | srv_field.Texture2DArray_MipLevels => 1
  | srv_field.Texture2DArray_FirstArraySlice => 2
  | srv_field.Texture2DArray_ArraySize => 3
  | srv_field.Texture2DMSArray_FirstArraySlice => 0
  | srv_field.Texture2DMSArray_ArraySize => 1
  | srv_field.Texture3D_MostDetailedMip => 0
  | srv_field.Texture3D_MipLevels => 1
  | srv_field.TextureCube_MostDetailedMip => 0
  | srv_field.TextureCube_MipLevels => 1
  | srv_field.TextureCubeArray_MostDetailedMip => 0
  | srv_field.TextureCubeArray_MipLevels => 1
  | srv_field.TextureCubeArray_First2DArrayFace => 2
  | srv_field.TextureCubeArray_NumCubes => 3
  | srv_field.BufferEx_FirstElement => 0
  | srv_field.BufferEx_NumElements => 1
  | srv_field.BufferEx_Flags => 2

/-- The structure `D3D11_SHADER_RESOURCE_VIEW_DESC` as stored: the payload
union is its four words. -/
structure D3D11_SHADER_RESOURCE_VIEW_DESC_stored where
  Format : Nat
  ViewDimension : D3D11_SRV_DIMENSION
  word_0 : Nat
  word_1 : Nat
  word_2 : Nat
  word_3 : Nat
  deriving DecidableEq

/-- The word of the payload at an offset. -/
def D3D11_SHADER_RESOURCE_VIEW_DESC_stored.word
    (internal_desc : D3D11_SHADER_RESOURCE_VIEW_DESC_stored) : Nat → Nat
  | 0 => internal_desc.word_0
  | 1 => internal_desc.word_1
  | 2 => internal_desc.word_2
  | 3 => internal_desc.word_3
  | _ => 0

/-- The descriptor with the word of the payload at an offset replaced. -/
def D3D11_SHADER_RESOURCE_VIEW_DESC_stored.set_word
    (internal_desc : D3D11_SHADER_RESOURCE_VIEW_DESC_stored) (offset value : Nat) :
    D3D11_SHADER_RESOURCE_VIEW_DESC_stored :=
  match offset with
  | 0 => { internal_desc with word_0 := value }
  | 1 => { internal_desc with word_1 := value }
  | 2 => { internal_desc with word_2 := value }
  | 3 => { internal_desc with word_3 := value }
  | _ => internal_desc

/-- Reading `internal_desc.Member.Field`. -/
def D3D11_SHADER_RESOURCE_VIEW_DESC_stored.get
    (internal_desc : D3D11_SHADER_RESOURCE_VIEW_DESC_stored) (field : srv_field) : Nat :=
  internal_desc.word field.word

/-- The assignment `internal_desc.Member.Field = value`. -/
def D3D11_SHADER_RESOURCE_VIEW_DESC_stored.set
    (internal_desc : D3D11_SHADER_RESOURCE_VIEW_DESC_stored) (field : srv_field) (value : Nat) :
    D3D11_SHADER_RESOURCE_VIEW_DESC_stored :=
  internal_desc.set_word field.word value

/-- The member fields of the payload union of
`D3D11_UNORDERED_ACCESS_VIEW_DESC` that a translator accesses, named
`Member_Field` for `Member.Field`. -/
inductive uav_field where
  | Buffer_FirstElement
  | Buffer_NumElements
  | Buffer_Flags
  | Texture1D_MipSlice
  | Texture1DArray_MipSlice
  | Texture1DArray_FirstArraySlice
  | Texture1DArray_ArraySize
  | Texture2D_MipSlice
  | Texture2DArray_MipSlice
  | Texture2DArray_FirstArraySlice
  | Texture2DArray_ArraySize
  | Texture3D_MipSlice
  | Texture3D_FirstWSlice
  | Texture3D_WSize
  deriving DecidableEq

/-- The offset, in 32-bit words from the start of the union, of each member
field of `D3D11_UNORDERED_ACCESS_VIEW_DESC`. -/
def uav_field.word : uav_field → Nat
  | uav_field.Buffer_FirstElement => 0
  | uav_field.Buffer_NumElements => 1
  | uav_field.Buffer_Flags => 2
  | uav_field.Texture1D_MipSlice => 0
  | uav_field.Texture1DArray_MipSlice => 0
  | uav_field.Texture1DArray_FirstArraySlice => 1
  | uav_field.Texture1DArray_ArraySize => 2
  | uav_field.Texture2D_MipSlice => 0
  | uav_field.Texture2DArray_MipSlice => 0
  | uav_field.Texture2DArray_FirstArraySlice => 1
  | uav_field.Texture2DArray_ArraySize => 2
  | uav_field.Texture3D_MipSlice => 0
  | uav_field.Texture3D_FirstWSlice => 1
  | uav_field.Texture3D_WSize => 2

/-- The structure `D3D11_UNORDERED_ACCESS_VIEW_DESC` as stored: the payload
union is its three words. -/
structure D3D11_UNORDERED_ACCESS_VIEW_DESC_stored where
  Format : Nat
  ViewDimension : D3D11_UAV_DIMENSION
  word_0 : Nat
  word_1 : Nat
  word_2 : Nat
  deriving DecidableEq

/-- The word of the payload at an offset. -/
def D3D11_UNORDERED_ACCESS_VIEW_DESC_stored.word
    (internal_desc : D3D11_UNORDERED_ACCESS_VIEW_DESC_stored) : Nat → Nat
  | 0 => internal_desc.word_0
  | 1 => internal_desc.word_1
  | 2 => internal_desc.word_2
  | _ => 0

/-- The descriptor with the word of the payload at an offset replaced. -/
def D3D11_UNORDERED_ACCESS_VIEW_DESC_stored.set_word
    (internal_desc : D3D11_UNORDERED_ACCESS_VIEW_DESC_stored) (offset value : Nat) :
    D3D11_UNORDERED_ACCESS_VIEW_DESC_stored :=
  match offset with
  | 0 => { internal_desc with word_0 := value }
  | 1 => { internal_desc with word_1 := value }
  | 2 => { internal_desc with word_2 := value }
  | _ => internal_desc

/-- Reading `internal_desc.Member.Field`. -/
def D3D11_UNORDERED_ACCESS_VIEW_DESC_stored.get
    (internal_desc : D3D11_UNORDERED_ACCESS_VIEW_DESC_stored) (field : uav_field) : Nat :=
  internal_desc.word field.word

/-- The assignment `internal_desc.Member.Field = value`. -/
def D3D11_UNORDERED_ACCESS_VIEW_DESC_stored.set
    (internal_desc : D3D11_UNORDERED_ACCESS_VIEW_DESC_stored) (field : uav_field) (value : Nat) :
    D3D11_UNORDERED_ACCESS_VIEW_DESC_stored :=
  internal_desc.set_word field.word value

/-- The structure `D3D11_RENDER_TARGET_VIEW_DESC1` of `d3d11_3.h` as stored:
the words of the base descriptor and one more word of payload. -/
structure D3D11_RENDER_TARGET_VIEW_DESC1_stored extends
    D3D11_RENDER_TARGET_VIEW_DESC_stored where
  word_3 : Nat
  deriving DecidableEq

/-- Reading a member field that the versioned descriptor shares with the base
one: it is at the same offset. -/
def D3D11_RENDER_TARGET_VIEW_DESC1_stored.get
    (internal_desc : D3D11_RENDER_TARGET_VIEW_DESC1_stored) (field : rtv_field) : Nat :=
  internal_desc.toD3D11_RENDER_TARGET_VIEW_DESC_stored.get field

/-- Assigning a member field that the versioned descriptor shares with the
base one. -/
def D3D11_RENDER_TARGET_VIEW_DESC1_stored.set
    (internal_desc : D3D11_RENDER_TARGET_VIEW_DESC1_stored) (field : rtv_field) (value : Nat) :
    D3D11_RENDER_TARGET_VIEW_DESC1_stored :=
  { internal_desc with
    toD3D11_RENDER_TARGET_VIEW_DESC_stored :=
      internal_desc.toD3D11_RENDER_TARGET_VIEW_DESC_stored.set field value }

/-- The field `Texture2D.PlaneSlice`, the second word of its member. -/
def D3D11_RENDER_TARGET_VIEW_DESC1_stored.Texture2D_PlaneSlice
    (internal_desc : D3D11_RENDER_TARGET_VIEW_DESC1_stored) : Nat :=
  internal_desc.word_1

/-- The field `Texture2DArray.PlaneSlice`, the fourth word of its member. -/
def D3D11_RENDER_TARGET_VIEW_DESC1_stored.Texture2DArray_PlaneSlice
    (internal_desc : D3D11_RENDER_TARGET_VIEW_DESC1_stored) : Nat :=
  internal_desc.word_3

/-- The structure `D3D11_SHADER_RESOURCE_VIEW_DESC1` of `d3d11_3.h` as stored:
the words of the base descriptor and one more word of payload. -/
structure D3D11_SHADER_RESOURCE_VIEW_DESC1_stored extends
    D3D11_SHADER_RESOURCE_VIEW_DESC_stored where
  word_4 : Nat
  deriving DecidableEq

/-- Reading a member field that the versioned descriptor shares with the base
one: it is at the same offset. -/
def D3D11_SHADER_RESOURCE_VIEW_DESC1_stored.get
    (internal_desc : D3D11_SHADER_RESOURCE_VIEW_DESC1_stored) (field : srv_field) : Nat :=
  internal_desc.toD3D11_SHADER_RESOURCE_VIEW_DESC_stored.get field

/-- Assigning a member field that the versioned descriptor shares with the
base one. -/
def D3D11_SHADER_RESOURCE_VIEW_DESC1_stored.set
    (internal_desc : D3D11_SHADER_RESOURCE_VIEW_DESC1_stored) (field : srv_field) (value : Nat) :
    D3D11_SHADER_RESOURCE_VIEW_DESC1_stored :=
  { internal_desc with
    toD3D11_SHADER_RESOURCE_VIEW_DESC_stored :=
      internal_desc.toD3D11_SHADER_RESOURCE_VIEW_DESC_stored.set field value }

/-- The field `Texture2D.PlaneSlice`, the third word of its member. -/
def D3D11_SHADER_RESOURCE_VIEW_DESC1_stored.Texture2D_PlaneSlice
    (internal_desc : D3D11_SHADER_RESOURCE_VIEW_DESC1_stored) : Nat :=
  internal_desc.word_2

/-- The field `Texture2DArray.PlaneSlice`, the fifth word of its member. -/
def D3D11_SHADER_RESOURCE_VIEW_DESC1_stored.Texture2DArray_PlaneSlice
    (internal_desc : D3D11_SHADER_RESOURCE_VIEW_DESC1_stored) : Nat :=
  internal_desc.word_4

/-- The structure `D3D11_UNORDERED_ACCESS_VIEW_DESC1` of `d3d11_3.h` as stored:
the words of the base descriptor and one more word of payload. -/
structure D3D11_UNORDERED_ACCESS_VIEW_DESC1_stored extends
    D3D11_UNORDERED_ACCESS_VIEW_DESC_stored where
  word_3 : Nat
  deriving DecidableEq

/-- Reading a member field that the versioned descriptor shares with the base
one: it is at the same offset. -/
def D3D11_UNORDERED_ACCESS_VIEW_DESC1_stored.get
    (internal_desc : D3D11_UNORDERED_ACCESS_VIEW_DESC1_stored) (field : uav_field) : Nat :=
  internal_desc.toD3D11_UNORDERED_ACCESS_VIEW_DESC_stored.get field

/-- Assigning a member field that the versioned descriptor shares with the
base one. -/
def D3D11_UNORDERED_ACCESS_VIEW_DESC1_stored.set
    (internal_desc : D3D11_UNORDERED_ACCESS_VIEW_DESC1_stored) (field : uav_field) (value : Nat) :
    D3D11_UNORDERED_ACCESS_VIEW_DESC1_stored :=
  { internal_desc with
    toD3D11_UNORDERED_ACCESS_VIEW_DESC_stored :=
      internal_desc.toD3D11_UNORDERED_ACCESS_VIEW_DESC_stored.set field value }

/-- The field `Texture2D.PlaneSlice`, the second word of its member. -/
def D3D11_UNORDERED_ACCESS_VIEW_DESC1_stored.Texture2D_PlaneSlice
    (internal_desc : D3D11_UNORDERED_ACCESS_VIEW_DESC1_stored) : Nat :=
  internal_desc.word_1

/-- The field `Texture2DArray.PlaneSlice`, the fourth word of its member. -/
def D3D11_UNORDERED_ACCESS_VIEW_DESC1_stored.Texture2DArray_PlaneSlice
    (internal_desc : D3D11_UNORDERED_ACCESS_VIEW_DESC1_stored) : Nat :=
  internal_desc.word_3

/-! ### Abstract description to stored descriptor -/

/-- The overload `convert_resource_view_desc(const resource_view_desc &,
D3D11_DEPTH_STENCIL_VIEW_DESC &)`, source lines 337-373, on the stored
descriptor. -/
def convert_resource_view_desc_to_dsv_stored (desc : resource_view_desc)
    (internal_desc : D3D11_DEPTH_STENCIL_VIEW_DESC_stored) :
    Option D3D11_DEPTH_STENCIL_VIEW_DESC_stored :=
  let internal_desc := { internal_desc with Format := desc.format }
  if desc.type ≠ resource_view_type.buffer ∧ desc.texture_levels = 1 then
    match desc.type with
    | resource_view_type.texture_1d =>
      some ({ internal_desc with ViewDimension := D3D11_DSV_DIMENSION_TEXTURE1D }
        |>.set dsv_field.Texture1D_MipSlice desc.texture_first_level)
    | resource_view_type.texture_1d_array =>
      some ({ internal_desc with ViewDimension := D3D11_DSV_DIMENSION_TEXTURE1DARRAY }
        |>.set dsv_field.Texture1DArray_MipSlice desc.texture_first_level
        |>.set dsv_field.Texture1DArray_FirstArraySlice desc.texture_first_layer
        |>.set dsv_field.Texture1DArray_ArraySize desc.texture_layers)
    | resource_view_type.texture_2d =>
      some ({ internal_desc with ViewDimension := D3D11_DSV_DIMENSION_TEXTURE2D }
        |>.set dsv_field.Texture2D_MipSlice desc.texture_first_level)
    | resource_view_type.texture_2d_array =>
      some ({ internal_desc with ViewDimension := D3D11_DSV_DIMENSION_TEXTURE2DARRAY }
        |>.set dsv_field.Texture2DArray_MipSlice desc.texture_first_level
        |>.set dsv_field.Texture2DArray_FirstArraySlice desc.texture_first_layer
        |>.set dsv_field.Texture2DArray_ArraySize desc.texture_layers)
    | resource_view_type.texture_2d_multisample =>
      some ({ internal_desc with ViewDimension := D3D11_DSV_DIMENSION_TEXTURE2DMS })
    | resource_view_type.texture_2d_multisample_array =>
      some ({ internal_desc with ViewDimension := D3D11_DSV_DIMENSION_TEXTURE2DMSARRAY }
        |>.set dsv_field.Texture2DMSArray_FirstArraySlice desc.texture_first_layer
        |>.set dsv_field.Texture2DMSArray_ArraySize desc.texture_layers)
    | _ => some internal_desc
  else
    none

/-- The overload `convert_resource_view_desc(const resource_view_desc &,
D3D11_RENDER_TARGET_VIEW_DESC &)`, source lines 374-415, on the stored
descriptor. -/
def convert_resource_view_desc_to_rtv_stored (desc : resource_view_desc)
    (internal_desc : D3D11_RENDER_TARGET_VIEW_DESC_stored) :
    Option D3D11_RENDER_TARGET_VIEW_DESC_stored :=
  let internal_desc := { internal_desc with Format := desc.format }
  if desc.type ≠ resource_view_type.buffer ∧ desc.texture_levels = 1 then
    match desc.type with
    | resource_view_type.texture_1d =>
      some ({ internal_desc with ViewDimension := D3D11_RTV_DIMENSION_TEXTURE1D }
        |>.set rtv_field.Texture1D_MipSlice desc.texture_first_level)
    | resource_view_type.texture_1d_array =>
      some ({ internal_desc with ViewDimension := D3D11_RTV_DIMENSION_TEXTURE1DARRAY }
        |>.set rtv_field.Texture1DArray_MipSlice desc.texture_first_level
        |>.set rtv_field.Texture1DArray_FirstArraySlice desc.texture_first_layer
        |>.set rtv_field.Texture1DArray_ArraySize desc.texture_layers)
    | resource_view_type.texture_2d =>
      some ({ internal_desc with ViewDimension := D3D11_RTV_DIMENSION_TEXTURE2D }
        |>.set rtv_field.Texture2D_MipSlice desc.texture_first_level)
    | resource_view_type.texture_2d_array =>
      some ({ internal_desc with ViewDimension := D3D11_RTV_DIMENSION_TEXTURE2DARRAY }
        |>.set rtv_field.Texture2DArray_MipSlice desc.texture_first_level
        |>.set rtv_field.Texture2DArray_FirstArraySlice desc.texture_first_layer
        |>.set rtv_field.Texture2DArray_ArraySize desc.texture_layers)
    | resource_view_type.texture_2d_multisample =>
      some ({ internal_desc with ViewDimension := D3D11_RTV_DIMENSION_TEXTURE2DMS })
    | resource_view_type.texture_2d_multisample_array =>
      some ({ internal_desc with ViewDimension := D3D11_RTV_DIMENSION_TEXTURE2DMSARRAY }
        |>.set rtv_field.Texture2DMSArray_FirstArraySlice desc.texture_first_layer
        |>.set rtv_field.Texture2DMSArray_ArraySize desc.texture_layers)
    | resource_view_type.texture_3d =>
      some ({ internal_desc with ViewDimension := D3D11_RTV_DIMENSION_TEXTURE3D }
        |>.set rtv_field.Texture3D_MipSlice desc.texture_first_level
        |>.set rtv_field.Texture3D_FirstWSlice desc.texture_first_layer
        |>.set rtv_field.Texture3D_WSize desc.texture_layers)
    | _ => some internal_desc
  else
    none

/-- The overload `convert_resource_view_desc(const resource_view_desc &,
D3D11_SHADER_RESOURCE_VIEW_DESC &)`, source lines 443-508, on the stored
descriptor. -/
def convert_resource_view_desc_to_srv_stored (desc : resource_view_desc)
    (internal_desc : D3D11_SHADER_RESOURCE_VIEW_DESC_stored) :
    Option D3D11_SHADER_RESOURCE_VIEW_DESC_stored :=
  let internal_desc := { internal_desc with Format := desc.format }
  match desc.type with
  | resource_view_type.buffer =>
    if desc.buffer_offset ≤ UINT_MAX then
      if desc.buffer_size ≤ UINT_MAX then
        some ({ internal_desc with ViewDimension := D3D11_SRV_DIMENSION_BUFFER }
          |>.set srv_field.Buffer_FirstElement (desc.buffer_offset % 2 ^ 32)
          |>.set srv_field.Buffer_NumElements (desc.buffer_size % 2 ^ 32))
      else
        none
    else
      none
  | resource_view_type.texture_1d =>
    some ({ internal_desc with ViewDimension := D3D11_SRV_DIMENSION_TEXTURE1D }
      |>.set srv_field.Texture1D_MostDetailedMip desc.texture_first_level
      |>.set srv_field.Texture1D_MipLevels desc.texture_levels)
  | resource_view_type.texture_1d_array =>
    some ({ internal_desc with ViewDimension := D3D11_SRV_DIMENSION_TEXTURE1DARRAY }
      |>.set srv_field.Texture1DArray_MostDetailedMip desc.texture_first_level
      |>.set srv_field.Texture1DArray_MipLevels desc.texture_levels
      |>.set srv_field.Texture1DArray_FirstArraySlice desc.texture_first_layer
      |>.set srv_field.Texture1DArray_ArraySize desc.texture_layers)
  | resource_view_type.texture_2d =>
    some ({ internal_desc with ViewDimension := D3D11_SRV_DIMENSION_TEXTURE2D }
      |>.set srv_field.Texture2D_MostDetailedMip desc.texture_first_level
      |>.set srv_field.Texture2D_MipLevels desc.texture_levels)
  | resource_view_type.texture_2d_array =>
    some ({ internal_desc with ViewDimension := D3D11_SRV_DIMENSION_TEXTURE2DARRAY }
      |>.set srv_field.Texture2DArray_MostDetailedMip desc.texture_first_level
      |>.set srv_field.Texture2DArray_MipLevels desc.texture_levels
      |>.set srv_field.Texture2DArray_FirstArraySlice desc.texture_first_layer
      |>.set srv_field.Texture2DArray_ArraySize desc.texture_layers)
  | resource_view_type.texture_2d_multisample =>
    some ({ internal_desc with ViewDimension := D3D11_SRV_DIMENSION_TEXTURE2DMS })
  | resource_view_type.texture_2d_multisample_array =>
    some ({ internal_desc with ViewDimension := D3D11_SRV_DIMENSION_TEXTURE2DMSARRAY }
      |>.set srv_field.Texture2DMSArray_FirstArraySlice desc.texture_first_layer
      |>.set srv_field.Texture2DMSArray_ArraySize desc.texture_layers)
  | resource_view_type.texture_3d =>
    some ({ internal_desc with ViewDimension := D3D11_SRV_DIMENSION_TEXTURE3D }
      |>.set srv_field.Texture3D_MostDetailedMip desc.texture_first_level
      |>.set srv_field.Texture3D_MipLevels desc.texture_levels)
  | resource_view_type.texture_cube =>
    some ({ internal_desc with ViewDimension := D3D11_SRV_DIMENSION_TEXTURECUBE }
      |>.set srv_field.TextureCube_MostDetailedMip desc.texture_first_level
      |>.set srv_field.TextureCube_MipLevels desc.texture_levels)
  | resource_view_type.texture_cube_array =>
    some ({ internal_desc with ViewDimension := D3D11_SRV_DIMENSION_TEXTURECUBEARRAY }
      |>.set srv_field.TextureCubeArray_MostDetailedMip desc.texture_first_level
      |>.set srv_field.TextureCubeArray_MipLevels desc.texture_levels
      |>.set srv_field.TextureCubeArray_First2DArrayFace desc.texture_first_layer
      |>.set srv_field.TextureCubeArray_NumCubes
        (if desc.texture_layers = 0xFFFFFFFF then 0xFFFFFFFF
          else desc.texture_layers / 6))
  | _ => some internal_desc

/-- The overload `convert_resource_view_desc(const resource_view_desc &,
D3D11_UNORDERED_ACCESS_VIEW_DESC &)`, source lines 537-577, on the stored
descriptor. -/
def convert_resource_view_desc_to_uav_stored (desc : resource_view_desc)
    (internal_desc : D3D11_UNORDERED_ACCESS_VIEW_DESC_stored) :
    Option D3D11_UNORDERED_ACCESS_VIEW_DESC_stored :=
  let internal_desc := { internal_desc with Format := desc.format }
  if desc.type = resource_view_type.buffer ∨ desc.texture_levels = 1 then
    match desc.type with
    | resource_view_type.buffer =>
      if desc.buffer_offset ≤ UINT_MAX then
        if desc.buffer_size ≤ UINT_MAX then
          some ({ internal_desc with ViewDimension := D3D11_UAV_DIMENSION_BUFFER }
            |>.set uav_field.Buffer_FirstElement (desc.buffer_offset % 2 ^ 32)
            |>.set uav_field.Buffer_NumElements (desc.buffer_size % 2 ^ 32))
        else
          none
      else
        none
    | resource_view_type.texture_1d =>
      some ({ internal_desc with ViewDimension := D3D11_UAV_DIMENSION_TEXTURE1D }
        |>.set uav_field.Texture1D_MipSlice desc.texture_first_level)
    | resource_view_type.texture_1d_array =>
      some ({ internal_desc with ViewDimension := D3D11_UAV_DIMENSION_TEXTURE1DARRAY }
        |>.set uav_field.Texture1DArray_MipSlice desc.texture_first_level
        |>.set uav_field.Texture1DArray_FirstArraySlice desc.texture_first_layer
        |>.set uav_field.Texture1DArray_ArraySize desc.texture_layers)
    | resource_view_type.texture_2d =>
      some ({ internal_desc with ViewDimension := D3D11_UAV_DIMENSION_TEXTURE2D }
        |>.set uav_field.Texture2D_MipSlice desc.texture_first_level)
    | resource_view_type.texture_2d_array =>
      some ({ internal_desc with ViewDimension := D3D11_UAV_DIMENSION_TEXTURE2DARRAY }
        |>.set uav_field.Texture2DArray_MipSlice desc.texture_first_level
        |>.set uav_field.Texture2DArray_FirstArraySlice desc.texture_first_layer
        |>.set uav_field.Texture2DArray_ArraySize desc.texture_layers)
    | resource_view_type.texture_3d =>
      some ({ internal_desc with ViewDimension := D3D11_UAV_DIMENSION_TEXTURE3D }
        |>.set uav_field.Texture3D_MipSlice desc.texture_first_level
        |>.set uav_field.Texture3D_FirstWSlice desc.texture_first_layer
        |>.set uav_field.Texture3D_WSize desc.texture_layers)
    | _ => some internal_desc
  else
    none

/-- The overload `convert_resource_view_desc(const resource_view_desc &,
D3D11_RENDER_TARGET_VIEW_DESC1 &)`, source lines 416-442, on the stored
descriptor: the `else` branch runs the base translator on the leading words. -/
def convert_resource_view_desc_to_rtv1_stored (desc : resource_view_desc)
    (internal_desc : D3D11_RENDER_TARGET_VIEW_DESC1_stored) :
    Option D3D11_RENDER_TARGET_VIEW_DESC1_stored :=
  if desc.type = resource_view_type.texture_2d ∨
      desc.type = resource_view_type.texture_2d_array then
    let internal_desc := { internal_desc with Format := desc.format }
    if desc.type ≠ resource_view_type.buffer ∧ desc.texture_levels = 1 then
      match desc.type with
      | resource_view_type.texture_2d =>
        some ({ internal_desc with ViewDimension := D3D11_RTV_DIMENSION_TEXTURE2D }
          |>.set rtv_field.Texture2D_MipSlice desc.texture_first_level)
      | resource_view_type.texture_2d_array =>
        some ({ internal_desc with ViewDimension := D3D11_RTV_DIMENSION_TEXTURE2DARRAY }
          |>.set rtv_field.Texture2DArray_MipSlice desc.texture_first_level
          |>.set rtv_field.Texture2DArray_FirstArraySlice desc.texture_first_layer
          |>.set rtv_field.Texture2DArray_ArraySize desc.texture_layers)
      | _ => some internal_desc
    else
      none
  else
    (convert_resource_view_desc_to_rtv_stored desc
        internal_desc.toD3D11_RENDER_TARGET_VIEW_DESC_stored).map
      fun base => { internal_desc with toD3D11_RENDER_TARGET_VIEW_DESC_stored := base }

/-- The overload `convert_resource_view_desc(const resource_view_desc &,
D3D11_SHADER_RESOURCE_VIEW_DESC1 &)`, source lines 509-536, on the stored
descriptor: the `else` branch runs the base translator on the leading words. -/
def convert_resource_view_desc_to_srv1_stored (desc : resource_view_desc)
    (internal_desc : D3D11_SHADER_RESOURCE_VIEW_DESC1_stored) :
    Option D3D11_SHADER_RESOURCE_VIEW_DESC1_stored :=
  if desc.type = resource_view_type.texture_2d ∨
      desc.type = resource_view_type.texture_2d_array then
    let internal_desc := { internal_desc with Format := desc.format }
    match desc.type with
    | resource_view_type.texture_2d =>
      some ({ internal_desc with ViewDimension := D3D11_SRV_DIMENSION_TEXTURE2D }
        |>.set srv_field.Texture2D_MostDetailedMip desc.texture_first_level
        |>.set srv_field.Texture2D_MipLevels desc.texture_levels)
    | resource_view_type.texture_2d_array =>
      some ({ internal_desc with ViewDimension := D3D11_SRV_DIMENSION_TEXTURE2DARRAY }
        |>.set srv_field.Texture2DArray_MostDetailedMip desc.texture_first_level
        |>.set srv_field.Texture2DArray_MipLevels desc.texture_levels
        |>.set srv_field.Texture2DArray_FirstArraySlice desc.texture_first_layer
        |>.set srv_field.Texture2DArray_ArraySize desc.texture_layers)
    | _ => some internal_desc
  else
    (convert_resource_view_desc_to_srv_stored desc
        internal_desc.toD3D11_SHADER_RESOURCE_VIEW_DESC_stored).map
      fun base => { internal_desc with toD3D11_SHADER_RESOURCE_VIEW_DESC_stored := base }

/-- The overload `convert_resource_view_desc(const resource_view_desc &,
D3D11_UNORDERED_ACCESS_VIEW_DESC1 &)`, source lines 578-604, on the stored
descriptor: the `else` branch runs the base translator on the leading words. -/
def convert_resource_view_desc_to_uav1_stored (desc : resource_view_desc)
    (internal_desc : D3D11_UNORDERED_ACCESS_VIEW_DESC1_stored) :
    Option D3D11_UNORDERED_ACCESS_VIEW_DESC1_stored :=
  if desc.type = resource_view_type.texture_2d ∨
      desc.type = resource_view_type.texture_2d_array then
    let internal_desc := { internal_desc with Format := desc.format }
    if desc.type = resource_view_type.buffer ∨ desc.texture_levels = 1 then
      match desc.type with
      | resource_view_type.texture_2d =>
        some ({ internal_desc with ViewDimension := D3D11_UAV_DIMENSION_TEXTURE2D }
          |>.set uav_field.Texture2D_MipSlice desc.texture_first_level)
      | resource_view_type.texture_2d_array =>
        some ({ internal_desc with ViewDimension := D3D11_UAV_DIMENSION_TEXTURE2DARRAY }
          |>.set uav_field.Texture2DArray_MipSlice desc.texture_first_level
          |>.set uav_field.Texture2DArray_FirstArraySlice desc.texture_first_layer
          |>.set uav_field.Texture2DArray_ArraySize desc.texture_layers)
      | _ => some internal_desc
    else
      none
  else
    (convert_resource_view_desc_to_uav_stored desc
        internal_desc.toD3D11_UNORDERED_ACCESS_VIEW_DESC_stored).map
      fun base => { internal_desc with toD3D11_UNORDERED_ACCESS_VIEW_DESC_stored := base }

/-! ### Stored descriptor to abstract description -/

/-- The overload `convert_resource_view_desc(const
D3D11_RENDER_TARGET_VIEW_DESC &)`, source lines 644-687, on the stored
descriptor. -/
def convert_resource_view_desc_from_rtv_stored
    (internal_desc : D3D11_RENDER_TARGET_VIEW_DESC_stored) : resource_view_desc :=
  let desc := resource_view_desc.value_initialized
  let desc := { desc with format := internal_desc.Format }
  let desc := { desc with texture_levels := 1 }
  match internal_desc.ViewDimension with
  | D3D11_RTV_DIMENSION_TEXTURE1D =>
    { desc with
      type := resource_view_type.texture_1d
      texture_first_level := internal_desc.get rtv_field.Texture1D_MipSlice }
  | D3D11_RTV_DIMENSION_TEXTURE1DARRAY =>
    { desc with
      type := resource_view_type.texture_1d_array
      texture_first_level := internal_desc.get rtv_field.Texture1DArray_MipSlice
      texture_first_layer := internal_desc.get rtv_field.Texture1DArray_FirstArraySlice
      texture_layers := internal_desc.get rtv_field.Texture1DArray_ArraySize }
  | D3D11_RTV_DIMENSION_TEXTURE2D =>
    { desc with
      type := resource_view_type.texture_2d
      texture_first_level := internal_desc.get rtv_field.Texture2D_MipSlice }
  | D3D11_RTV_DIMENSION_TEXTURE2DARRAY =>
    { desc with
      type := resource_view_type.texture_2d_array
      texture_first_level := internal_desc.get rtv_field.Texture2DArray_MipSlice
      texture_first_layer := internal_desc.get rtv_field.Texture2DArray_FirstArraySlice
      texture_layers := internal_desc.get rtv_field.Texture2DArray_ArraySize }
  | D3D11_RTV_DIMENSION_TEXTURE2DMS =>
    { desc with
      type := resource_view_type.texture_2d_multisample }
  | D3D11_RTV_DIMENSION_TEXTURE2DMSARRAY =>
    { desc with
      type := resource_view_type.texture_2d_multisample_array
      texture_first_layer := internal_desc.get rtv_field.Texture2DMSArray_FirstArraySlice
      texture_layers := internal_desc.get rtv_field.Texture2DMSArray_ArraySize }
  | D3D11_RTV_DIMENSION_TEXTURE3D =>
    { desc with
      type := resource_view_type.texture_3d
      texture_first_level := internal_desc.get rtv_field.Texture3D_MipSlice
      texture_first_layer := internal_desc.get rtv_field.Texture3D_FirstWSlice
      texture_layers := internal_desc.get rtv_field.Texture3D_WSize }
  | _ => desc

/-- The overload `convert_resource_view_desc(const
D3D11_SHADER_RESOURCE_VIEW_DESC &)`, source lines 717-788, on the stored
descriptor. -/
def convert_resource_view_desc_from_srv_stored
    (internal_desc : D3D11_SHADER_RESOURCE_VIEW_DESC_stored) : resource_view_desc :=
  let desc := resource_view_desc.value_initialized
  let desc := { desc with format := internal_desc.Format }
  match internal_desc.ViewDimension with
  | D3D11_SRV_DIMENSION_BUFFER =>
    let desc := { desc with type := resource_view_type.buffer }
    let desc := desc.set_buffer_offset (internal_desc.get srv_field.Buffer_FirstElement)
    desc.set_buffer_size (internal_desc.get srv_field.Buffer_NumElements)
  | D3D11_SRV_DIMENSION_TEXTURE1D =>
    { desc with
      type := resource_view_type.texture_1d
      texture_first_level := internal_desc.get srv_field.Texture1D_MostDetailedMip
      texture_levels := internal_desc.get srv_field.Texture1D_MipLevels }
  | D3D11_SRV_DIMENSION_TEXTURE1DARRAY =>
    { desc with
      type := resource_view_type.texture_1d_array
      texture_first_level := internal_desc.get srv_field.Texture1DArray_MostDetailedMip
      texture_levels := internal_desc.get srv_field.Texture1DArray_MipLevels
      texture_first_layer := internal_desc.get srv_field.Texture1DArray_FirstArraySlice
      texture_layers := internal_desc.get srv_field.Texture1DArray_ArraySize }
  | D3D11_SRV_DIMENSION_TEXTURE2D =>
    { desc with
      type := resource_view_type.texture_2d
      texture_first_level := internal_desc.get srv_field.Texture2D_MostDetailedMip
      texture_levels := internal_desc.get srv_field.Texture2D_MipLevels }
  | D3D11_SRV_DIMENSION_TEXTURE2DARRAY =>
    { desc with
      type := resource_view_type.texture_2d_array
      texture_first_level := internal_desc.get srv_field.Texture2DArray_MostDetailedMip
      texture_levels := internal_desc.get srv_field.Texture2DArray_MipLevels
      texture_first_layer := internal_desc.get srv_field.Texture2DArray_FirstArraySlice
      texture_layers := internal_desc.get srv_field.Texture2DArray_ArraySize }
  | D3D11_SRV_DIMENSION_TEXTURE2DMS =>
    { desc with
      type := resource_view_type.texture_2d_multisample }
  | D3D11_SRV_DIMENSION_TEXTURE2DMSARRAY =>
    { desc with
      type := resource_view_type.texture_2d_multisample_array
      texture_first_layer := internal_desc.get srv_field.Texture2DMSArray_FirstArraySlice
      texture_layers := internal_desc.get srv_field.Texture2DMSArray_ArraySize }
  | D3D11_SRV_DIMENSION_TEXTURE3D =>
    { desc with
      type := resource_view_type.texture_3d
      texture_first_level := internal_desc.get srv_field.Texture3D_MostDetailedMip
      texture_levels := internal_desc.get srv_field.Texture3D_MipLevels }
  | D3D11_SRV_DIMENSION_TEXTURECUBE =>
    { desc with
      type := resource_view_type.texture_cube
      texture_first_level := internal_desc.get srv_field.TextureCube_MostDetailedMip
      texture_levels := internal_desc.get srv_field.TextureCube_MipLevels }
  | D3D11_SRV_DIMENSION_TEXTURECUBEARRAY =>
    { desc with
      type := resource_view_type.texture_cube_array
      texture_first_level := internal_desc.get srv_field.TextureCubeArray_MostDetailedMip
      texture_levels := internal_desc.get srv_field.TextureCubeArray_MipLevels
      texture_first_layer := internal_desc.get srv_field.TextureCubeArray_First2DArrayFace
      texture_layers :=
        if internal_desc.get srv_field.TextureCubeArray_NumCubes = 0xFFFFFFFF then 0xFFFFFFFF
        else internal_desc.get srv_field.TextureCubeArray_NumCubes * 6 % 2 ^ 32 }
  | D3D11_SRV_DIMENSION_BUFFEREX =>
    let desc := desc.set_buffer_offset (internal_desc.get srv_field.BufferEx_FirstElement)
    desc.set_buffer_size (internal_desc.get srv_field.BufferEx_NumElements)
  | _ => desc

/-- The overload `convert_resource_view_desc(const
D3D11_UNORDERED_ACCESS_VIEW_DESC &)`, source lines 819-860, on the stored
descriptor. -/
def convert_resource_view_desc_from_uav_stored
    (internal_desc : D3D11_UNORDERED_ACCESS_VIEW_DESC_stored) : resource_view_desc :=
  let desc := resource_view_desc.value_initialized
  let desc := { desc with format := internal_desc.Format }
  let desc := { desc with texture_levels := 1 }
  match internal_desc.ViewDimension with
  | D3D11_UAV_DIMENSION_BUFFER =>
    let desc := { desc with type := resource_view_type.buffer }
    let desc := desc.set_buffer_offset (internal_desc.get uav_field.Buffer_FirstElement)
    desc.set_buffer_size (internal_desc.get uav_field.Buffer_NumElements)
  | D3D11_UAV_DIMENSION_TEXTURE1D =>
    { desc with
      type := resource_view_type.texture_1d
      texture_first_level := internal_desc.get uav_field.Texture1D_MipSlice }
  | D3D11_UAV_DIMENSION_TEXTURE1DARRAY =>
    { desc with
      type := resource_view_type.texture_1d_array
      texture_first_level := internal_desc.get uav_field.Texture1DArray_MipSlice
      texture_first_layer := internal_desc.get uav_field.Texture1DArray_FirstArraySlice
      texture_layers := internal_desc.get uav_field.Texture1DArray_ArraySize }
  | D3D11_UAV_DIMENSION_TEXTURE2D =>
    { desc with
      type := resource_view_type.texture_2d
      texture_first_level := internal_desc.get uav_field.Texture2D_MipSlice }
  | D3D11_UAV_DIMENSION_TEXTURE2DARRAY =>
    { desc with
      type := resource_view_type.texture_2d_array
      texture_first_level := internal_desc.get uav_field.Texture2DArray_MipSlice
      texture_first_layer := internal_desc.get uav_field.Texture2DArray_FirstArraySlice
      texture_layers := internal_desc.get uav_field.Texture2DArray_ArraySize }
  | D3D11_UAV_DIMENSION_TEXTURE3D =>
    { desc with
      type := resource_view_type.texture_3d
      texture_first_level := internal_desc.get uav_field.Texture3D_MipSlice
      texture_first_layer := internal_desc.get uav_field.Texture3D_FirstWSlice
      texture_layers := internal_desc.get uav_field.Texture3D_WSize }
  | _ => desc

/-- The overload `convert_resource_view_desc(const
D3D11_RENDER_TARGET_VIEW_DESC1 &)`, source lines 688-716, on the stored
descriptor: the `else` branch runs the base translator on the leading words. -/
def convert_resource_view_desc_from_rtv1_stored
    (internal_desc : D3D11_RENDER_TARGET_VIEW_DESC1_stored) : resource_view_desc :=
  if internal_desc.ViewDimension = D3D11_RTV_DIMENSION_TEXTURE2D ∨
      internal_desc.ViewDimension = D3D11_RTV_DIMENSION_TEXTURE2DARRAY then
    let desc := resource_view_desc.value_initialized
    let desc := { desc with format := internal_desc.Format }
    let desc := { desc with texture_levels := 1 }
    match internal_desc.ViewDimension with
    | D3D11_RTV_DIMENSION_TEXTURE2D =>
      { desc with
        type := resource_view_type.texture_2d
        texture_first_level := internal_desc.get rtv_field.Texture2D_MipSlice }
    | D3D11_RTV_DIMENSION_TEXTURE2DARRAY =>
      { desc with
        type := resource_view_type.texture_2d_array
        texture_first_level := internal_desc.get rtv_field.Texture2DArray_MipSlice
        texture_first_layer := internal_desc.get rtv_field.Texture2DArray_FirstArraySlice
        texture_layers := internal_desc.get rtv_field.Texture2DArray_ArraySize }
    | _ => desc
  else
    convert_resource_view_desc_from_rtv_stored
      internal_desc.toD3D11_RENDER_TARGET_VIEW_DESC_stored

/-- The overload `convert_resource_view_desc(const
D3D11_SHADER_RESOURCE_VIEW_DESC1 &)`, source lines 789-818, on the stored
descriptor: the `else` branch runs the base translator on the leading words. -/
def convert_resource_view_desc_from_srv1_stored
    (internal_desc : D3D11_SHADER_RESOURCE_VIEW_DESC1_stored) : resource_view_desc :=
  if internal_desc.ViewDimension = D3D11_SRV_DIMENSION_TEXTURE2D ∨
      internal_desc.ViewDimension = D3D11_SRV_DIMENSION_TEXTURE2DARRAY then
    let desc := resource_view_desc.value_initialized
    let desc := { desc with format := internal_desc.Format }
    match internal_desc.ViewDimension with
    | D3D11_SRV_DIMENSION_TEXTURE2D =>
      { desc with
        type := resource_view_type.texture_2d
        texture_first_level := internal_desc.get srv_field.Texture2D_MostDetailedMip
        texture_levels := internal_desc.get srv_field.Texture2D_MipLevels }
    | D3D11_SRV_DIMENSION_TEXTURE2DARRAY =>
      { desc with
        type := resource_view_type.texture_2d_array
        texture_first_level := internal_desc.get srv_field.Texture2DArray_MostDetailedMip
        texture_levels := internal_desc.get srv_field.Texture2DArray_MipLevels
        texture_first_layer := internal_desc.get srv_field.Texture2DArray_FirstArraySlice
        texture_layers := internal_desc.get srv_field.Texture2DArray_ArraySize }
    | _ => desc
  else
    convert_resource_view_desc_from_srv_stored
      internal_desc.toD3D11_SHADER_RESOURCE_VIEW_DESC_stored

/-- The overload `convert_resource_view_desc(const
D3D11_UNORDERED_ACCESS_VIEW_DESC1 &)`, source lines 861-889, on the stored
descriptor: the `else` branch runs the base translator on the leading words. -/
def convert_resource_view_desc_from_uav1_stored
    (internal_desc : D3D11_UNORDERED_ACCESS_VIEW_DESC1_stored) : resource_view_desc :=
  if internal_desc.ViewDimension = D3D11_UAV_DIMENSION_TEXTURE2D ∨
      internal_desc.ViewDimension = D3D11_UAV_DIMENSION_TEXTURE2DARRAY then
    let desc := resource_view_desc.value_initialized
    let desc := { desc with format := internal_desc.Format }
    let desc := { desc with texture_levels := 1 }
    match internal_desc.ViewDimension with
    | D3D11_UAV_DIMENSION_TEXTURE2D =>
      { desc with
        type := resource_view_type.texture_2d
        texture_first_level := internal_desc.get uav_field.Texture2D_MipSlice }
    | D3D11_UAV_DIMENSION_TEXTURE2DARRAY =>
      { desc with
        type := resource_view_type.texture_2d_array
        texture_first_level := internal_desc.get uav_field.Texture2DArray_MipSlice
        texture_first_layer := internal_desc.get uav_field.Texture2DArray_FirstArraySlice
        texture_layers := internal_desc.get uav_field.Texture2DArray_ArraySize }
    | _ => desc
  else
    convert_resource_view_desc_from_uav_stored
      internal_desc.toD3D11_UNORDERED_ACCESS_VIEW_DESC_stored

/-! ### Payload fields assigned by each case -/

/-- Payload fields that the `case` of a tag assigns in the depth-stencil
translator (source lines 337-373); none for a tag without a `case`. -/
def dsv_case_fields : resource_view_type → List dsv_field
  | resource_view_type.texture_1d =>
    [dsv_field.Texture1D_MipSlice]
  | resource_view_type.texture_1d_array =>
    [dsv_field.Texture1DArray_MipSlice, dsv_field.Texture1DArray_FirstArraySlice,
      dsv_field.Texture1DArray_ArraySize]
  | resource_view_type.texture_2d =>
    [dsv_field.Texture2D_MipSlice]
  | resource_view_type.texture_2d_array =>
    [dsv_field.Texture2DArray_MipSlice, dsv_field.Texture2DArray_FirstArraySlice,
      dsv_field.Texture2DArray_ArraySize]
  | resource_view_type.texture_2d_multisample => []
  | resource_view_type.texture_2d_multisample_array =>
    [dsv_field.Texture2DMSArray_FirstArraySlice, dsv_field.Texture2DMSArray_ArraySize]
  | _ => []

/-- Payload fields that the `case` of a tag assigns in the render-target
translator (source lines 374-415); none for a tag without a `case`. -/
def rtv_case_fields : resource_view_type → List rtv_field
  | resource_view_type.texture_1d =>
    [rtv_field.Texture1D_MipSlice]
  | resource_view_type.texture_1d_array =>
    [rtv_field.Texture1DArray_MipSlice, rtv_field.Texture1DArray_FirstArraySlice,
      rtv_field.Texture1DArray_ArraySize]
  | resource_view_type.texture_2d =>
    [rtv_field.Texture2D_MipSlice]
  | resource_view_type.texture_2d_array =>
    [rtv_field.Texture2DArray_MipSlice, rtv_field.Texture2DArray_FirstArraySlice,
      rtv_field.Texture2DArray_ArraySize]
  | resource_view_type.texture_2d_multisample => []
  | resource_view_type.texture_2d_multisample_array =>
    [rtv_field.Texture2DMSArray_FirstArraySlice, rtv_field.Texture2DMSArray_ArraySize]
  | resource_view_type.texture_3d =>
    [rtv_field.Texture3D_MipSlice, rtv_field.Texture3D_FirstWSlice, rtv_field.Texture3D_WSize]
  | _ => []

/-- Payload fields that the `case` of a tag assigns in the shader-resource
translator (source lines 443-508); none for a tag without a `case`. -/
def srv_case_fields : resource_view_type → List srv_field
  | resource_view_type.buffer =>
    [srv_field.Buffer_FirstElement, srv_field.Buffer_NumElements]
  | resource_view_type.texture_1d =>
    [srv_field.Texture1D_MostDetailedMip, srv_field.Texture1D_MipLevels]
  | resource_view_type.texture_1d_array =>
    [srv_field.Texture1DArray_MostDetailedMip, srv_field.Texture1DArray_MipLevels,
      srv_field.Texture1DArray_FirstArraySlice, srv_field.Texture1DArray_ArraySize]
  | resource_view_type.texture_2d =>
    [srv_field.Texture2D_MostDetailedMip, srv_field.Texture2D_MipLevels]
  | resource_view_type.texture_2d_array =>
    [srv_field.Texture2DArray_MostDetailedMip, srv_field.Texture2DArray_MipLevels,
      srv_field.Texture2DArray_FirstArraySlice, srv_field.Texture2DArray_ArraySize]
  | resource_view_type.texture_2d_multisample => []
  | resource_view_type.texture_2d_multisample_array =>
    [srv_field.Texture2DMSArray_FirstArraySlice, srv_field.Texture2DMSArray_ArraySize]
  | resource_view_type.texture_3d =>
    [srv_field.Texture3D_MostDetailedMip, srv_field.Texture3D_MipLevels]
  | resource_view_type.texture_cube =>
    [srv_field.TextureCube_MostDetailedMip, srv_field.TextureCube_MipLevels]
  | resource_view_type.texture_cube_array =>
    [srv_field.TextureCubeArray_MostDetailedMip, srv_field.TextureCubeArray_MipLevels,
      srv_field.TextureCubeArray_First2DArrayFace, srv_field.TextureCubeArray_NumCubes]
  | _ => []

/-- Payload fields that the `case` of a tag assigns in the unordered-access
translator (source lines 537-577); none for a tag without a `case`. -/
def uav_case_fields : resource_view_type → List uav_field
  | resource_view_type.buffer =>
    [uav_field.Buffer_FirstElement, uav_field.Buffer_NumElements]
  | resource_view_type.texture_1d =>
    [uav_field.Texture1D_MipSlice]
  | resource_view_type.texture_1d_array =>
    [uav_field.Texture1DArray_MipSlice, uav_field.Texture1DArray_FirstArraySlice,
      uav_field.Texture1DArray_ArraySize]
  | resource_view_type.texture_2d =>
    [uav_field.Texture2D_MipSlice]
  | resource_view_type.texture_2d_array =>
    [uav_field.Texture2DArray_MipSlice, uav_field.Texture2DArray_FirstArraySlice,
      uav_field.Texture2DArray_ArraySize]
  | resource_view_type.texture_3d =>
    [uav_field.Texture3D_MipSlice, uav_field.Texture3D_FirstWSlice, uav_field.Texture3D_WSize]
  | _ => []

/-! ### Stored descriptors used in the examples -/

/-- A stored shader-resource descriptor filled with zeros. -/
def zeroed_srv_desc_stored : D3D11_SHADER_RESOURCE_VIEW_DESC_stored :=
  { Format := 0, ViewDimension := D3D11_SRV_DIMENSION_UNKNOWN,
    word_0 := 0, word_1 := 0, word_2 := 0, word_3 := 0 }

/-- A stored shader-resource descriptor whose payload words are 10, 11, 12
and 13. -/
def numbered_srv_desc_stored : D3D11_SHADER_RESOURCE_VIEW_DESC_stored :=
  { Format := 0, ViewDimension := D3D11_SRV_DIMENSION_UNKNOWN,
    word_0 := 10, word_1 := 11, word_2 := 12, word_3 := 13 }

/-- A stored versioned render-target descriptor whose payload words are 10,
11, 12 and 13. -/
def numbered_rtv_desc1_stored : D3D11_RENDER_TARGET_VIEW_DESC1_stored :=
  { Format := 0, ViewDimension := D3D11_RTV_DIMENSION_UNKNOWN,
    word_0 := 10, word_1 := 11, word_2 := 12, word_3 := 13 }

/-! # Properties

## Bit-level lemmas for the usage and bind-flag words -/

/-- A word has a non-zero intersection with a single-bit mask exactly when that bit is set. -/
theorem and_two_pow_ne_zero_iff (x k : Nat) : (x &&& 2 ^ k) ≠ 0 ↔ x.testBit k = true := by
  constructor
  · intro h
    by_contra hk
    apply h
    apply Nat.eq_of_testBit_eq
    intro i
    simp only [Nat.testBit_and, Nat.testBit_two_pow, Nat.zero_testBit]
    by_cases hki : k = i
    · subst hki; simp [hk]
    · simp [hki]
  · intro h h0
    have := congrArg (fun y => Nat.testBit y k) h0
    simp [Nat.testBit_two_pow, h] at this

/-- The bits of the all-ones 32-bit word. -/
theorem testBit_UINT_ones (i : Nat) : (0xFFFFFFFF : Nat).testBit i = decide (i < 32) :=
  Nat.testBit_two_pow_sub_one 32 i

/-- Bits of a word after one set-or-clear step on bit `k`. -/
theorem testBit_set_or_clear (c : Prop) [Decidable c] (B k i : Nat) (hk : k < 32) :
    (if c then B ||| 2 ^ k else B &&& UINT_not (2 ^ k)).testBit i =
      if k = i then decide c else (B.testBit i && (decide c || decide (i < 32))) := by
  by_cases hc : c <;> by_cases hki : k = i <;> by_cases hi : i < 32 <;>
    simp [hc, hki, hi, UINT_not, testBit_UINT_ones, Nat.testBit_two_pow]
  omega

/-- Bits of a 32-bit word after one set-or-clear step: bit `k` holds the test, the others are unchanged. -/
theorem testBit_set_or_clear_word (c : Prop) [Decidable c] (B k i : Nat) (hk : k < 32)
    (hB : B < 2 ^ 32) :
    (if c then B ||| 2 ^ k else B &&& UINT_not (2 ^ k)).testBit i =
      if k = i then decide c else B.testBit i := by
  rw [testBit_set_or_clear c B k i hk]
  by_cases hi : i < 32
  · simp [hi]
  · have : B.testBit i = false :=
      Nat.testBit_lt_two_pow (lt_of_lt_of_le hB (Nat.pow_le_pow_right (by norm_num) (by omega)))
    simp [this]

/-- A set-or-clear step keeps a word within 32 bits. -/
theorem set_or_clear_lt (c : Prop) [Decidable c] (B k : Nat) (hk : k < 32) (hB : B < 2 ^ 32) :
    (if c then B ||| 2 ^ k else B &&& UINT_not (2 ^ k)) < 2 ^ 32 := by
  split
  · exact Nat.or_lt_two_pow hB (Nat.pow_lt_pow_right (by norm_num) hk)
  · exact lt_of_le_of_lt Nat.and_le_left hB

/-- The forward usage translation as seven nested set-or-clear steps on bits 5, 6, 3, 7, 1, 0, 2. -/
theorem convert_resource_usage_to_bind_flags_eq (U B : Nat) :
    convert_resource_usage_to_bind_flags U B =
      (fun B6 =>
        if (U &&& resource_usage.constant_buffer) ≠ 0 then B6 ||| 2 ^ 2
        else B6 &&& UINT_not (2 ^ 2))
      ((fun B5 =>
        if (U &&& resource_usage.vertex_buffer) ≠ 0 then B5 ||| 2 ^ 0
        else B5 &&& UINT_not (2 ^ 0))
      ((fun B4 =>
        if (U &&& resource_usage.index_buffer) ≠ 0 then B4 ||| 2 ^ 1
        else B4 &&& UINT_not (2 ^ 1))
      ((fun B3 =>
        if (U &&& resource_usage.unordered_access) ≠ 0 then B3 ||| 2 ^ 7
        else B3 &&& UINT_not (2 ^ 7))
      ((fun B2 =>
        if (U &&& resource_usage.shader_resource) ≠ 0 then B2 ||| 2 ^ 3
        else B2 &&& UINT_not (2 ^ 3))
      ((fun B1 =>
        if (U &&& resource_usage.depth_stencil) ≠ 0 then B1 ||| 2 ^ 6
        else B1 &&& UINT_not (2 ^ 6))
      (if (U &&& resource_usage.render_target) ≠ 0 then B ||| 2 ^ 5
        else B &&& UINT_not (2 ^ 5))))))) := rfl

/-- The forward usage translation keeps the bind-flags word within 32 bits. -/
theorem convert_resource_usage_to_bind_flags_lt (U B : Nat) (hB : B < 2 ^ 32) :
    convert_resource_usage_to_bind_flags U B < 2 ^ 32 := by
  rw [convert_resource_usage_to_bind_flags_eq]
  exact set_or_clear_lt _ _ 2 (by norm_num) (set_or_clear_lt _ _ 0 (by norm_num)
    (set_or_clear_lt _ _ 1 (by norm_num) (set_or_clear_lt _ _ 7 (by norm_num)
    (set_or_clear_lt _ _ 3 (by norm_num) (set_or_clear_lt _ _ 6 (by norm_num)
    (set_or_clear_lt _ _ 5 (by norm_num) hB))))))

/-- Every bit of the translated bind-flags word: the seven mapped positions hold the seven tests, every other position keeps the bit of the initial word. -/
theorem testBit_convert_resource_usage_to_bind_flags (U B i : Nat) (hB : B < 2 ^ 32) :
    (convert_resource_usage_to_bind_flags U B).testBit i =
      if 2 = i then decide ((U &&& resource_usage.constant_buffer) ≠ 0)
      else if 0 = i then decide ((U &&& resource_usage.vertex_buffer) ≠ 0)
      else if 1 = i then decide ((U &&& resource_usage.index_buffer) ≠ 0)
      else if 7 = i then decide ((U &&& resource_usage.unordered_access) ≠ 0)
      else if 3 = i then decide ((U &&& resource_usage.shader_resource) ≠ 0)
      else if 6 = i then decide ((U &&& resource_usage.depth_stencil) ≠ 0)
      else if 5 = i then decide ((U &&& resource_usage.render_target) ≠ 0)
      else B.testBit i := by
  have h1 := set_or_clear_lt ((U &&& resource_usage.render_target) ≠ 0) B 5 (by norm_num) hB
  have h2 := set_or_clear_lt ((U &&& resource_usage.depth_stencil) ≠ 0) _ 6 (by norm_num) h1
  have h3 := set_or_clear_lt ((U &&& resource_usage.shader_resource) ≠ 0) _ 3 (by norm_num) h2
  have h4 := set_or_clear_lt ((U &&& resource_usage.unordered_access) ≠ 0) _ 7 (by norm_num) h3
  have h5 := set_or_clear_lt ((U &&& resource_usage.index_buffer) ≠ 0) _ 1 (by norm_num) h4
  have h6 := set_or_clear_lt ((U &&& resource_usage.vertex_buffer) ≠ 0) _ 0 (by norm_num) h5
  rw [convert_resource_usage_to_bind_flags_eq]
  simp only []
  rw [testBit_set_or_clear_word _ _ 2 i (by norm_num) h6,
    testBit_set_or_clear_word _ _ 0 i (by norm_num) h5,
    testBit_set_or_clear_word _ _ 1 i (by norm_num) h4,
    testBit_set_or_clear_word _ _ 7 i (by norm_num) h3,
    testBit_set_or_clear_word _ _ 3 i (by norm_num) h2,
    testBit_set_or_clear_word _ _ 6 i (by norm_num) h1,
    testBit_set_or_clear_word _ _ 5 i (by norm_num) hB]

/-- Two words that agree outside `c` agree on every mask disjoint from `c`. -/
theorem and_mask_of_and_not (U V m c : Nat) (hm : UINT_not c &&& m = m)
    (h : U &&& UINT_not c = V &&& UINT_not c) : U &&& m = V &&& m := by
  rw [← hm, ← Nat.and_assoc, ← Nat.and_assoc, h]

/-- Restricting a bind-flags word to the seven mapped flags does not change its intersection with one of them. -/
theorem and_mapped_and (B b : Nat) (hb : D3D11_BIND_mapped &&& b = b) :
    (B &&& D3D11_BIND_mapped) &&& b = B &&& b := by
  rw [Nat.and_assoc, hb]

/-- A conditional union written as a union with a conditional mask. -/
theorem or_ite_eq (c : Prop) [Decidable c] (u m : Nat) :
    (if c then u ||| m else u) = u ||| (if c then m else 0) := by
  split <;> simp

/-- The reverse translation in closed form: the initial usage, the two copy masks and the masks of the flags found. -/
theorem convert_bind_flags_to_resource_usage_eq (B U : Nat) :
    convert_bind_flags_to_resource_usage B U =
      (U ||| (resource_usage.copy_dest ||| resource_usage.copy_source)) |||
      bind_mapped_usage
        (decide ((B &&& D3D11_BIND_RENDER_TARGET) ≠ 0))
        (decide ((B &&& D3D11_BIND_DEPTH_STENCIL) ≠ 0))
        (decide ((B &&& D3D11_BIND_SHADER_RESOURCE) ≠ 0))
        (decide ((B &&& D3D11_BIND_UNORDERED_ACCESS) ≠ 0))
        (decide ((B &&& D3D11_BIND_INDEX_BUFFER) ≠ 0))
        (decide ((B &&& D3D11_BIND_VERTEX_BUFFER) ≠ 0))
        (decide ((B &&& D3D11_BIND_CONSTANT_BUFFER) ≠ 0)) := by
  simp only [convert_bind_flags_to_resource_usage, bind_mapped_usage, or_ite_eq,
    decide_eq_true_eq]
  simp only [Nat.or_assoc]

/-- After the forward translation each mapped bind flag is set exactly when its usage test succeeds. -/
theorem bind_flag_iff_usage (U B0 : Nat) (hB0 : B0 < 2 ^ 32) :
    (((convert_resource_usage_to_bind_flags U B0) &&& D3D11_BIND_RENDER_TARGET) ≠ 0 ↔
        (U &&& resource_usage.render_target) ≠ 0) ∧
    (((convert_resource_usage_to_bind_flags U B0) &&& D3D11_BIND_DEPTH_STENCIL) ≠ 0 ↔
        (U &&& resource_usage.depth_stencil) ≠ 0) ∧
    (((convert_resource_usage_to_bind_flags U B0) &&& D3D11_BIND_SHADER_RESOURCE) ≠ 0 ↔
        (U &&& resource_usage.shader_resource) ≠ 0) ∧
    (((convert_resource_usage_to_bind_flags U B0) &&& D3D11_BIND_UNORDERED_ACCESS) ≠ 0 ↔
        (U &&& resource_usage.unordered_access) ≠ 0) ∧
    (((convert_resource_usage_to_bind_flags U B0) &&& D3D11_BIND_INDEX_BUFFER) ≠ 0 ↔
        (U &&& resource_usage.index_buffer) ≠ 0) ∧
    (((convert_resource_usage_to_bind_flags U B0) &&& D3D11_BIND_VERTEX_BUFFER) ≠ 0 ↔
        (U &&& resource_usage.vertex_buffer) ≠ 0) ∧
    (((convert_resource_usage_to_bind_flags U B0) &&& D3D11_BIND_CONSTANT_BUFFER) ≠ 0 ↔
        (U &&& resource_usage.constant_buffer) ≠ 0) := by
  have hbit := fun i => testBit_convert_resource_usage_to_bind_flags U B0 i hB0
  refine ⟨?_, ?_, ?_, ?_, ?_, ?_, ?_⟩
  · exact (and_two_pow_ne_zero_iff _ 5).trans (by rw [hbit 5]; simp)
  · exact (and_two_pow_ne_zero_iff _ 6).trans (by rw [hbit 6]; simp)
  · exact (and_two_pow_ne_zero_iff _ 3).trans (by rw [hbit 3]; simp)
  · exact (and_two_pow_ne_zero_iff _ 7).trans (by rw [hbit 7]; simp)
  · exact (and_two_pow_ne_zero_iff _ 1).trans (by rw [hbit 1]; simp)
  · exact (and_two_pow_ne_zero_iff _ 0).trans (by rw [hbit 0]; simp)
  · exact (and_two_pow_ne_zero_iff _ 2).trans (by rw [hbit 2]; simp)

/-- What each mask reads back from a union of the copy masks with a subset of the seven mapped masks (checked over the 128 subsets). -/
theorem bind_mapped_usage_projections :
    ∀ (rt ds sr ua ib vb cb : Bool),
      ((0 ||| (resource_usage.copy_dest ||| resource_usage.copy_source)) |||
          bind_mapped_usage rt ds sr ua ib vb cb =
        (resource_usage.copy_source ||| resource_usage.copy_dest) |||
          bind_mapped_usage rt ds sr ua ib vb cb) ∧
      (((resource_usage.copy_source ||| resource_usage.copy_dest) |||
          bind_mapped_usage rt ds sr ua ib vb cb) &&& resource_usage.render_target =
        if rt = true then resource_usage.render_target else 0) ∧
      (((resource_usage.copy_source ||| resource_usage.copy_dest) |||
          bind_mapped_usage rt ds sr ua ib vb cb) &&& resource_usage.depth_stencil =
        if ds = true then resource_usage.depth_stencil else 0) ∧
      (((resource_usage.copy_source ||| resource_usage.copy_dest) |||
          bind_mapped_usage rt ds sr ua ib vb cb) &&& resource_usage.shader_resource =
        if sr = true then resource_usage.shader_resource else 0) ∧
      (((resource_usage.copy_source ||| resource_usage.copy_dest) |||
          bind_mapped_usage rt ds sr ua ib vb cb) &&& resource_usage.unordered_access =
        if ua = true then resource_usage.unordered_access else 0) ∧
      (((resource_usage.copy_source ||| resource_usage.copy_dest) |||
          bind_mapped_usage rt ds sr ua ib vb cb) &&& resource_usage.index_buffer =
        if ib = true then resource_usage.index_buffer else 0) ∧
      (((resource_usage.copy_source ||| resource_usage.copy_dest) |||
          bind_mapped_usage rt ds sr ua ib vb cb) &&& resource_usage.vertex_buffer =
        if vb = true then resource_usage.vertex_buffer else 0) ∧
      (((resource_usage.copy_source ||| resource_usage.copy_dest) |||
          bind_mapped_usage rt ds sr ua ib vb cb) &&& resource_usage.constant_buffer =
        if cb = true then resource_usage.constant_buffer else 0) ∧
      (((resource_usage.copy_source ||| resource_usage.copy_dest) |||
          bind_mapped_usage rt ds sr ua ib vb cb) &&&
          (resource_usage.copy_source ||| resource_usage.copy_dest) =
        resource_usage.copy_source ||| resource_usage.copy_dest) ∧
      (((resource_usage.copy_source ||| resource_usage.copy_dest) |||
          bind_mapped_usage rt ds sr ua ib vb cb) &&&
          UINT_not (resource_usage_bind_mapped ||| resource_usage.copy_source |||
            resource_usage.copy_dest) = 0) := by
  decide

/-- The seven usage tests on a subset of the seven mapped masks return the subset (checked over the 128 subsets). -/
theorem bind_mapped_usage_tests :
    ∀ (rt ds sr ua ib vb cb : Bool),
      decide ((bind_mapped_usage rt ds sr ua ib vb cb &&& resource_usage.render_target) ≠ 0) = rt ∧
      decide ((bind_mapped_usage rt ds sr ua ib vb cb &&& resource_usage.depth_stencil) ≠ 0) = ds ∧
      decide ((bind_mapped_usage rt ds sr ua ib vb cb &&& resource_usage.shader_resource) ≠ 0) = sr ∧
      decide ((bind_mapped_usage rt ds sr ua ib vb cb &&& resource_usage.unordered_access) ≠ 0) = ua ∧
      decide ((bind_mapped_usage rt ds sr ua ib vb cb &&& resource_usage.index_buffer) ≠ 0) = ib ∧
      decide ((bind_mapped_usage rt ds sr ua ib vb cb &&& resource_usage.vertex_buffer) ≠ 0) = vb ∧
      decide ((bind_mapped_usage rt ds sr ua ib vb cb &&& resource_usage.constant_buffer) ≠ 0) = cb := by
  decide


/-! ## Resource-view translators: what each table lists is all a translator reads -/


/-- The depth-stencil translator reads nothing of the description beyond tag, format and the listed fields. -/
theorem dsv_case_reads_complete (desc other : resource_view_desc)
    (fields : List (resource_view_desc → Nat)) (internal_desc : D3D11_DEPTH_STENCIL_VIEW_DESC)
    (htype : other.type = desc.type) (hformat : other.format = desc.format)
    (hcase : dsv_case_reads desc.type = some fields)
    (hfields : ∀ field ∈ fields, field other = field desc) :
    convert_resource_view_desc_to_dsv other internal_desc =
      convert_resource_view_desc_to_dsv desc internal_desc := by
  obtain ⟨t, f, a, b, c, e⟩ := desc
  obtain ⟨t', f', a', b', c', e'⟩ := other
  simp only at htype hformat
  subst htype hformat
  cases t' <;> simp [dsv_case_reads] at hcase <;> subst hcase <;>
    simp at hfields <;> simp [convert_resource_view_desc_to_dsv, hfields]

/-- The render-target translator reads nothing of the description beyond tag, format and the listed fields. -/
theorem rtv_case_reads_complete (desc other : resource_view_desc)
    (fields : List (resource_view_desc → Nat)) (internal_desc : D3D11_RENDER_TARGET_VIEW_DESC)
    (htype : other.type = desc.type) (hformat : other.format = desc.format)
    (hcase : rtv_case_reads desc.type = some fields)
    (hfields : ∀ field ∈ fields, field other = field desc) :
    convert_resource_view_desc_to_rtv other internal_desc =
      convert_resource_view_desc_to_rtv desc internal_desc := by
  obtain ⟨t, f, a, b, c, e⟩ := desc
  obtain ⟨t', f', a', b', c', e'⟩ := other
  simp only at htype hformat
  subst htype hformat
  cases t' <;> simp [rtv_case_reads] at hcase <;> subst hcase <;>
    simp at hfields <;> simp [convert_resource_view_desc_to_rtv, hfields]

/-- The shader-resource translator reads nothing of the description beyond tag, format and the listed fields. -/
theorem srv_case_reads_complete (desc other : resource_view_desc)
    (fields : List (resource_view_desc → Nat)) (internal_desc : D3D11_SHADER_RESOURCE_VIEW_DESC)
    (htype : other.type = desc.type) (hformat : other.format = desc.format)
    (hcase : srv_case_reads desc.type = some fields)
    (hfields : ∀ field ∈ fields, field other = field desc) :
    convert_resource_view_desc_to_srv other internal_desc =
      convert_resource_view_desc_to_srv desc internal_desc := by
  obtain ⟨t, f, a, b, c, e⟩ := desc
  obtain ⟨t', f', a', b', c', e'⟩ := other
  simp only at htype hformat
  subst htype hformat
  cases t' <;> simp [srv_case_reads] at hcase <;> subst hcase <;>
    simp at hfields <;> simp [convert_resource_view_desc_to_srv, hfields]

/-- The unordered-access translator reads nothing of the description beyond tag, format and the listed fields. -/
theorem uav_case_reads_complete (desc other : resource_view_desc)
    (fields : List (resource_view_desc → Nat)) (internal_desc : D3D11_UNORDERED_ACCESS_VIEW_DESC)
    (htype : other.type = desc.type) (hformat : other.format = desc.format)
    (hcase : uav_case_reads desc.type = some fields)
    (hfields : ∀ field ∈ fields, field other = field desc) :
    convert_resource_view_desc_to_uav other internal_desc =
      convert_resource_view_desc_to_uav desc internal_desc := by
  obtain ⟨t, f, a, b, c, e⟩ := desc
  obtain ⟨t', f', a', b', c', e'⟩ := other
  simp only at htype hformat
  subst htype hformat
  cases t' <;> simp [uav_case_reads] at hcase <;> subst hcase <;>
    simp at hfields <;> simp [convert_resource_view_desc_to_uav, hfields]

/-- The reverse depth-stencil translator reads nothing beyond format, dimension and the listed fields. -/
theorem dsv_dimension_reads_complete (native other : D3D11_DEPTH_STENCIL_VIEW_DESC)
    (fields : List (D3D11_DEPTH_STENCIL_VIEW_DESC → Nat))
    (hformat : other.Format = native.Format)
    (hdim : other.ViewDimension = native.ViewDimension)
    (hcase : dsv_dimension_reads native.ViewDimension = some fields)
    (hfields : ∀ field ∈ fields, field other = field native) :
    convert_resource_view_desc_from_dsv other = convert_resource_view_desc_from_dsv native := by
  cases native with
  | mk f dim =>
    cases other with
    | mk f' dim' =>
      simp only at hformat hdim
      subst hformat hdim
      cases dim' <;> simp [dsv_dimension_reads] at hcase <;> subst hcase <;>
        simp at hfields <;> simp [convert_resource_view_desc_from_dsv, hfields]

/-- The reverse render-target translator reads nothing beyond format, dimension and the listed fields. -/
theorem rtv_dimension_reads_complete (native other : D3D11_RENDER_TARGET_VIEW_DESC)
    (fields : List (D3D11_RENDER_TARGET_VIEW_DESC → Nat))
    (hformat : other.Format = native.Format)
    (hdim : other.ViewDimension = native.ViewDimension)
    (hcase : rtv_dimension_reads native.ViewDimension = some fields)
    (hfields : ∀ field ∈ fields, field other = field native) :
    convert_resource_view_desc_from_rtv other = convert_resource_view_desc_from_rtv native := by
  cases native with
  | mk f dim =>
    cases other with
    | mk f' dim' =>
      simp only at hformat hdim
      subst hformat hdim
      cases dim' <;> simp [rtv_dimension_reads] at hcase <;> subst hcase <;>
        simp at hfields <;> simp [convert_resource_view_desc_from_rtv, hfields]

/-- The reverse shader-resource translator reads nothing beyond format, dimension and the listed fields. -/
theorem srv_dimension_reads_complete (native other : D3D11_SHADER_RESOURCE_VIEW_DESC)
    (fields : List (D3D11_SHADER_RESOURCE_VIEW_DESC → Nat))
    (hformat : other.Format = native.Format)
    (hdim : other.ViewDimension = native.ViewDimension)
    (hcase : srv_dimension_reads native.ViewDimension = some fields)
    (hfields : ∀ field ∈ fields, field other = field native) :
    convert_resource_view_desc_from_srv other = convert_resource_view_desc_from_srv native := by
  cases native with
  | mk f dim =>
    cases other with
    | mk f' dim' =>
      simp only at hformat hdim
      subst hformat hdim
      cases dim' <;> simp [srv_dimension_reads] at hcase <;> subst hcase <;>
        simp at hfields <;> simp [convert_resource_view_desc_from_srv, hfields]

/-- The reverse unordered-access translator reads nothing beyond format, dimension and the listed fields. -/
theorem uav_dimension_reads_complete (native other : D3D11_UNORDERED_ACCESS_VIEW_DESC)
    (fields : List (D3D11_UNORDERED_ACCESS_VIEW_DESC → Nat))
    (hformat : other.Format = native.Format)
    (hdim : other.ViewDimension = native.ViewDimension)
    (hcase : uav_dimension_reads native.ViewDimension = some fields)
    (hfields : ∀ field ∈ fields, field other = field native) :
    convert_resource_view_desc_from_uav other = convert_resource_view_desc_from_uav native := by
  cases native with
  | mk f dim =>
    cases other with
    | mk f' dim' =>
      simp only at hformat hdim
      subst hformat hdim
      cases dim' <;> simp [uav_dimension_reads] at hcase <;> subst hcase <;>
        simp at hfields <;> simp [convert_resource_view_desc_from_uav, hfields]

/-! ## Resource-view translators: round trips per view kind -/

/-- Depth-stencil views: description to native and back keeps tag, format and the fields read. -/
theorem dsv_abstract_roundtrip (desc : resource_view_desc)
    (fields : List (resource_view_desc → Nat)) (internal_desc : D3D11_DEPTH_STENCIL_VIEW_DESC)
    (hcase : dsv_case_reads desc.type = some fields) (hlevels : desc.texture_levels = 1) :
    ∃ native, convert_resource_view_desc_to_dsv desc internal_desc = some native ∧
      (convert_resource_view_desc_from_dsv native).type = desc.type ∧
      (convert_resource_view_desc_from_dsv native).format = desc.format ∧
      ∀ field ∈ fields, field (convert_resource_view_desc_from_dsv native) = field desc := by
  obtain ⟨t, f, a, b, c, e⟩ := desc
  simp only at hlevels
  subst hlevels
  cases t <;> simp [dsv_case_reads] at hcase <;> subst hcase <;>
    simp [convert_resource_view_desc_to_dsv, convert_resource_view_desc_from_dsv,
      resource_view_desc.value_initialized]

/-- Shader-resource views: description to native and back keeps tag, format and the fields read. -/
theorem srv_abstract_roundtrip (desc : resource_view_desc)
    (fields : List (resource_view_desc → Nat)) (internal_desc : D3D11_SHADER_RESOURCE_VIEW_DESC)
    (hcase : srv_case_reads desc.type = some fields)
    (hcube : desc.type ≠ resource_view_type.texture_cube_array)
    (hbuffer : desc.type = resource_view_type.buffer →
      desc.buffer_offset ≤ UINT_MAX ∧ desc.buffer_size ≤ UINT_MAX) :
    ∃ native, convert_resource_view_desc_to_srv desc internal_desc = some native ∧
      (convert_resource_view_desc_from_srv native).type = desc.type ∧
      (convert_resource_view_desc_from_srv native).format = desc.format ∧
      ∀ field ∈ fields, field (convert_resource_view_desc_from_srv native) = field desc := by
  obtain ⟨t, f, a, b, c, e⟩ := desc
  cases t <;> simp [srv_case_reads] at hcase hcube <;> subst hcase
  case buffer =>
    simp [resource_view_desc.buffer_offset, resource_view_desc.buffer_size, UINT_MAX] at hbuffer
    obtain ⟨h1, h2⟩ := hbuffer
    have ha : (a + 4294967296 * b) % 4294967296 = a + 4294967296 * b := by omega
    have hc : (c + 4294967296 * e) % 4294967296 = c + 4294967296 * e := by omega
    simp [convert_resource_view_desc_to_srv, convert_resource_view_desc_from_srv,
      resource_view_desc.value_initialized, resource_view_desc.buffer_offset,
      resource_view_desc.buffer_size, resource_view_desc.set_buffer_offset,
      resource_view_desc.set_buffer_size, UINT_MAX, h1, h2, ha, hc]
    omega
  all_goals
    simp [convert_resource_view_desc_to_srv, convert_resource_view_desc_from_srv,
      resource_view_desc.value_initialized]

/-- Render-target views: description to native and back keeps tag, format and the fields read. -/
theorem rtv_abstract_roundtrip (desc : resource_view_desc)
    (fields : List (resource_view_desc → Nat)) (internal_desc : D3D11_RENDER_TARGET_VIEW_DESC)
    (hcase : rtv_case_reads desc.type = some fields) (hlevels : desc.texture_levels = 1) :
    ∃ native, convert_resource_view_desc_to_rtv desc internal_desc = some native ∧
      (convert_resource_view_desc_from_rtv native).type = desc.type ∧
      (convert_resource_view_desc_from_rtv native).format = desc.format ∧
      ∀ field ∈ fields, field (convert_resource_view_desc_from_rtv native) = field desc := by
  obtain ⟨t, f, a, b, c, e⟩ := desc
  simp only at hlevels
  subst hlevels
  cases t <;> simp [rtv_case_reads] at hcase <;> subst hcase <;>
    simp [convert_resource_view_desc_to_rtv, convert_resource_view_desc_from_rtv,
      resource_view_desc.value_initialized]

/-- Unordered-access views: description to native and back keeps tag, format and the fields read. -/
theorem uav_abstract_roundtrip (desc : resource_view_desc)
    (fields : List (resource_view_desc → Nat)) (internal_desc : D3D11_UNORDERED_ACCESS_VIEW_DESC)
    (hcase : uav_case_reads desc.type = some fields)
    (hlevels : desc.type ≠ resource_view_type.buffer → desc.texture_levels = 1)
    (hbuffer : desc.type = resource_view_type.buffer →
      desc.buffer_offset ≤ UINT_MAX ∧ desc.buffer_size ≤ UINT_MAX) :
    ∃ native, convert_resource_view_desc_to_uav desc internal_desc = some native ∧
      (convert_resource_view_desc_from_uav native).type = desc.type ∧
      (convert_resource_view_desc_from_uav native).format = desc.format ∧
      ∀ field ∈ fields, field (convert_resource_view_desc_from_uav native) = field desc := by
  obtain ⟨t, f, a, b, c, e⟩ := desc
  cases t <;> simp [uav_case_reads] at hcase hlevels <;> subst hcase
  case buffer =>
    simp [resource_view_desc.buffer_offset, resource_view_desc.buffer_size, UINT_MAX] at hbuffer
    obtain ⟨h1, h2⟩ := hbuffer
    have ha : (a + 4294967296 * b) % 4294967296 = a + 4294967296 * b := by omega
    have hc : (c + 4294967296 * e) % 4294967296 = c + 4294967296 * e := by omega
    simp [convert_resource_view_desc_to_uav, convert_resource_view_desc_from_uav,
      resource_view_desc.value_initialized, resource_view_desc.buffer_offset,
      resource_view_desc.buffer_size, resource_view_desc.set_buffer_offset,
      resource_view_desc.set_buffer_size, UINT_MAX, h1, h2, ha, hc]
    omega
  all_goals
    subst hlevels
    simp [convert_resource_view_desc_to_uav, convert_resource_view_desc_from_uav,
      resource_view_desc.value_initialized]

/-- Depth-stencil views: native to description and back keeps format, dimension and the fields read. -/
theorem dsv_native_roundtrip (native : D3D11_DEPTH_STENCIL_VIEW_DESC)
    (fields : List (D3D11_DEPTH_STENCIL_VIEW_DESC → Nat))
    (internal_desc : D3D11_DEPTH_STENCIL_VIEW_DESC)
    (hcase : dsv_dimension_reads native.ViewDimension = some fields) :
    ∃ result, convert_resource_view_desc_to_dsv
        (convert_resource_view_desc_from_dsv native) internal_desc = some result ∧
      result.Format = native.Format ∧ result.ViewDimension = native.ViewDimension ∧
      ∀ field ∈ fields, field result = field native := by
  obtain ⟨f, dim, fl, a1, a2, a3, a4, a5, a6, a7, a8, a9, a10⟩ := native
  cases dim <;> simp [dsv_dimension_reads] at hcase <;> subst hcase <;>
    simp [convert_resource_view_desc_to_dsv, convert_resource_view_desc_from_dsv,
      resource_view_desc.value_initialized]

/-- Render-target views: native to description and back keeps format, dimension and the fields read. -/
theorem rtv_native_roundtrip (native : D3D11_RENDER_TARGET_VIEW_DESC)
    (fields : List (D3D11_RENDER_TARGET_VIEW_DESC → Nat))
    (internal_desc : D3D11_RENDER_TARGET_VIEW_DESC)
    (hcase : rtv_dimension_reads native.ViewDimension = some fields) :
    ∃ result, convert_resource_view_desc_to_rtv
        (convert_resource_view_desc_from_rtv native) internal_desc = some result ∧
      result.Format = native.Format ∧ result.ViewDimension = native.ViewDimension ∧
      ∀ field ∈ fields, field result = field native := by
  cases native with
  | mk f dim =>
    cases dim <;> simp [rtv_dimension_reads] at hcase <;> subst hcase <;>
      simp [convert_resource_view_desc_to_rtv, convert_resource_view_desc_from_rtv,
        resource_view_desc.value_initialized]

/-- Shader-resource views: native to description and back keeps format, dimension and the fields read. -/
theorem srv_native_roundtrip (native : D3D11_SHADER_RESOURCE_VIEW_DESC)
    (fields : List (D3D11_SHADER_RESOURCE_VIEW_DESC → Nat))
    (internal_desc : D3D11_SHADER_RESOURCE_VIEW_DESC)
    (hcase : srv_dimension_reads native.ViewDimension = some fields)
    (hcube : native.ViewDimension ≠ D3D11_SRV_DIMENSION_TEXTURECUBEARRAY)
    (hex : native.ViewDimension ≠ D3D11_SRV_DIMENSION_BUFFEREX)
    (hfirst : native.Buffer_FirstElement ≤ UINT_MAX)
    (hnum : native.Buffer_NumElements ≤ UINT_MAX) :
    ∃ result, convert_resource_view_desc_to_srv
        (convert_resource_view_desc_from_srv native) internal_desc = some result ∧
      result.Format = native.Format ∧ result.ViewDimension = native.ViewDimension ∧
      ∀ field ∈ fields, field result = field native := by
  cases native with
  | mk f dim b1 b2 =>
    simp only [UINT_MAX] at hfirst hnum
    have e1 : b1 % 4294967296 = b1 := by omega
    have e2 : b2 % 4294967296 = b2 := by omega
    have e3 : b1 / 4294967296 = 0 := by omega
    have e4 : b2 / 4294967296 = 0 := by omega
    cases dim <;> simp [srv_dimension_reads] at hcase hcube hex <;> subst hcase <;>
      simp [convert_resource_view_desc_to_srv, convert_resource_view_desc_from_srv,
        resource_view_desc.value_initialized, resource_view_desc.buffer_offset,
        resource_view_desc.buffer_size, resource_view_desc.set_buffer_offset,
        resource_view_desc.set_buffer_size, UINT_MAX, e1, e2, e3, e4, hfirst, hnum]

/-- Unordered-access views: native to description and back keeps format, dimension and the fields read. -/
theorem uav_native_roundtrip (native : D3D11_UNORDERED_ACCESS_VIEW_DESC)
    (fields : List (D3D11_UNORDERED_ACCESS_VIEW_DESC → Nat))
    (internal_desc : D3D11_UNORDERED_ACCESS_VIEW_DESC)
    (hcase : uav_dimension_reads native.ViewDimension = some fields)
    (hfirst : native.Buffer_FirstElement ≤ UINT_MAX)
    (hnum : native.Buffer_NumElements ≤ UINT_MAX) :
    ∃ result, convert_resource_view_desc_to_uav
        (convert_resource_view_desc_from_uav native) internal_desc = some result ∧
      result.Format = native.Format ∧ result.ViewDimension = native.ViewDimension ∧
      ∀ field ∈ fields, field result = field native := by
  cases native with
  | mk f dim b1 b2 =>
    simp only [UINT_MAX] at hfirst hnum
    have e1 : b1 % 4294967296 = b1 := by omega
    have e2 : b2 % 4294967296 = b2 := by omega
    have e3 : b1 / 4294967296 = 0 := by omega
    have e4 : b2 / 4294967296 = 0 := by omega
    cases dim <;> simp [uav_dimension_reads] at hcase <;> subst hcase <;>
      simp [convert_resource_view_desc_to_uav, convert_resource_view_desc_from_uav,
        resource_view_desc.value_initialized, resource_view_desc.buffer_offset,
        resource_view_desc.buffer_size, resource_view_desc.set_buffer_offset,
        resource_view_desc.set_buffer_size, UINT_MAX, e1, e2, e3, e4, hfirst, hnum]

/-! ## Resource-view round trips -/

/-- Claim C1: abstract to native to abstract, all four base view kinds. For a
description whose tag has a `case` in the translator and is not
`texture_cube_array` (with `texture.levels = 1` for the depth-stencil,
render-target and unordered-access texture cases, and `buffer.offset`,
`buffer.size` at most `2^32 - 1` for the buffer cases) and for any previous
content of the native descriptor, the forward conversion succeeds and the
conversion of its result back has the same tag, the same format and the same
value in every payload field the forward case reads. -/
theorem view_roundtrip_from_abstract (desc : resource_view_desc)
    (hcube : desc.type ≠ resource_view_type.texture_cube_array) :
    (∀ fields (internal_desc : D3D11_DEPTH_STENCIL_VIEW_DESC),
      dsv_case_reads desc.type = some fields → desc.texture_levels = 1 →
      ∃ native, convert_resource_view_desc_to_dsv desc internal_desc = some native ∧
        (convert_resource_view_desc_from_dsv native).type = desc.type ∧
        (convert_resource_view_desc_from_dsv native).format = desc.format ∧
        ∀ field ∈ fields, field (convert_resource_view_desc_from_dsv native) = field desc) ∧
    (∀ fields (internal_desc : D3D11_RENDER_TARGET_VIEW_DESC),
      rtv_case_reads desc.type = some fields → desc.texture_levels = 1 →
      ∃ native, convert_resource_view_desc_to_rtv desc internal_desc = some native ∧
        (convert_resource_view_desc_from_rtv native).type = desc.type ∧
        (convert_resource_view_desc_from_rtv native).format = desc.format ∧
        ∀ field ∈ fields, field (convert_resource_view_desc_from_rtv native) = field desc) ∧
    (∀ fields (internal_desc : D3D11_SHADER_RESOURCE_VIEW_DESC),
      srv_case_reads desc.type = some fields →
      (desc.type = resource_view_type.buffer →
        desc.buffer_offset ≤ UINT_MAX ∧ desc.buffer_size ≤ UINT_MAX) →
      ∃ native, convert_resource_view_desc_to_srv desc internal_desc = some native ∧
        (convert_resource_view_desc_from_srv native).type = desc.type ∧
        (convert_resource_view_desc_from_srv native).format = desc.format ∧
        ∀ field ∈ fields, field (convert_resource_view_desc_from_srv native) = field desc) ∧
    (∀ fields (internal_desc : D3D11_UNORDERED_ACCESS_VIEW_DESC),
      uav_case_reads desc.type = some fields →
      (desc.type ≠ resource_view_type.buffer → desc.texture_levels = 1) →
      (desc.type = resource_view_type.buffer →
        desc.buffer_offset ≤ UINT_MAX ∧ desc.buffer_size ≤ UINT_MAX) →
      ∃ native, convert_resource_view_desc_to_uav desc internal_desc = some native ∧
        (convert_resource_view_desc_from_uav native).type = desc.type ∧
        (convert_resource_view_desc_from_uav native).format = desc.format ∧
        ∀ field ∈ fields, field (convert_resource_view_desc_from_uav native) = field desc) :=
  ⟨fun fields internal_desc hcase hlevels =>
      dsv_abstract_roundtrip desc fields internal_desc hcase hlevels,
    fun fields internal_desc hcase hlevels =>
      rtv_abstract_roundtrip desc fields internal_desc hcase hlevels,
    fun fields internal_desc hcase hbuffer =>
      srv_abstract_roundtrip desc fields internal_desc hcase hcube hbuffer,
    fun fields internal_desc hcase hlevels hbuffer =>
      uav_abstract_roundtrip desc fields internal_desc hcase hlevels hbuffer⟩

/-- Claim C1, at a depth-stencil 2D-array view and at a shader-resource buffer
view of offset 16 and size 64, both into a zero-filled descriptor. -/
theorem view_roundtrip_from_abstract_witness :
    (∃ native, convert_resource_view_desc_to_dsv
        { type := resource_view_type.texture_2d_array, format := 45, texture_first_level := 2,
          texture_levels := 1, texture_first_layer := 3, texture_layers := 5 }
        zeroed_dsv_desc = some native ∧
      (convert_resource_view_desc_from_dsv native).type = resource_view_type.texture_2d_array ∧
      (convert_resource_view_desc_from_dsv native).format = 45 ∧
      ∀ field ∈ [resource_view_desc.texture_levels, resource_view_desc.texture_first_level,
          resource_view_desc.texture_first_layer, resource_view_desc.texture_layers],
        field (convert_resource_view_desc_from_dsv native) =
          field { type := resource_view_type.texture_2d_array, format := 45,
                  texture_first_level := 2, texture_levels := 1, texture_first_layer := 3,
                  texture_layers := 5 }) ∧
    (∃ native, convert_resource_view_desc_to_srv
        { type := resource_view_type.buffer, format := 0, texture_first_level := 16,
          texture_levels := 0, texture_first_layer := 64, texture_layers := 0 }
        zeroed_srv_desc = some native ∧
      (convert_resource_view_desc_from_srv native).type = resource_view_type.buffer ∧
      (convert_resource_view_desc_from_srv native).format = 0 ∧
      ∀ field ∈ [resource_view_desc.buffer_offset, resource_view_desc.buffer_size],
        field (convert_resource_view_desc_from_srv native) =
          field { type := resource_view_type.buffer, format := 0, texture_first_level := 16,
                  texture_levels := 0, texture_first_layer := 64, texture_layers := 0 }) :=
  ⟨(view_roundtrip_from_abstract
      { type := resource_view_type.texture_2d_array, format := 45, texture_first_level := 2,
        texture_levels := 1, texture_first_layer := 3, texture_layers := 5 }
      (by decide)).1 _ zeroed_dsv_desc rfl rfl,
    (view_roundtrip_from_abstract
      { type := resource_view_type.buffer, format := 0, texture_first_level := 16,
        texture_levels := 0, texture_first_layer := 64, texture_layers := 0 }
      (by decide)).2.2.1 _ zeroed_srv_desc rfl (fun _ => by decide)⟩

/-- Claim C2: the texture-2D-array shader-resource scenario, for every format
and every `first_level`, `levels`, `first_layer`, `layers`: the forward
conversion yields `ViewDimension = TEXTURE2DARRAY`, `MostDetailedMip =
first_level`, `MipLevels = levels`, `FirstArraySlice = first_layer`,
`ArraySize = layers`, and converting that descriptor back yields the original
description. -/
theorem srv_texture_2d_array_scenario (X first_level levels first_layer layers : Nat)
    (internal_desc : D3D11_SHADER_RESOURCE_VIEW_DESC) :
    ∃ native,
      convert_resource_view_desc_to_srv
        { type := resource_view_type.texture_2d_array
          format := X
          texture_first_level := first_level
          texture_levels := levels
          texture_first_layer := first_layer
          texture_layers := layers } internal_desc = some native ∧
      native.Format = X ∧
      native.ViewDimension = D3D11_SRV_DIMENSION_TEXTURE2DARRAY ∧
      native.Texture2DArray_MostDetailedMip = first_level ∧
      native.Texture2DArray_MipLevels = levels ∧
      native.Texture2DArray_FirstArraySlice = first_layer ∧
      native.Texture2DArray_ArraySize = layers ∧
      convert_resource_view_desc_from_srv native =
        { type := resource_view_type.texture_2d_array
          format := X
          texture_first_level := first_level
          texture_levels := levels
          texture_first_layer := first_layer
          texture_layers := layers } := by
  simp [convert_resource_view_desc_to_srv, convert_resource_view_desc_from_srv,
    resource_view_desc.value_initialized]

/-- Claim C3: native to abstract to native, all four base view kinds. For a
native descriptor whose `ViewDimension` has a `case` in the reverse translator
(shader-resource `TEXTURECUBEARRAY` and `BUFFEREX` apart; the buffer element
fields being 32-bit values) and any previous content of the descriptor written
to, converting to the description and back succeeds and yields the same
`Format`, the same `ViewDimension` and the same value in every payload field
the reverse case reads. -/
theorem view_roundtrip_from_native :
    (∀ (native internal_desc : D3D11_DEPTH_STENCIL_VIEW_DESC) fields,
      dsv_dimension_reads native.ViewDimension = some fields →
      ∃ result, convert_resource_view_desc_to_dsv
          (convert_resource_view_desc_from_dsv native) internal_desc = some result ∧
        result.Format = native.Format ∧ result.ViewDimension = native.ViewDimension ∧
        ∀ field ∈ fields, field result = field native) ∧
    (∀ (native internal_desc : D3D11_RENDER_TARGET_VIEW_DESC) fields,
      rtv_dimension_reads native.ViewDimension = some fields →
      ∃ result, convert_resource_view_desc_to_rtv
          (convert_resource_view_desc_from_rtv native) internal_desc = some result ∧
        result.Format = native.Format ∧ result.ViewDimension = native.ViewDimension ∧
        ∀ field ∈ fields, field result = field native) ∧
    (∀ (native internal_desc : D3D11_SHADER_RESOURCE_VIEW_DESC) fields,
      srv_dimension_reads native.ViewDimension = some fields →
      native.ViewDimension ≠ D3D11_SRV_DIMENSION_TEXTURECUBEARRAY →
      native.ViewDimension ≠ D3D11_SRV_DIMENSION_BUFFEREX →
      native.Buffer_FirstElement ≤ UINT_MAX → native.Buffer_NumElements ≤ UINT_MAX →
      ∃ result, convert_resource_view_desc_to_srv
          (convert_resource_view_desc_from_srv native) internal_desc = some result ∧
        result.Format = native.Format ∧ result.ViewDimension = native.ViewDimension ∧
        ∀ field ∈ fields, field result = field native) ∧
    (∀ (native internal_desc : D3D11_UNORDERED_ACCESS_VIEW_DESC) fields,
      uav_dimension_reads native.ViewDimension = some fields →
      native.Buffer_FirstElement ≤ UINT_MAX → native.Buffer_NumElements ≤ UINT_MAX →
      ∃ result, convert_resource_view_desc_to_uav
          (convert_resource_view_desc_from_uav native) internal_desc = some result ∧
        result.Format = native.Format ∧ result.ViewDimension = native.ViewDimension ∧
        ∀ field ∈ fields, field result = field native) :=
  ⟨fun native internal_desc fields hcase =>
      dsv_native_roundtrip native fields internal_desc hcase,
    fun native internal_desc fields hcase =>
      rtv_native_roundtrip native fields internal_desc hcase,
    fun native internal_desc fields hcase hcube hex hfirst hnum =>
      srv_native_roundtrip native fields internal_desc hcase hcube hex hfirst hnum,
    fun native internal_desc fields hcase hfirst hnum =>
      uav_native_roundtrip native fields internal_desc hcase hfirst hnum⟩

/-- Claim C3, at a shader-resource buffer descriptor with `FirstElement = 16`
and `NumElements = 64`, converted back into a zero-filled descriptor. -/
theorem view_roundtrip_from_native_witness :
    ∃ result, convert_resource_view_desc_to_srv
        (convert_resource_view_desc_from_srv
          { zeroed_srv_desc with
            Format := 41
            ViewDimension := D3D11_SRV_DIMENSION_BUFFER
            Buffer_FirstElement := 16
            Buffer_NumElements := 64 })
        zeroed_srv_desc = some result ∧
      result.Format = 41 ∧ result.ViewDimension = D3D11_SRV_DIMENSION_BUFFER ∧
      ∀ field ∈ [D3D11_SHADER_RESOURCE_VIEW_DESC.Buffer_FirstElement,
          D3D11_SHADER_RESOURCE_VIEW_DESC.Buffer_NumElements],
        field result = field
          { zeroed_srv_desc with
            Format := 41
            ViewDimension := D3D11_SRV_DIMENSION_BUFFER
            Buffer_FirstElement := 16
            Buffer_NumElements := 64 } :=
  view_roundtrip_from_native.2.2.1
    { zeroed_srv_desc with
      Format := 41
      ViewDimension := D3D11_SRV_DIMENSION_BUFFER
      Buffer_FirstElement := 16
      Buffer_NumElements := 64 }
    zeroed_srv_desc _ rfl (by decide) (by decide) (by decide) (by decide)

/-! ## Cube arrays and the layer-count sentinel -/

/-- Claim C4: sentinel preservation. For a shader-resource description of type
`texture_cube_array` with `texture.layers = 0xFFFFFFFF`, the forward
conversion sets `NumCubes = 0xFFFFFFFF`, and converting that descriptor back
yields `texture.layers = 0xFFFFFFFF`. -/
theorem cube_array_sentinel_preserved (desc : resource_view_desc)
    (internal_desc : D3D11_SHADER_RESOURCE_VIEW_DESC)
    (htype : desc.type = resource_view_type.texture_cube_array)
    (hlayers : desc.texture_layers = 0xFFFFFFFF) :
    ∃ native, convert_resource_view_desc_to_srv desc internal_desc = some native ∧
      native.ViewDimension = D3D11_SRV_DIMENSION_TEXTURECUBEARRAY ∧
      native.TextureCubeArray_NumCubes = 0xFFFFFFFF ∧
      (convert_resource_view_desc_from_srv native).texture_layers = 0xFFFFFFFF := by
  obtain ⟨t, f, a, b, c, e⟩ := desc
  simp only at htype hlayers
  subst htype
  simp [convert_resource_view_desc_to_srv, convert_resource_view_desc_from_srv,
    resource_view_desc.value_initialized, hlayers]

/-- Claim C4, at a cube-array description with the sentinel layer count. -/
theorem cube_array_sentinel_preserved_witness :
    ∃ native, convert_resource_view_desc_to_srv
        { type := resource_view_type.texture_cube_array, format := 28, texture_first_level := 0,
          texture_levels := 1, texture_first_layer := 0, texture_layers := 0xFFFFFFFF }
        zeroed_srv_desc = some native ∧
      native.ViewDimension = D3D11_SRV_DIMENSION_TEXTURECUBEARRAY ∧
      native.TextureCubeArray_NumCubes = 0xFFFFFFFF ∧
      (convert_resource_view_desc_from_srv native).texture_layers = 0xFFFFFFFF :=
  cube_array_sentinel_preserved _ zeroed_srv_desc rfl rfl

/-- Claim C5, as stated, fails: a cube-array description with
`texture.layers = 7` converts to `NumCubes = 1` and comes back with
`texture.layers = 6`. -/
theorem cube_array_layers_rounded_down :
    ∃ native, convert_resource_view_desc_to_srv
        { type := resource_view_type.texture_cube_array, format := 28, texture_first_level := 0,
          texture_levels := 1, texture_first_layer := 0, texture_layers := 7 }
        zeroed_srv_desc = some native ∧
      native.TextureCubeArray_NumCubes = 1 ∧
      (convert_resource_view_desc_from_srv native).texture_layers = 6 ∧
      (convert_resource_view_desc_from_srv native).texture_layers ≠ 7 := by
  refine ⟨_, rfl, ?_, ?_, ?_⟩ <;> decide

/-- Claim C5, amended: for a shader-resource description of type
`texture_cube_array` with a 32-bit `texture.layers`, the forward conversion
sets `NumCubes` to the sentinel or to `layers / 6`, and the conversion back
reproduces type, format, `first_level`, `levels` and `first_layer` exactly;
`layers` comes back as the sentinel, or else rounded down to a multiple of 6,
so the whole description is reproduced when `layers` is the sentinel or a
multiple of 6. -/
theorem cube_array_abstract_roundtrip (desc : resource_view_desc)
    (internal_desc : D3D11_SHADER_RESOURCE_VIEW_DESC)
    (htype : desc.type = resource_view_type.texture_cube_array)
    (hlayers : desc.texture_layers ≤ UINT_MAX) :
    ∃ native, convert_resource_view_desc_to_srv desc internal_desc = some native ∧
      native.TextureCubeArray_NumCubes =
        (if desc.texture_layers = 0xFFFFFFFF then 0xFFFFFFFF else desc.texture_layers / 6) ∧
      (convert_resource_view_desc_from_srv native).type = desc.type ∧
      (convert_resource_view_desc_from_srv native).format = desc.format ∧
      (convert_resource_view_desc_from_srv native).texture_first_level =
        desc.texture_first_level ∧
      (convert_resource_view_desc_from_srv native).texture_levels = desc.texture_levels ∧
      (convert_resource_view_desc_from_srv native).texture_first_layer =
        desc.texture_first_layer ∧
      (convert_resource_view_desc_from_srv native).texture_layers =
        (if desc.texture_layers = 0xFFFFFFFF then 0xFFFFFFFF
          else desc.texture_layers - desc.texture_layers % 6) ∧
      (desc.texture_layers = 0xFFFFFFFF ∨ desc.texture_layers % 6 = 0 →
        convert_resource_view_desc_from_srv native = desc) := by
  obtain ⟨t, f, a, b, c, e⟩ := desc
  simp only [UINT_MAX] at htype hlayers
  subst htype
  by_cases he : e = 0xFFFFFFFF
  · simp [convert_resource_view_desc_to_srv, convert_resource_view_desc_from_srv,
      resource_view_desc.value_initialized, he]
  · have h1 : e / 6 ≠ 4294967295 := by omega
    have h2 : e / 6 * 6 % 4294967296 = e - e % 6 := by omega
    simp [convert_resource_view_desc_to_srv, convert_resource_view_desc_from_srv,
      resource_view_desc.value_initialized, he, h1, h2]
    intro h
    omega

/-- Claim C5 amended, at a cube-array description with twelve layers: it comes
back unchanged. -/
theorem cube_array_abstract_roundtrip_witness :
    ∃ native, convert_resource_view_desc_to_srv
        { type := resource_view_type.texture_cube_array, format := 28, texture_first_level := 1,
          texture_levels := 4, texture_first_layer := 6, texture_layers := 12 }
        zeroed_srv_desc = some native ∧
      native.TextureCubeArray_NumCubes = 2 ∧
      convert_resource_view_desc_from_srv native =
        { type := resource_view_type.texture_cube_array, format := 28, texture_first_level := 1,
          texture_levels := 4, texture_first_layer := 6, texture_layers := 12 } := by
  obtain ⟨native, h1, h2, _, _, _, _, _, _, h9⟩ :=
    cube_array_abstract_roundtrip
      { type := resource_view_type.texture_cube_array, format := 28, texture_first_level := 1,
        texture_levels := 4, texture_first_layer := 6, texture_layers := 12 }
      zeroed_srv_desc rfl (by decide)
  exact ⟨native, h1, h2, h9 (Or.inr (by decide))⟩

/-- Claim C6, as stated, fails: a native cube-array descriptor with
`NumCubes = 715827883` converts to `texture.layers = 2` (the product wraps
around `2^32`) and comes back with `NumCubes = 0`. -/
theorem cube_array_num_cubes_wraps :
    ∃ result, convert_resource_view_desc_to_srv
        (convert_resource_view_desc_from_srv
          { zeroed_srv_desc with
            ViewDimension := D3D11_SRV_DIMENSION_TEXTURECUBEARRAY
            TextureCubeArray_MipLevels := 1
            TextureCubeArray_NumCubes := 715827883 })
        zeroed_srv_desc = some result ∧
      (convert_resource_view_desc_from_srv
          { zeroed_srv_desc with
            ViewDimension := D3D11_SRV_DIMENSION_TEXTURECUBEARRAY
            TextureCubeArray_MipLevels := 1
            TextureCubeArray_NumCubes := 715827883 }).texture_layers = 2 ∧
      result.TextureCubeArray_NumCubes = 0 ∧
      result.TextureCubeArray_NumCubes ≠ 715827883 := by
  refine ⟨_, rfl, ?_, ?_, ?_⟩ <;> decide

/-- Claim C6, amended: for a native shader-resource descriptor with
`ViewDimension = TEXTURECUBEARRAY` whose `NumCubes` is the sentinel or has a
product `NumCubes * 6` that fits in 32 bits (`NumCubes ≤ 715827882`),
converting to the description and back reproduces `Format`, `ViewDimension`,
`MostDetailedMip`, `MipLevels`, `First2DArrayFace` and `NumCubes` exactly. -/
theorem cube_array_native_roundtrip (native internal_desc : D3D11_SHADER_RESOURCE_VIEW_DESC)
    (hdim : native.ViewDimension = D3D11_SRV_DIMENSION_TEXTURECUBEARRAY)
    (hcubes : native.TextureCubeArray_NumCubes = 0xFFFFFFFF ∨
      native.TextureCubeArray_NumCubes * 6 ≤ UINT_MAX) :
    ∃ result, convert_resource_view_desc_to_srv
        (convert_resource_view_desc_from_srv native) internal_desc = some result ∧
      result.Format = native.Format ∧
      result.ViewDimension = native.ViewDimension ∧
      result.TextureCubeArray_MostDetailedMip = native.TextureCubeArray_MostDetailedMip ∧
      result.TextureCubeArray_MipLevels = native.TextureCubeArray_MipLevels ∧
      result.TextureCubeArray_First2DArrayFace = native.TextureCubeArray_First2DArrayFace ∧
      result.TextureCubeArray_NumCubes = native.TextureCubeArray_NumCubes := by
  cases native with
  | mk f dim b1 b2 t1 t2 t3 t4 t5 t6 t7 t8 t9 t10 t11 t12 t13 t14 t15 t16 t17 t18 c1 c2 c3 n =>
    simp only [UINT_MAX] at hdim hcubes
    subst hdim
    by_cases hn : n = 0xFFFFFFFF
    · simp [convert_resource_view_desc_to_srv, convert_resource_view_desc_from_srv,
        resource_view_desc.value_initialized, hn]
    · have hle : n * 6 ≤ 4294967295 := by
        rcases hcubes with h | h
        · exact absurd h hn
        · exact h
      have h1 : n * 6 % 4294967296 = n * 6 := by omega
      have h2 : n * 6 ≠ 4294967295 := by omega
      simp [convert_resource_view_desc_to_srv, convert_resource_view_desc_from_srv,
        resource_view_desc.value_initialized, hn, h1, h2]

/-- Claim C6 amended, at a native cube-array descriptor with three cubes. -/
theorem cube_array_native_roundtrip_witness :
    ∃ result, convert_resource_view_desc_to_srv
        (convert_resource_view_desc_from_srv
          { zeroed_srv_desc with
            Format := 28
            ViewDimension := D3D11_SRV_DIMENSION_TEXTURECUBEARRAY
            TextureCubeArray_MostDetailedMip := 1
            TextureCubeArray_MipLevels := 4
            TextureCubeArray_First2DArrayFace := 6
            TextureCubeArray_NumCubes := 3 })
        zeroed_srv_desc = some result ∧
      result.Format = 28 ∧
      result.ViewDimension = D3D11_SRV_DIMENSION_TEXTURECUBEARRAY ∧
      result.TextureCubeArray_MostDetailedMip = 1 ∧
      result.TextureCubeArray_MipLevels = 4 ∧
      result.TextureCubeArray_First2DArrayFace = 6 ∧
      result.TextureCubeArray_NumCubes = 3 :=
  cube_array_native_roundtrip
    { zeroed_srv_desc with
      Format := 28
      ViewDimension := D3D11_SRV_DIMENSION_TEXTURECUBEARRAY
      TextureCubeArray_MostDetailedMip := 1
      TextureCubeArray_MipLevels := 4
      TextureCubeArray_First2DArrayFace := 6
      TextureCubeArray_NumCubes := 3 }
    zeroed_srv_desc rfl (Or.inr (by decide))

/-! ## Usage bitmask and bind flags -/

/-- A union of the copy masks with a subset of the seven mapped masks,
restricted to the seven mapped masks, is the subset (checked over the 128
subsets). -/
theorem bind_mapped_usage_and_mapped :
    ∀ (rt ds sr ua ib vb cb : Bool),
      (bind_mapped_usage rt ds sr ua ib vb cb |||
          (resource_usage.copy_source ||| resource_usage.copy_dest)) &&&
        resource_usage_bind_mapped = bind_mapped_usage rt ds sr ua ib vb cb := by
  decide

/-- Claim C7, as stated, fails: the usage holding only `render_target`,
converted into a zero bind-flags word and back into an empty usage, comes back
as `render_target | copy_dest | copy_source`, not as `render_target`. -/
theorem usage_roundtrip_adds_copy_bits :
    convert_resource_usage_to_bind_flags
        (bind_mapped_usage true false false false false false false) 0 =
      D3D11_BIND_RENDER_TARGET ∧
    convert_bind_flags_to_resource_usage
        (convert_resource_usage_to_bind_flags
          (bind_mapped_usage true false false false false false false) 0) 0 =
      resource_usage.render_target ||| resource_usage.copy_dest |||
        resource_usage.copy_source ∧
    convert_bind_flags_to_resource_usage
        (convert_resource_usage_to_bind_flags
          (bind_mapped_usage true false false false false false false) 0) 0 ≠
      bind_mapped_usage true false false false false false false := by
  decide

/-- Claim C7, amended: for every subset S of the seven bind-flag-mapped usage
masks and every initial 32-bit bind-flags word, converting S to bind flags and
converting the result back into an empty usage yields exactly S together with
`copy_source | copy_dest`; restricted to the seven mapped masks the result is
exactly S. -/
theorem usage_bind_flags_roundtrip (rt ds sr ua ib vb cb : Bool) (B0 : Nat)
    (hB0 : B0 < 2 ^ 32) :
    convert_bind_flags_to_resource_usage
        (convert_resource_usage_to_bind_flags (bind_mapped_usage rt ds sr ua ib vb cb) B0) 0 =
      bind_mapped_usage rt ds sr ua ib vb cb |||
        (resource_usage.copy_source ||| resource_usage.copy_dest) ∧
    convert_bind_flags_to_resource_usage
        (convert_resource_usage_to_bind_flags (bind_mapped_usage rt ds sr ua ib vb cb) B0) 0 &&&
      resource_usage_bind_mapped = bind_mapped_usage rt ds sr ua ib vb cb := by
  obtain ⟨h1, h2, h3, h4, h5, h6, h7⟩ :=
    bind_flag_iff_usage (bind_mapped_usage rt ds sr ua ib vb cb) B0 hB0
  obtain ⟨t1, t2, t3, t4, t5, t6, t7⟩ := bind_mapped_usage_tests rt ds sr ua ib vb cb
  have key : convert_bind_flags_to_resource_usage
        (convert_resource_usage_to_bind_flags (bind_mapped_usage rt ds sr ua ib vb cb) B0) 0 =
      bind_mapped_usage rt ds sr ua ib vb cb |||
        (resource_usage.copy_source ||| resource_usage.copy_dest) := by
    rw [convert_bind_flags_to_resource_usage_eq, decide_eq_decide.mpr h1,
      decide_eq_decide.mpr h2, decide_eq_decide.mpr h3, decide_eq_decide.mpr h4,
      decide_eq_decide.mpr h5, decide_eq_decide.mpr h6, decide_eq_decide.mpr h7,
      t1, t2, t3, t4, t5, t6, t7,
      (bind_mapped_usage_projections rt ds sr ua ib vb cb).1, Nat.or_comm]
  refine ⟨key, ?_⟩
  rw [key]
  exact bind_mapped_usage_and_mapped rt ds sr ua ib vb cb

/-- Claim C7 amended, at the subset of depth_stencil and vertex_buffer and the
initial bind-flags word `0xFF`. -/
theorem usage_bind_flags_roundtrip_witness :
    (0xFF : Nat) < 2 ^ 32 ∧
    convert_bind_flags_to_resource_usage
        (convert_resource_usage_to_bind_flags
          (bind_mapped_usage false true false false false true false) 0xFF) 0 =
      bind_mapped_usage false true false false false true false |||
        (resource_usage.copy_source ||| resource_usage.copy_dest) :=
  ⟨by decide,
    (usage_bind_flags_roundtrip false true false false false true false 0xFF (by decide)).1⟩

/-- Claim C8: asymmetric copy flags. Converting a bind-flags word with no bit
set back to a usage yields a usage containing `copy_source | copy_dest` (into
an empty usage: exactly these two), and converting that usage forward into a
zero bind-flags word yields zero. The forward conversion therefore sends two
different usages, the empty one and `copy_source | copy_dest`, to the same
word, and converting the empty usage forward and back does not return it. -/
theorem zero_bind_flags_copy_asymmetry :
    (∀ U0, convert_bind_flags_to_resource_usage 0 U0 &&&
        (resource_usage.copy_source ||| resource_usage.copy_dest) =
      resource_usage.copy_source ||| resource_usage.copy_dest) ∧
    convert_bind_flags_to_resource_usage 0 0 =
      resource_usage.copy_source ||| resource_usage.copy_dest ∧
    convert_resource_usage_to_bind_flags (convert_bind_flags_to_resource_usage 0 0) 0 = 0 ∧
    convert_resource_usage_to_bind_flags resource_usage.undefined 0 =
      convert_resource_usage_to_bind_flags (convert_bind_flags_to_resource_usage 0 0) 0 ∧
    convert_bind_flags_to_resource_usage 0 0 ≠ resource_usage.undefined ∧
    convert_bind_flags_to_resource_usage
        (convert_resource_usage_to_bind_flags resource_usage.undefined 0) 0 ≠
      resource_usage.undefined := by
  refine ⟨?_, by decide, by decide, by decide, by decide, by decide⟩
  intro U0
  have h : convert_bind_flags_to_resource_usage 0 U0 =
      U0 ||| (resource_usage.copy_dest ||| resource_usage.copy_source) := by
    simp [convert_bind_flags_to_resource_usage]
  rw [h]
  apply Nat.eq_of_testBit_eq
  intro i
  simp only [Nat.testBit_and, Nat.testBit_or]
  cases U0.testBit i <;> cases resource_usage.copy_dest.testBit i <;>
    cases resource_usage.copy_source.testBit i <;> rfl

/-- Claim C9: the reverse bind-flags mapping is bit for bit, plus copy. For
every bind-flags word B, the translation into an empty usage yields
`copy_source | copy_dest` together with the usage mask of each of the seven
mapped flags that is set in B: each of the seven masks reads back whole or
empty according to its flag, the copy masks read back whole, no other bit is
set, and the bits of B outside the seven mapped flags change nothing. -/
theorem bind_flags_to_usage_bit_for_bit (B : Nat) :
    convert_bind_flags_to_resource_usage B 0 =
      (resource_usage.copy_source ||| resource_usage.copy_dest) |||
      bind_mapped_usage
        (decide ((B &&& D3D11_BIND_RENDER_TARGET) ≠ 0))
        (decide ((B &&& D3D11_BIND_DEPTH_STENCIL) ≠ 0))
        (decide ((B &&& D3D11_BIND_SHADER_RESOURCE) ≠ 0))
        (decide ((B &&& D3D11_BIND_UNORDERED_ACCESS) ≠ 0))
        (decide ((B &&& D3D11_BIND_INDEX_BUFFER) ≠ 0))
        (decide ((B &&& D3D11_BIND_VERTEX_BUFFER) ≠ 0))
        (decide ((B &&& D3D11_BIND_CONSTANT_BUFFER) ≠ 0)) ∧
    (convert_bind_flags_to_resource_usage B 0 &&& resource_usage.render_target =
      if (B &&& D3D11_BIND_RENDER_TARGET) ≠ 0 then resource_usage.render_target else 0) ∧
    (convert_bind_flags_to_resource_usage B 0 &&& resource_usage.depth_stencil =
      if (B &&& D3D11_BIND_DEPTH_STENCIL) ≠ 0 then resource_usage.depth_stencil else 0) ∧
    (convert_bind_flags_to_resource_usage B 0 &&& resource_usage.shader_resource =
      if (B &&& D3D11_BIND_SHADER_RESOURCE) ≠ 0 then resource_usage.shader_resource else 0) ∧
    (convert_bind_flags_to_resource_usage B 0 &&& resource_usage.unordered_access =
      if (B &&& D3D11_BIND_UNORDERED_ACCESS) ≠ 0 then resource_usage.unordered_access else 0) ∧
    (convert_bind_flags_to_resource_usage B 0 &&& resource_usage.index_buffer =
      if (B &&& D3D11_BIND_INDEX_BUFFER) ≠ 0 then resource_usage.index_buffer else 0) ∧
    (convert_bind_flags_to_resource_usage B 0 &&& resource_usage.vertex_buffer =
      if (B &&& D3D11_BIND_VERTEX_BUFFER) ≠ 0 then resource_usage.vertex_buffer else 0) ∧
    (convert_bind_flags_to_resource_usage B 0 &&& resource_usage.constant_buffer =
      if (B &&& D3D11_BIND_CONSTANT_BUFFER) ≠ 0 then resource_usage.constant_buffer else 0) ∧
    (convert_bind_flags_to_resource_usage B 0 &&&
        (resource_usage.copy_source ||| resource_usage.copy_dest) =
      resource_usage.copy_source ||| resource_usage.copy_dest) ∧
    (convert_bind_flags_to_resource_usage B 0 &&&
        UINT_not (resource_usage_bind_mapped ||| resource_usage.copy_source |||
          resource_usage.copy_dest) = 0) ∧
    convert_bind_flags_to_resource_usage (B &&& D3D11_BIND_mapped) 0 =
      convert_bind_flags_to_resource_usage B 0 := by
  have hp := bind_mapped_usage_projections
        (decide ((B &&& D3D11_BIND_RENDER_TARGET) ≠ 0))
        (decide ((B &&& D3D11_BIND_DEPTH_STENCIL) ≠ 0))
        (decide ((B &&& D3D11_BIND_SHADER_RESOURCE) ≠ 0))
        (decide ((B &&& D3D11_BIND_UNORDERED_ACCESS) ≠ 0))
        (decide ((B &&& D3D11_BIND_INDEX_BUFFER) ≠ 0))
        (decide ((B &&& D3D11_BIND_VERTEX_BUFFER) ≠ 0))
        (decide ((B &&& D3D11_BIND_CONSTANT_BUFFER) ≠ 0))
  simp only [decide_eq_true_eq] at hp
  obtain ⟨h0, h1, h2, h3, h4, h5, h6, h7, h8, h9⟩ := hp
  have hE := (convert_bind_flags_to_resource_usage_eq B 0).trans h0
  refine ⟨hE, ?_, ?_, ?_, ?_, ?_, ?_, ?_, ?_, ?_, ?_⟩
  case refine_10 =>
    simp only [convert_bind_flags_to_resource_usage,
      and_mapped_and B D3D11_BIND_RENDER_TARGET (by decide),
      and_mapped_and B D3D11_BIND_DEPTH_STENCIL (by decide),
      and_mapped_and B D3D11_BIND_SHADER_RESOURCE (by decide),
      and_mapped_and B D3D11_BIND_UNORDERED_ACCESS (by decide),
      and_mapped_and B D3D11_BIND_INDEX_BUFFER (by decide),
      and_mapped_and B D3D11_BIND_VERTEX_BUFFER (by decide),
      and_mapped_and B D3D11_BIND_CONSTANT_BUFFER (by decide)]
  all_goals rw [hE]
  · exact h1
  · exact h2
  · exact h3
  · exact h4
  · exact h5
  · exact h6
  · exact h7
  · exact h8
  · exact h9

/-- Claim C10: the forward usage mapping sets and clears. For every usage U
and every initial 32-bit bind-flags word B0, after
`convert_resource_usage_to_bind_flags` each of the seven mapped native flags
is set exactly when the test of its usage mask succeeds on U, whatever B0
held; the word stays within 32 bits and every bit outside the seven mapped
flags keeps its value of B0; and any usage V that differs from U only in the
copy and resolve masks gives the same result. -/
theorem usage_to_bind_flags_sets_and_clears (U B0 : Nat) (hB0 : B0 < 2 ^ 32) :
    (((convert_resource_usage_to_bind_flags U B0) &&& D3D11_BIND_RENDER_TARGET) ≠ 0 ↔
        (U &&& resource_usage.render_target) ≠ 0) ∧
    (((convert_resource_usage_to_bind_flags U B0) &&& D3D11_BIND_DEPTH_STENCIL) ≠ 0 ↔
        (U &&& resource_usage.depth_stencil) ≠ 0) ∧
    (((convert_resource_usage_to_bind_flags U B0) &&& D3D11_BIND_SHADER_RESOURCE) ≠ 0 ↔
        (U &&& resource_usage.shader_resource) ≠ 0) ∧
    (((convert_resource_usage_to_bind_flags U B0) &&& D3D11_BIND_UNORDERED_ACCESS) ≠ 0 ↔
        (U &&& resource_usage.unordered_access) ≠ 0) ∧
    (((convert_resource_usage_to_bind_flags U B0) &&& D3D11_BIND_INDEX_BUFFER) ≠ 0 ↔
        (U &&& resource_usage.index_buffer) ≠ 0) ∧
    (((convert_resource_usage_to_bind_flags U B0) &&& D3D11_BIND_VERTEX_BUFFER) ≠ 0 ↔
        (U &&& resource_usage.vertex_buffer) ≠ 0) ∧
    (((convert_resource_usage_to_bind_flags U B0) &&& D3D11_BIND_CONSTANT_BUFFER) ≠ 0 ↔
        (U &&& resource_usage.constant_buffer) ≠ 0) ∧
    convert_resource_usage_to_bind_flags U B0 < 2 ^ 32 ∧
    (∀ i, D3D11_BIND_mapped.testBit i = false →
      (convert_resource_usage_to_bind_flags U B0).testBit i = B0.testBit i) ∧
    (∀ V, V &&& UINT_not resource_usage_copy_resolve = U &&& UINT_not resource_usage_copy_resolve →
      convert_resource_usage_to_bind_flags V B0 = convert_resource_usage_to_bind_flags U B0) := by
  have hbit := fun i => testBit_convert_resource_usage_to_bind_flags U B0 i hB0
  obtain ⟨h1, h2, h3, h4, h5, h6, h7⟩ := bind_flag_iff_usage U B0 hB0
  refine ⟨h1, h2, h3, h4, h5, h6, h7, convert_resource_usage_to_bind_flags_lt U B0 hB0, ?_, ?_⟩
  · intro i hi
    rw [hbit i]
    have h2 : ¬ (2 = i) := by rintro rfl; revert hi; decide
    have h0 : ¬ (0 = i) := by rintro rfl; revert hi; decide
    have h1 : ¬ (1 = i) := by rintro rfl; revert hi; decide
    have h7 : ¬ (7 = i) := by rintro rfl; revert hi; decide
    have h3 : ¬ (3 = i) := by rintro rfl; revert hi; decide
    have h6 : ¬ (6 = i) := by rintro rfl; revert hi; decide
    have h5 : ¬ (5 = i) := by rintro rfl; revert hi; decide
    simp only [h2, h0, h1, h7, h3, h6, h5, if_false]
  · intro V hV
    have e1 := and_mask_of_and_not V U resource_usage.render_target _ (by decide) hV
    have e2 := and_mask_of_and_not V U resource_usage.depth_stencil _ (by decide) hV
    have e3 := and_mask_of_and_not V U resource_usage.shader_resource _ (by decide) hV
    have e4 := and_mask_of_and_not V U resource_usage.unordered_access _ (by decide) hV
    have e5 := and_mask_of_and_not V U resource_usage.index_buffer _ (by decide) hV
    have e6 := and_mask_of_and_not V U resource_usage.vertex_buffer _ (by decide) hV
    have e7 := and_mask_of_and_not V U resource_usage.constant_buffer _ (by decide) hV
    simp only [convert_resource_usage_to_bind_flags, e1, e2, e3, e4, e5, e6, e7]

/-- Claim C10, at the usage `depth_stencil | copy_source` and the initial
word `0x1F`: the render-target flag is cleared, the depth-stencil flag is set
and the stream-output bit (bit 4) is kept. -/
theorem usage_to_bind_flags_sets_and_clears_witness :
    (0x1F : Nat) < 2 ^ 32 ∧
    (((convert_resource_usage_to_bind_flags 0x830 0x1F) &&& D3D11_BIND_DEPTH_STENCIL) ≠ 0 ↔
        (0x830 &&& resource_usage.depth_stencil) ≠ 0) ∧
    (D3D11_BIND_mapped.testBit 4 = false →
      (convert_resource_usage_to_bind_flags 0x830 0x1F).testBit 4 = (0x1F : Nat).testBit 4) :=
  ⟨by decide,
    (usage_to_bind_flags_sets_and_clears 0x830 0x1F (by decide)).2.1,
    (usage_to_bind_flags_sets_and_clears 0x830 0x1F (by decide)).2.2.2.2.2.2.2.2.1 4⟩


/-! ## Memory heap and native usage -/

/-- Claim C11: the forward heap mapping. For every initial `CPUAccessFlags`
word F, `convert_memory_heap_to_d3d_usage` yields `DEFAULT` and F for
`gpu_only`, `DYNAMIC` and `F | WRITE` for `cpu_to_gpu`, `STAGING` and
`F | READ` for `gpu_to_cpu`, `STAGING` and `F | READ | WRITE` for `cpu_only`;
these four are all the heap values. -/
theorem heap_to_d3d_usage_mapping (F : Nat) :
    convert_memory_heap_to_d3d_usage memory_heap.gpu_only F = (D3D11_USAGE_DEFAULT, F) ∧
    convert_memory_heap_to_d3d_usage memory_heap.cpu_to_gpu F =
      (D3D11_USAGE_DYNAMIC, F ||| D3D11_CPU_ACCESS_WRITE) ∧
    convert_memory_heap_to_d3d_usage memory_heap.gpu_to_cpu F =
      (D3D11_USAGE_STAGING, F ||| D3D11_CPU_ACCESS_READ) ∧
    convert_memory_heap_to_d3d_usage memory_heap.cpu_only F =
      (D3D11_USAGE_STAGING, F ||| D3D11_CPU_ACCESS_READ ||| D3D11_CPU_ACCESS_WRITE) ∧
    ∀ heap : memory_heap,
      heap = memory_heap.gpu_only ∨ heap = memory_heap.cpu_to_gpu ∨
      heap = memory_heap.gpu_to_cpu ∨ heap = memory_heap.cpu_only := by
  refine ⟨rfl, rfl, rfl, ?_, ?_⟩
  · simp only [convert_memory_heap_to_d3d_usage, Nat.or_assoc]
  · intro heap
    cases heap <;> simp

/-- With heap `gpu_only` every forward resource translator that succeeds sets
`Usage = DEFAULT` and leaves `CPUAccessFlags` as it was. -/
theorem gpu_only_keeps_cpu_access_flags (desc : resource_desc)
    (hheap : desc.heap = memory_heap.gpu_only) :
    (∀ internal_desc result, convert_resource_desc_to_buffer desc internal_desc = some result →
      result.Usage = D3D11_USAGE_DEFAULT ∧
      result.CPUAccessFlags = internal_desc.CPUAccessFlags) ∧
    (∀ internal_desc result,
      convert_resource_desc_to_texture1d desc internal_desc = some result →
      result.Usage = D3D11_USAGE_DEFAULT ∧
      result.CPUAccessFlags = internal_desc.CPUAccessFlags) ∧
    (∀ internal_desc result,
      convert_resource_desc_to_texture2d desc internal_desc = some result →
      result.Usage = D3D11_USAGE_DEFAULT ∧
      result.CPUAccessFlags = internal_desc.CPUAccessFlags) ∧
    (∀ internal_desc result,
      convert_resource_desc_to_texture3d desc internal_desc = some result →
      result.Usage = D3D11_USAGE_DEFAULT ∧
      result.CPUAccessFlags = internal_desc.CPUAccessFlags) := by
  refine ⟨?_, ?_, ?_, ?_⟩
  · intro internal_desc result h
    simp only [convert_resource_desc_to_buffer, hheap, convert_memory_heap_to_d3d_usage] at h
    split at h
    · split at h
      · cases h; exact ⟨rfl, rfl⟩
      · cases h
    · cases h
  · intro internal_desc result h
    simp only [convert_resource_desc_to_texture1d, hheap, convert_memory_heap_to_d3d_usage] at h
    split at h
    · split at h
      · split at h
        · cases h; exact ⟨rfl, rfl⟩
        · cases h
      · cases h
    · cases h
  · intro internal_desc result h
    simp only [convert_resource_desc_to_texture2d, hheap, convert_memory_heap_to_d3d_usage] at h
    split at h
    · cases h; exact ⟨rfl, rfl⟩
    · cases h
  · intro internal_desc result h
    simp only [convert_resource_desc_to_texture3d, hheap, convert_memory_heap_to_d3d_usage] at h
    split at h
    · split at h
      · cases h; exact ⟨rfl, rfl⟩
      · cases h
    · cases h

/-- Claim C12, as stated, fails: a buffer description with heap `gpu_only`,
converted into a descriptor whose `CPUAccessFlags` already holds
`D3D11_CPU_ACCESS_READ`, yields `Usage = DEFAULT` with the read bit still
set. -/
theorem gpu_only_keeps_read_bit :
    ∃ result, convert_resource_desc_to_buffer
        { type := resource_type.buffer, texture_width := 16, texture_height := 0,
          texture_depth_or_layers := 0, texture_levels := 0, texture_format := 0,
          texture_samples := 0, heap := memory_heap.gpu_only, usage := 0 }
        { zeroed_buffer_desc with CPUAccessFlags := D3D11_CPU_ACCESS_READ } = some result ∧
      result.Usage = D3D11_USAGE_DEFAULT ∧
      result.CPUAccessFlags = D3D11_CPU_ACCESS_READ ∧
      result.CPUAccessFlags &&& D3D11_CPU_ACCESS_READ ≠ 0 := by
  refine ⟨_, rfl, ?_, ?_, ?_⟩ <;> decide

/-- Claim C12, amended: for every `resource_desc` with heap `gpu_only` and
every previous content of the native buffer or texture descriptor, a
conversion that succeeds yields `Usage = DEFAULT` and leaves `CPUAccessFlags`
as it was; so neither the read nor the write bit is set when the previous
content had neither (as in a zero-filled descriptor). -/
theorem gpu_only_no_cpu_access (desc : resource_desc)
    (hheap : desc.heap = memory_heap.gpu_only) :
    (∀ internal_desc result, convert_resource_desc_to_buffer desc internal_desc = some result →
      result.Usage = D3D11_USAGE_DEFAULT ∧
      result.CPUAccessFlags = internal_desc.CPUAccessFlags ∧
      (internal_desc.CPUAccessFlags &&&
          (D3D11_CPU_ACCESS_READ ||| D3D11_CPU_ACCESS_WRITE) = 0 →
        result.CPUAccessFlags &&& (D3D11_CPU_ACCESS_READ ||| D3D11_CPU_ACCESS_WRITE) = 0)) ∧
    (∀ internal_desc result,
      convert_resource_desc_to_texture1d desc internal_desc = some result →
      result.Usage = D3D11_USAGE_DEFAULT ∧
      result.CPUAccessFlags = internal_desc.CPUAccessFlags ∧
      (internal_desc.CPUAccessFlags &&&
          (D3D11_CPU_ACCESS_READ ||| D3D11_CPU_ACCESS_WRITE) = 0 →
        result.CPUAccessFlags &&& (D3D11_CPU_ACCESS_READ ||| D3D11_CPU_ACCESS_WRITE) = 0)) ∧
    (∀ internal_desc result,
      convert_resource_desc_to_texture2d desc internal_desc = some result →
      result.Usage = D3D11_USAGE_DEFAULT ∧
      result.CPUAccessFlags = internal_desc.CPUAccessFlags ∧
      (internal_desc.CPUAccessFlags &&&
          (D3D11_CPU_ACCESS_READ ||| D3D11_CPU_ACCESS_WRITE) = 0 →
        result.CPUAccessFlags &&& (D3D11_CPU_ACCESS_READ ||| D3D11_CPU_ACCESS_WRITE) = 0)) ∧
    (∀ internal_desc result,
      convert_resource_desc_to_texture3d desc internal_desc = some result →
      result.Usage = D3D11_USAGE_DEFAULT ∧
      result.CPUAccessFlags = internal_desc.CPUAccessFlags ∧
      (internal_desc.CPUAccessFlags &&&
          (D3D11_CPU_ACCESS_READ ||| D3D11_CPU_ACCESS_WRITE) = 0 →
        result.CPUAccessFlags &&& (D3D11_CPU_ACCESS_READ ||| D3D11_CPU_ACCESS_WRITE) = 0)) := by
  obtain ⟨h1, h2, h3, h4⟩ := gpu_only_keeps_cpu_access_flags desc hheap
  exact ⟨fun n r h => ⟨(h1 n r h).1, (h1 n r h).2, fun h0 => (h1 n r h).2 ▸ h0⟩,
    fun n r h => ⟨(h2 n r h).1, (h2 n r h).2, fun h0 => (h2 n r h).2 ▸ h0⟩,
    fun n r h => ⟨(h3 n r h).1, (h3 n r h).2, fun h0 => (h3 n r h).2 ▸ h0⟩,
    fun n r h => ⟨(h4 n r h).1, (h4 n r h).2, fun h0 => (h4 n r h).2 ▸ h0⟩⟩

/-- Claim C12 amended, at a `gpu_only` 2D texture description converted into a
zero-filled descriptor. -/
theorem gpu_only_no_cpu_access_witness :
    ∃ result, convert_resource_desc_to_texture2d
        { type := resource_type.texture_2d, texture_width := 64, texture_height := 32,
          texture_depth_or_layers := 1, texture_levels := 1, texture_format := 28,
          texture_samples := 1, heap := memory_heap.gpu_only,
          usage := resource_usage.shader_resource }
        zeroed_texture2d_desc = some result ∧
      result.Usage = D3D11_USAGE_DEFAULT ∧
      result.CPUAccessFlags &&& (D3D11_CPU_ACCESS_READ ||| D3D11_CPU_ACCESS_WRITE) = 0 :=
  ⟨_, rfl,
    ((gpu_only_no_cpu_access
      { type := resource_type.texture_2d, texture_width := 64, texture_height := 32,
        texture_depth_or_layers := 1, texture_levels := 1, texture_format := 28,
        texture_samples := 1, heap := memory_heap.gpu_only,
        usage := resource_usage.shader_resource } rfl).2.2.1
      zeroed_texture2d_desc _ rfl).1,
    ((gpu_only_no_cpu_access
      { type := resource_type.texture_2d, texture_width := 64, texture_height := 32,
        texture_depth_or_layers := 1, texture_levels := 1, texture_format := 28,
        texture_samples := 1, heap := memory_heap.gpu_only,
        usage := resource_usage.shader_resource } rfl).2.2.1
      zeroed_texture2d_desc _ rfl).2.2 (by decide)⟩

/-- Claim C13: heap coarsening. `convert_d3d_usage_to_memory_heap` maps both
`IMMUTABLE` and `DEFAULT` to `gpu_only`, `DYNAMIC` to `cpu_to_gpu` and
`STAGING` to `gpu_to_cpu`; the heap of the description returned by each of the
four native to abstract resource translators is this value of the
descriptor's `Usage`, and the whole result does not depend on
`CPUAccessFlags`. -/
theorem d3d_usage_to_heap_coarsening :
    convert_d3d_usage_to_memory_heap D3D11_USAGE_DEFAULT = memory_heap.gpu_only ∧
    convert_d3d_usage_to_memory_heap D3D11_USAGE_IMMUTABLE = memory_heap.gpu_only ∧
    convert_d3d_usage_to_memory_heap D3D11_USAGE_DYNAMIC = memory_heap.cpu_to_gpu ∧
    convert_d3d_usage_to_memory_heap D3D11_USAGE_STAGING = memory_heap.gpu_to_cpu ∧
    (∀ (internal_desc : D3D11_BUFFER_DESC) (F : Nat),
      (convert_resource_desc_from_buffer internal_desc).heap =
        convert_d3d_usage_to_memory_heap internal_desc.Usage ∧
      convert_resource_desc_from_buffer { internal_desc with CPUAccessFlags := F } =
        convert_resource_desc_from_buffer internal_desc) ∧
    (∀ (internal_desc : D3D11_TEXTURE1D_DESC) (F : Nat),
      (∀ desc, convert_resource_desc_from_texture1d internal_desc = some desc →
        desc.heap = convert_d3d_usage_to_memory_heap internal_desc.Usage) ∧
      convert_resource_desc_from_texture1d { internal_desc with CPUAccessFlags := F } =
        convert_resource_desc_from_texture1d internal_desc) ∧
    (∀ (internal_desc : D3D11_TEXTURE2D_DESC) (F : Nat),
      (∀ desc, convert_resource_desc_from_texture2d internal_desc = some desc →
        desc.heap = convert_d3d_usage_to_memory_heap internal_desc.Usage) ∧
      convert_resource_desc_from_texture2d { internal_desc with CPUAccessFlags := F } =
        convert_resource_desc_from_texture2d internal_desc) ∧
    (∀ (internal_desc : D3D11_TEXTURE3D_DESC) (F : Nat),
      (∀ desc, convert_resource_desc_from_texture3d internal_desc = some desc →
        desc.heap = convert_d3d_usage_to_memory_heap internal_desc.Usage) ∧
      convert_resource_desc_from_texture3d { internal_desc with CPUAccessFlags := F } =
        convert_resource_desc_from_texture3d internal_desc) := by
  refine ⟨rfl, rfl, rfl, rfl, fun n F => ⟨rfl, rfl⟩, fun n F => ⟨?_, rfl⟩,
    fun n F => ⟨?_, rfl⟩, fun n F => ⟨?_, rfl⟩⟩
  · intro desc h
    simp only [convert_resource_desc_from_texture1d] at h
    split at h
    · split at h
      · cases h; rfl
      · cases h
    · cases h
  · intro desc h
    simp only [convert_resource_desc_from_texture2d] at h
    split at h
    · split at h
      · cases h; rfl
      · cases h
    · cases h
  · intro desc h
    simp only [convert_resource_desc_from_texture3d] at h
    split at h
    · split at h
      · cases h; rfl
      · cases h
    · cases h

/-- Claim C13, at an immutable 2D texture descriptor with CPU read access
requested: the heap comes back as `gpu_only`. -/
theorem d3d_usage_to_heap_coarsening_witness :
    ∃ desc, convert_resource_desc_from_texture2d
        { zeroed_texture2d_desc with
          Width := 64, Height := 32, MipLevels := 1, ArraySize := 1, SampleDesc_Count := 1
          Usage := D3D11_USAGE_IMMUTABLE
          CPUAccessFlags := D3D11_CPU_ACCESS_READ } = some desc ∧
      desc.heap = memory_heap.gpu_only :=
  ⟨_, rfl, (d3d_usage_to_heap_coarsening.2.2.2.2.2.2.1
    { zeroed_texture2d_desc with
      Width := 64, Height := 32, MipLevels := 1, ArraySize := 1, SampleDesc_Count := 1
      Usage := D3D11_USAGE_IMMUTABLE
      CPUAccessFlags := D3D11_CPU_ACCESS_READ } 0).1 _ rfl⟩

/-! ## The `unknown` tag -/

/-- With the tag `unknown` the shader-resource translators always succeed and
the other translators succeed exactly when `texture.levels = 1`; a call that
succeeds changes `Format` and nothing else. -/
theorem unknown_type_forward (desc : resource_view_desc)
    (htype : desc.type = resource_view_type.unknown) :
    (∀ internal_desc, convert_resource_view_desc_to_dsv desc internal_desc =
      if desc.texture_levels = 1 then some { internal_desc with Format := desc.format }
      else none) ∧
    (∀ internal_desc, convert_resource_view_desc_to_rtv desc internal_desc =
      if desc.texture_levels = 1 then some { internal_desc with Format := desc.format }
      else none) ∧
    (∀ internal_desc, convert_resource_view_desc_to_rtv1 desc internal_desc =
      if desc.texture_levels = 1 then some { internal_desc with Format := desc.format }
      else none) ∧
    (∀ internal_desc, convert_resource_view_desc_to_srv desc internal_desc =
      some { internal_desc with Format := desc.format }) ∧
    (∀ internal_desc, convert_resource_view_desc_to_srv1 desc internal_desc =
      some { internal_desc with Format := desc.format }) ∧
    (∀ internal_desc, convert_resource_view_desc_to_uav desc internal_desc =
      if desc.texture_levels = 1 then some { internal_desc with Format := desc.format }
      else none) ∧
    (∀ internal_desc, convert_resource_view_desc_to_uav1 desc internal_desc =
      if desc.texture_levels = 1 then some { internal_desc with Format := desc.format }
      else none) := by
  obtain ⟨t, f, a, b, c, e⟩ := desc
  simp only at htype
  subst htype
  refine ⟨?_, ?_, ?_, ?_, ?_, ?_, ?_⟩ <;> intro internal_desc
  · by_cases hb : b = 1 <;> simp [convert_resource_view_desc_to_dsv, hb]
  · by_cases hb : b = 1 <;> simp [convert_resource_view_desc_to_rtv, hb]
  · by_cases hb : b = 1 <;>
      simp [convert_resource_view_desc_to_rtv1, convert_resource_view_desc_to_rtv, hb]
  · simp [convert_resource_view_desc_to_srv]
  · simp [convert_resource_view_desc_to_srv1, convert_resource_view_desc_to_srv]
  · by_cases hb : b = 1 <;> simp [convert_resource_view_desc_to_uav, hb]
  · by_cases hb : b = 1 <;>
      simp [convert_resource_view_desc_to_uav1, convert_resource_view_desc_to_uav, hb]

/-- Claim C14, as stated, fails: with the tag `unknown` and format 28 the
shader-resource translator turns a zero-filled descriptor into one whose
`Format` is 28. -/
theorem unknown_type_writes_format :
    ∃ result, convert_resource_view_desc_to_srv
        { type := resource_view_type.unknown, format := 28, texture_first_level := 0,
          texture_levels := 1, texture_first_layer := 0, texture_layers := 1 }
        zeroed_srv_desc = some result ∧
      result.Format = 28 ∧ zeroed_srv_desc.Format = 0 ∧ result ≠ zeroed_srv_desc := by
  refine ⟨_, rfl, ?_, ?_, ?_⟩ <;> decide

/-- Claim C14, amended: for every description with the tag `unknown` and every
previous content of the native view descriptor (depth-stencil, render-target,
shader-resource, unordered-access, base and versioned), a forward conversion
that completes sets `Format` to the description's format and leaves every
other field exactly as it was. -/
theorem unknown_type_keeps_all_but_format (desc : resource_view_desc)
    (htype : desc.type = resource_view_type.unknown) :
    (∀ internal_desc result, convert_resource_view_desc_to_dsv desc internal_desc = some result →
      result = { internal_desc with Format := desc.format }) ∧
    (∀ internal_desc result, convert_resource_view_desc_to_rtv desc internal_desc = some result →
      result = { internal_desc with Format := desc.format }) ∧
    (∀ internal_desc result,
      convert_resource_view_desc_to_rtv1 desc internal_desc = some result →
      result = { internal_desc with Format := desc.format }) ∧
    (∀ internal_desc result, convert_resource_view_desc_to_srv desc internal_desc = some result →
      result = { internal_desc with Format := desc.format }) ∧
    (∀ internal_desc result,
      convert_resource_view_desc_to_srv1 desc internal_desc = some result →
      result = { internal_desc with Format := desc.format }) ∧
    (∀ internal_desc result, convert_resource_view_desc_to_uav desc internal_desc = some result →
      result = { internal_desc with Format := desc.format }) ∧
    (∀ internal_desc result,
      convert_resource_view_desc_to_uav1 desc internal_desc = some result →
      result = { internal_desc with Format := desc.format }) := by
  obtain ⟨h1, h2, h3, h4, h5, h6, h7⟩ := unknown_type_forward desc htype
  refine ⟨?_, ?_, ?_, ?_, ?_, ?_, ?_⟩ <;> intro internal_desc result h
  · rw [h1] at h; split at h <;> simp_all
  · rw [h2] at h; split at h <;> simp_all
  · rw [h3] at h; split at h <;> simp_all
  · rw [h4] at h; simp_all
  · rw [h5] at h; simp_all
  · rw [h6] at h; split at h <;> simp_all
  · rw [h7] at h; split at h <;> simp_all

/-- Claim C14 amended, at a description with the tag `unknown`, format 28 and
`texture.levels = 1`, converted into a zero-filled depth-stencil descriptor. -/
theorem unknown_type_keeps_all_but_format_witness :
    ∃ result, convert_resource_view_desc_to_dsv
        { type := resource_view_type.unknown, format := 28, texture_first_level := 0,
          texture_levels := 1, texture_first_layer := 0, texture_layers := 1 }
        zeroed_dsv_desc = some result ∧
      result = { zeroed_dsv_desc with Format := 28 } :=
  ⟨_, rfl, (unknown_type_keeps_all_but_format
    { type := resource_view_type.unknown, format := 28, texture_first_level := 0,
      texture_levels := 1, texture_first_layer := 0, texture_layers := 1 } rfl).1
    zeroed_dsv_desc _ rfl⟩

/-- Claim C15, as stated, fails: with the tag `unknown` and
`texture.levels = 2` the depth-stencil, render-target and unordered-access
translators hit their leading `assert`. -/
theorem unknown_type_levels_asserted :
    convert_resource_view_desc_to_dsv
        { type := resource_view_type.unknown, format := 0, texture_first_level := 0,
          texture_levels := 2, texture_first_layer := 0, texture_layers := 0 }
        zeroed_dsv_desc = none ∧
    convert_resource_view_desc_to_rtv
        { type := resource_view_type.unknown, format := 0, texture_first_level := 0,
          texture_levels := 2, texture_first_layer := 0, texture_layers := 0 }
        zeroed_rtv_desc = none ∧
    convert_resource_view_desc_to_uav
        { type := resource_view_type.unknown, format := 0, texture_first_level := 0,
          texture_levels := 2, texture_first_layer := 0, texture_layers := 0 }
        zeroed_uav_desc = none := by
  decide

/-- Claim C15, amended: for every description with the tag `unknown`, whatever
its format and payload hold, the shader-resource translators (base and
versioned) complete without a contract violation; the depth-stencil,
render-target and unordered-access translators (base and versioned) complete
exactly when `texture.levels = 1`. -/
theorem unknown_type_completes (desc : resource_view_desc)
    (htype : desc.type = resource_view_type.unknown) :
    (∀ internal_desc,
      (convert_resource_view_desc_to_srv desc internal_desc).isSome = true) ∧
    (∀ internal_desc,
      (convert_resource_view_desc_to_srv1 desc internal_desc).isSome = true) ∧
    (∀ internal_desc,
      (convert_resource_view_desc_to_dsv desc internal_desc).isSome = true ↔
        desc.texture_levels = 1) ∧
    (∀ internal_desc,
      (convert_resource_view_desc_to_rtv desc internal_desc).isSome = true ↔
        desc.texture_levels = 1) ∧
    (∀ internal_desc,
      (convert_resource_view_desc_to_rtv1 desc internal_desc).isSome = true ↔
        desc.texture_levels = 1) ∧
    (∀ internal_desc,
      (convert_resource_view_desc_to_uav desc internal_desc).isSome = true ↔
        desc.texture_levels = 1) ∧
    (∀ internal_desc,
      (convert_resource_view_desc_to_uav1 desc internal_desc).isSome = true ↔
        desc.texture_levels = 1) := by
  obtain ⟨h1, h2, h3, h4, h5, h6, h7⟩ := unknown_type_forward desc htype
  refine ⟨?_, ?_, ?_, ?_, ?_, ?_, ?_⟩ <;> intro internal_desc
  · rw [h4]; rfl
  · rw [h5]; rfl
  · rw [h1]; split <;> simp_all
  · rw [h2]; split <;> simp_all
  · rw [h3]; split <;> simp_all
  · rw [h6]; split <;> simp_all
  · rw [h7]; split <;> simp_all

/-- Claim C15 amended, at a description with the tag `unknown` and
`texture.levels = 7`: the shader-resource translator completes and the
depth-stencil translator completes exactly when 7 = 1. -/
theorem unknown_type_completes_witness :
    (convert_resource_view_desc_to_srv
        { type := resource_view_type.unknown, format := 0, texture_first_level := 0,
          texture_levels := 7, texture_first_layer := 0, texture_layers := 0 }
        zeroed_srv_desc).isSome = true ∧
    ((convert_resource_view_desc_to_dsv
        { type := resource_view_type.unknown, format := 0, texture_first_level := 0,
          texture_levels := 7, texture_first_layer := 0, texture_layers := 0 }
        zeroed_dsv_desc).isSome = true ↔ (7 : Nat) = 1) :=
  ⟨(unknown_type_completes
      { type := resource_view_type.unknown, format := 0, texture_first_level := 0,
        texture_levels := 7, texture_first_layer := 0, texture_layers := 0 } rfl).1
      zeroed_srv_desc,
    (unknown_type_completes
      { type := resource_view_type.unknown, format := 0, texture_first_level := 0,
        texture_levels := 7, texture_first_layer := 0, texture_layers := 0 } rfl).2.2.1
      zeroed_dsv_desc⟩

/-! ## Native texture descriptors to resource descriptions -/

/-- What the two resolve masks read back from a usage made of the copy masks,
a subset of the seven mapped masks and one resolve mask (checked over the 128
subsets). -/
theorem resolve_mask_projections :
    ∀ (rt ds sr ua ib vb cb : Bool),
      ((((0 ||| (resource_usage.copy_dest ||| resource_usage.copy_source)) |||
          bind_mapped_usage rt ds sr ua ib vb cb) ||| resource_usage.resolve_source) &&&
        resource_usage.resolve_source = resource_usage.resolve_source) ∧
      ((((0 ||| (resource_usage.copy_dest ||| resource_usage.copy_source)) |||
          bind_mapped_usage rt ds sr ua ib vb cb) ||| resource_usage.resolve_source) &&&
        resource_usage.resolve_dest = 0) ∧
      ((((0 ||| (resource_usage.copy_dest ||| resource_usage.copy_source)) |||
          bind_mapped_usage rt ds sr ua ib vb cb) ||| resource_usage.resolve_dest) &&&
        resource_usage.resolve_dest = resource_usage.resolve_dest) ∧
      ((((0 ||| (resource_usage.copy_dest ||| resource_usage.copy_source)) |||
          bind_mapped_usage rt ds sr ua ib vb cb) ||| resource_usage.resolve_dest) &&&
        resource_usage.resolve_source = 0) := by
  decide

/-- The description returned for a 2D texture descriptor, when both `assert`s
hold: the sample count is narrowed to 16 bits and the resolve mask is chosen
from the narrowed value. -/
theorem convert_resource_desc_from_texture2d_eq (internal_desc : D3D11_TEXTURE2D_DESC)
    (harray : internal_desc.ArraySize ≤ UINT16_MAX)
    (hlevels : internal_desc.MipLevels ≤ UINT16_MAX) :
    convert_resource_desc_from_texture2d internal_desc =
      some
        { type := resource_type.texture_2d
          texture_width := internal_desc.Width
          texture_height := internal_desc.Height
          texture_depth_or_layers := internal_desc.ArraySize
          texture_levels := internal_desc.MipLevels
          texture_format := internal_desc.Format
          texture_samples := internal_desc.SampleDesc_Count % 2 ^ 16
          heap := convert_d3d_usage_to_memory_heap internal_desc.Usage
          usage := convert_bind_flags_to_resource_usage internal_desc.BindFlags 0 |||
            (if internal_desc.SampleDesc_Count % 2 ^ 16 > 1 then resource_usage.resolve_source
              else resource_usage.resolve_dest) } := by
  have h1 : internal_desc.ArraySize % 2 ^ 16 = internal_desc.ArraySize := by
    simp only [UINT16_MAX] at harray; omega
  have h2 : internal_desc.MipLevels % 2 ^ 16 = internal_desc.MipLevels := by
    simp only [UINT16_MAX] at hlevels; omega
  simp only [convert_resource_desc_from_texture2d, harray, hlevels, if_true, h1, h2,
    resource_desc.value_initialized]

/-- For a sample count that fits in 16 bits the resolve mask of the result is
chosen by `SampleDesc.Count > 1`. -/
theorem resolve_bit_of_small_sample_count (internal_desc : D3D11_TEXTURE2D_DESC)
    (desc : resource_desc)
    (h : convert_resource_desc_from_texture2d internal_desc = some desc)
    (hcount : internal_desc.SampleDesc_Count ≤ UINT16_MAX) :
    (internal_desc.SampleDesc_Count > 1 →
      desc.usage &&& resource_usage.resolve_source = resource_usage.resolve_source ∧
      desc.usage &&& resource_usage.resolve_dest = 0) ∧
    (internal_desc.SampleDesc_Count ≤ 1 →
      desc.usage &&& resource_usage.resolve_dest = resource_usage.resolve_dest ∧
      desc.usage &&& resource_usage.resolve_source = 0) := by
  have harray : internal_desc.ArraySize ≤ UINT16_MAX := by
    by_contra hc
    simp [convert_resource_desc_from_texture2d, hc] at h
  have hlevels : internal_desc.MipLevels ≤ UINT16_MAX := by
    by_contra hc
    simp [convert_resource_desc_from_texture2d, harray, hc] at h
  rw [convert_resource_desc_from_texture2d_eq internal_desc harray hlevels] at h
  have hmod : internal_desc.SampleDesc_Count % 2 ^ 16 = internal_desc.SampleDesc_Count := by
    simp only [UINT16_MAX] at hcount; omega
  rw [hmod, convert_bind_flags_to_resource_usage_eq] at h
  cases h
  obtain ⟨p1, p2, p3, p4⟩ := resolve_mask_projections
    (decide ((internal_desc.BindFlags &&& D3D11_BIND_RENDER_TARGET) ≠ 0))
    (decide ((internal_desc.BindFlags &&& D3D11_BIND_DEPTH_STENCIL) ≠ 0))
    (decide ((internal_desc.BindFlags &&& D3D11_BIND_SHADER_RESOURCE) ≠ 0))
    (decide ((internal_desc.BindFlags &&& D3D11_BIND_UNORDERED_ACCESS) ≠ 0))
    (decide ((internal_desc.BindFlags &&& D3D11_BIND_INDEX_BUFFER) ≠ 0))
    (decide ((internal_desc.BindFlags &&& D3D11_BIND_VERTEX_BUFFER) ≠ 0))
    (decide ((internal_desc.BindFlags &&& D3D11_BIND_CONSTANT_BUFFER) ≠ 0))
  constructor
  · intro hgt
    simp only [hgt, if_true]
    exact ⟨p1, p2⟩
  · intro hle
    have : ¬ internal_desc.SampleDesc_Count > 1 := by omega
    simp only [this, if_false]
    exact ⟨p3, p4⟩

/-- Claim C18, at its failing input: a 2D texture descriptor with
`SampleDesc.Count = 65536` is converted without a contract violation; the
sample count is narrowed to 0 and the usage gets `resolve_dest`, not
`resolve_source`, although the count is greater than 1. -/
theorem resolve_bit_of_wrapped_sample_count :
    ∃ desc, convert_resource_desc_from_texture2d
        { zeroed_texture2d_desc with
          Width := 64, Height := 32, MipLevels := 1, ArraySize := 1
          SampleDesc_Count := 65536 } = some desc ∧
      desc.texture_samples = 0 ∧
      desc.usage &&& resource_usage.resolve_source = 0 ∧
      desc.usage &&& resource_usage.resolve_dest = resource_usage.resolve_dest := by
  refine ⟨_, rfl, ?_, ?_, ?_⟩ <;> decide

/-- Claim C19: range-checked narrowing of layer and level counts. The native
to abstract conversion of a texture 1D, 2D or 3D descriptor succeeds exactly
when `ArraySize` (`Depth` for 3D) and `MipLevels` are at most 65535, so it is
a contract violation when either exceeds 65535, and a result has
`depth_or_layers` and `levels` equal to the native values. The abstract to
native buffer conversion succeeds exactly when the tag is `buffer` and `size`
is at most `2^32 - 1`, so it is a contract violation when `size` exceeds that,
and a result has `ByteWidth` equal to `size`. -/
theorem narrowing_is_range_checked :
    (∀ internal_desc : D3D11_TEXTURE1D_DESC,
      ((convert_resource_desc_from_texture1d internal_desc).isSome = true ↔
        internal_desc.ArraySize ≤ 65535 ∧ internal_desc.MipLevels ≤ 65535) ∧
      (internal_desc.ArraySize > 65535 ∨ internal_desc.MipLevels > 65535 →
        convert_resource_desc_from_texture1d internal_desc = none) ∧
      ∀ desc, convert_resource_desc_from_texture1d internal_desc = some desc →
        desc.texture_depth_or_layers = internal_desc.ArraySize ∧
        desc.texture_levels = internal_desc.MipLevels) ∧
    (∀ internal_desc : D3D11_TEXTURE2D_DESC,
      ((convert_resource_desc_from_texture2d internal_desc).isSome = true ↔
        internal_desc.ArraySize ≤ 65535 ∧ internal_desc.MipLevels ≤ 65535) ∧
      (internal_desc.ArraySize > 65535 ∨ internal_desc.MipLevels > 65535 →
        convert_resource_desc_from_texture2d internal_desc = none) ∧
      ∀ desc, convert_resource_desc_from_texture2d internal_desc = some desc →
        desc.texture_depth_or_layers = internal_desc.ArraySize ∧
        desc.texture_levels = internal_desc.MipLevels) ∧
    (∀ internal_desc : D3D11_TEXTURE3D_DESC,
      ((convert_resource_desc_from_texture3d internal_desc).isSome = true ↔
        internal_desc.Depth ≤ 65535 ∧ internal_desc.MipLevels ≤ 65535) ∧
      (internal_desc.Depth > 65535 ∨ internal_desc.MipLevels > 65535 →
        convert_resource_desc_from_texture3d internal_desc = none) ∧
      ∀ desc, convert_resource_desc_from_texture3d internal_desc = some desc →
        desc.texture_depth_or_layers = internal_desc.Depth ∧
        desc.texture_levels = internal_desc.MipLevels) ∧
    (∀ (desc : resource_desc) (internal_desc : D3D11_BUFFER_DESC),
      ((convert_resource_desc_to_buffer desc internal_desc).isSome = true ↔
        desc.type = resource_type.buffer ∧ desc.buffer_size ≤ 2 ^ 32 - 1) ∧
      (desc.buffer_size > 2 ^ 32 - 1 →
        convert_resource_desc_to_buffer desc internal_desc = none) ∧
      ∀ result, convert_resource_desc_to_buffer desc internal_desc = some result →
        result.ByteWidth = desc.buffer_size) := by
  refine ⟨?_, ?_, ?_, ?_⟩
  · intro n
    by_cases h1 : n.ArraySize ≤ 65535 <;> by_cases h2 : n.MipLevels ≤ 65535 <;>
      simp [convert_resource_desc_from_texture1d, UINT16_MAX, h1, h2]
    all_goals omega
  · intro n
    by_cases h1 : n.ArraySize ≤ 65535 <;> by_cases h2 : n.MipLevels ≤ 65535 <;>
      simp [convert_resource_desc_from_texture2d, UINT16_MAX, h1, h2]
    all_goals omega
  · intro n
    by_cases h1 : n.Depth ≤ 65535 <;> by_cases h2 : n.MipLevels ≤ 65535 <;>
      simp [convert_resource_desc_from_texture3d, UINT16_MAX, h1, h2]
    all_goals omega
  · intro desc n
    by_cases h1 : desc.type = resource_type.buffer <;>
      by_cases h2 : desc.buffer_size ≤ 4294967295 <;>
      simp [convert_resource_desc_to_buffer, UINT_MAX, h1, h2]
    all_goals omega

/-- Claim C19, at a 1D texture descriptor with `ArraySize = 65536`, which is a
contract violation, and at one with `ArraySize = 65535` and `MipLevels = 9`,
whose result holds both values. -/
theorem narrowing_is_range_checked_witness :
    convert_resource_desc_from_texture1d
        { zeroed_texture1d_desc with Width := 64, MipLevels := 1, ArraySize := 65536 } = none ∧
    ∃ desc, convert_resource_desc_from_texture1d
        { zeroed_texture1d_desc with Width := 64, MipLevels := 9, ArraySize := 65535 } =
          some desc ∧
      desc.texture_depth_or_layers = 65535 ∧ desc.texture_levels = 9 :=
  ⟨(narrowing_is_range_checked.1
      { zeroed_texture1d_desc with Width := 64, MipLevels := 1, ArraySize := 65536 }).2.1
      (Or.inl (by decide)),
    _, rfl,
    (narrowing_is_range_checked.1
      { zeroed_texture1d_desc with Width := 64, MipLevels := 9, ArraySize := 65535 }).2.2
      _ rfl⟩

/-- Claim C20, at its failing input: a 2D texture descriptor with
`SampleDesc.Count = 65537` is converted without a contract violation and the
result has `samples = 1`; the two neighbouring narrowings, of `ArraySize` and
of `MipLevels`, are guarded by an `assert` and the value 65537 is refused
there. -/
theorem sample_count_narrowed_unchecked :
    (∃ desc, convert_resource_desc_from_texture2d
        { zeroed_texture2d_desc with
          Width := 64, Height := 32, MipLevels := 1, ArraySize := 1
          SampleDesc_Count := 65537 } = some desc ∧
      desc.texture_samples = 1 ∧ desc.texture_samples ≠ 65537) ∧
    convert_resource_desc_from_texture2d
        { zeroed_texture2d_desc with
          Width := 64, Height := 32, MipLevels := 1, ArraySize := 65537
          SampleDesc_Count := 1 } = none ∧
    convert_resource_desc_from_texture2d
        { zeroed_texture2d_desc with
          Width := 64, Height := 32, MipLevels := 65537, ArraySize := 1
          SampleDesc_Count := 1 } = none := by
  refine ⟨⟨_, rfl, ?_, ?_⟩, ?_, ?_⟩ <;> decide

/-! ## Resource tag check -/

/-- Claim C21: the resource tag check. Each of the four abstract to native
resource translators succeeds exactly when the tag of the description matches
the kind of the native structure and, in addition, `size` is at most
`2^32 - 1` for the buffer, `height = 1` and `samples = 1` for the 1D texture,
`samples = 1` for the 3D texture (nothing more for the 2D texture); so a tag
that differs is always a contract violation. -/
theorem resource_tag_is_checked (desc : resource_desc) :
    (∀ internal_desc,
      ((convert_resource_desc_to_buffer desc internal_desc).isSome = true ↔
        desc.type = resource_type.buffer ∧ desc.buffer_size ≤ 2 ^ 32 - 1) ∧
      (convert_resource_desc_to_buffer desc internal_desc = none ↔
        ¬ (desc.type = resource_type.buffer ∧ desc.buffer_size ≤ 2 ^ 32 - 1))) ∧
    (∀ internal_desc,
      ((convert_resource_desc_to_texture1d desc internal_desc).isSome = true ↔
        desc.type = resource_type.texture_1d ∧ desc.texture_height = 1 ∧
          desc.texture_samples = 1) ∧
      (convert_resource_desc_to_texture1d desc internal_desc = none ↔
        ¬ (desc.type = resource_type.texture_1d ∧ desc.texture_height = 1 ∧
          desc.texture_samples = 1))) ∧
    (∀ internal_desc,
      ((convert_resource_desc_to_texture2d desc internal_desc).isSome = true ↔
        desc.type = resource_type.texture_2d) ∧
      (convert_resource_desc_to_texture2d desc internal_desc = none ↔
        ¬ desc.type = resource_type.texture_2d)) ∧
    (∀ internal_desc,
      ((convert_resource_desc_to_texture3d desc internal_desc).isSome = true ↔
        desc.type = resource_type.texture_3d ∧ desc.texture_samples = 1) ∧
      (convert_resource_desc_to_texture3d desc internal_desc = none ↔
        ¬ (desc.type = resource_type.texture_3d ∧ desc.texture_samples = 1))) := by
  refine ⟨?_, ?_, ?_, ?_⟩ <;> intro internal_desc
  · by_cases h1 : desc.type = resource_type.buffer <;>
      by_cases h2 : desc.buffer_size ≤ 4294967295 <;>
      simp [convert_resource_desc_to_buffer, UINT_MAX, h1, h2]
  · by_cases h1 : desc.type = resource_type.texture_1d <;>
      by_cases h2 : desc.texture_height = 1 <;>
      by_cases h3 : desc.texture_samples = 1 <;>
      simp [convert_resource_desc_to_texture1d, h1, h2, h3]
  · by_cases h1 : desc.type = resource_type.texture_2d <;>
      simp [convert_resource_desc_to_texture2d, h1]
  · by_cases h1 : desc.type = resource_type.texture_3d <;>
      by_cases h3 : desc.texture_samples = 1 <;>
      simp [convert_resource_desc_to_texture3d, h1, h3]

/-! ## Fixed-function enumerations -/

/-- Claim C22: fatal on the unsupported fill mode. `convert_fill_mode` is a
contract violation exactly for `fill_mode::point`; `solid` yields
`D3D11_FILL_SOLID` and `wireframe` yields `D3D11_FILL_WIREFRAME`, so no native
value is ever returned for `point`. -/
theorem fill_mode_point_is_fatal :
    convert_fill_mode fill_mode.solid = some D3D11_FILL_SOLID ∧
    convert_fill_mode fill_mode.wireframe = some D3D11_FILL_WIREFRAME ∧
    convert_fill_mode fill_mode.point = none ∧
    (∀ value, convert_fill_mode value = none ↔ value = fill_mode.point) ∧
    (∀ internal_value, convert_fill_mode fill_mode.point ≠ some internal_value) := by
  refine ⟨rfl, rfl, rfl, ?_, ?_⟩
  · intro value
    cases value <;> simp [convert_fill_mode]
  · intro internal_value
    simp [convert_fill_mode]

/-- Adding one to a number below `2^32 - 1` does not wrap. -/
theorem succ_mod_of_lt (value : Nat) (h : value < UINT_MAX) :
    (value + 1) % 2 ^ 32 = value + 1 := by
  simp only [UINT_MAX] at h
  omega

/-- Claim C23: the offset-coded enumerations. For every abstract value (a
number below `2^32 - 1`, as the number of every enumerator is)
`convert_blend_op`, `convert_compare_op` and `convert_stencil_op` return that
number plus 1, so they never return 0 and send different values to different
native values; `convert_cull_mode` does the same for every value other than
`cull_mode::front_and_back`, on which it is a contract violation. -/
theorem offset_coded_enums (value : Nat) (hvalue : value < UINT_MAX) :
    convert_blend_op value = value + 1 ∧
    convert_compare_op value = value + 1 ∧
    convert_stencil_op value = value + 1 ∧
    convert_blend_op value ≠ 0 ∧ convert_compare_op value ≠ 0 ∧
    convert_stencil_op value ≠ 0 ∧
    (∀ other, other < UINT_MAX →
      (convert_blend_op other = convert_blend_op value → other = value) ∧
      (convert_compare_op other = convert_compare_op value → other = value) ∧
      (convert_stencil_op other = convert_stencil_op value → other = value) ∧
      (convert_cull_mode other = convert_cull_mode value →
        other ≠ cull_mode.front_and_back → other = value)) ∧
    (value ≠ cull_mode.front_and_back → convert_cull_mode value = some (value + 1)) ∧
    convert_cull_mode cull_mode.front_and_back = none := by
  have h := succ_mod_of_lt value hvalue
  refine ⟨h, h, h, ?_, ?_, ?_, ?_, ?_, rfl⟩
  · simp only [convert_blend_op, h]; omega
  · simp only [convert_compare_op, h]; omega
  · simp only [convert_stencil_op, h]; omega
  · intro other hother
    have ho := succ_mod_of_lt other hother
    refine ⟨?_, ?_, ?_, ?_⟩
    · simp only [convert_blend_op, h, ho]; omega
    · simp only [convert_compare_op, h, ho]; omega
    · simp only [convert_stencil_op, h, ho]; omega
    · intro heq hne
      by_cases hv : value = cull_mode.front_and_back
      · simp [convert_cull_mode, hv, hne] at heq
      · simp only [convert_cull_mode, ne_eq, hne, hv, not_false_eq_true, if_true, h, ho,
          Option.some.injEq] at heq
        omega
  · intro hne
    simp only [convert_cull_mode, ne_eq, hne, not_false_eq_true, if_true, h]

/-- Claim C23, at the abstract number 2: every translator returns 3. -/
theorem offset_coded_enums_witness :
    convert_blend_op 2 = 3 ∧ convert_compare_op 2 = 3 ∧ convert_stencil_op 2 = 3 ∧
    convert_cull_mode 2 = some 3 :=
  ⟨(offset_coded_enums 2 (by decide)).1, (offset_coded_enums 2 (by decide)).2.1,
    (offset_coded_enums 2 (by decide)).2.2.1,
    (offset_coded_enums 2 (by decide)).2.2.2.2.2.2.2.1 (by decide)⟩

/-- Claim C24: the blend factor map is onto and has exactly two collisions.
`constant_color` and `constant_alpha` both map to `D3D11_BLEND_BLEND_FACTOR`,
`inv_constant_color` and `inv_constant_alpha` both map to
`D3D11_BLEND_INV_BLEND_FACTOR`; two abstract blend factors map to the same
native value exactly when they are equal or form one of these two pairs; and
every native value is reached. -/
theorem blend_factor_two_collisions :
    convert_blend_factor blend_factor.constant_color = D3D11_BLEND_BLEND_FACTOR ∧
    convert_blend_factor blend_factor.constant_alpha = D3D11_BLEND_BLEND_FACTOR ∧
    convert_blend_factor blend_factor.inv_constant_color = D3D11_BLEND_INV_BLEND_FACTOR ∧
    convert_blend_factor blend_factor.inv_constant_alpha = D3D11_BLEND_INV_BLEND_FACTOR ∧
    (∀ a b, convert_blend_factor a = convert_blend_factor b ↔
      (a = b ∨
        (a = blend_factor.constant_color ∧ b = blend_factor.constant_alpha) ∨
        (a = blend_factor.constant_alpha ∧ b = blend_factor.constant_color) ∨
        (a = blend_factor.inv_constant_color ∧ b = blend_factor.inv_constant_alpha) ∨
        (a = blend_factor.inv_constant_alpha ∧ b = blend_factor.inv_constant_color))) ∧
    (∀ internal_value, ∃ value, convert_blend_factor value = internal_value) := by
  refine ⟨rfl, rfl, rfl, rfl, ?_, ?_⟩
  · intro a b
    cases a <;> cases b <;> simp [convert_blend_factor]
  · intro internal_value
    cases internal_value
    · exact ⟨blend_factor.zero, rfl⟩
    · exact ⟨blend_factor.one, rfl⟩
    · exact ⟨blend_factor.src_color, rfl⟩
    · exact ⟨blend_factor.inv_src_color, rfl⟩
    · exact ⟨blend_factor.src_alpha, rfl⟩
    · exact ⟨blend_factor.inv_src_alpha, rfl⟩
    · exact ⟨blend_factor.dst_alpha, rfl⟩
    · exact ⟨blend_factor.inv_dst_alpha, rfl⟩
    · exact ⟨blend_factor.dst_color, rfl⟩
    · exact ⟨blend_factor.inv_dst_color, rfl⟩
    · exact ⟨blend_factor.src_alpha_sat, rfl⟩
    · exact ⟨blend_factor.constant_color, rfl⟩
    · exact ⟨blend_factor.inv_constant_color, rfl⟩
    · exact ⟨blend_factor.src1_color, rfl⟩
    · exact ⟨blend_factor.inv_src1_color, rfl⟩
    · exact ⟨blend_factor.src1_alpha, rfl⟩
    · exact ⟨blend_factor.inv_src1_alpha, rfl⟩

/-! ## Height and samples of 1D and 3D textures -/

/-- Claim C25, as stated, fails: a 3D texture descriptor with `Height = 32`
converts to a description with `texture.height = 32`. -/
theorem texture3d_height_is_kept :
    ∃ desc, convert_resource_desc_from_texture3d
        { zeroed_texture3d_desc with Width := 64, Height := 32, Depth := 8, MipLevels := 1 } =
          some desc ∧
      desc.texture_height = 32 ∧ desc.texture_height ≠ 1 ∧ desc.texture_samples = 1 := by
  refine ⟨_, rfl, ?_, ?_, ?_⟩ <;> decide

/-- Claim C25, amended: every `resource_desc` produced by the native to
abstract conversion of a texture-1D descriptor has `texture.height = 1` and
`texture.samples = 1`; every one produced from a texture-3D descriptor has
`texture.samples = 1` and `texture.height` equal to the native `Height`. -/
theorem texture_1d_3d_height_and_samples :
    (∀ internal_desc desc, convert_resource_desc_from_texture1d internal_desc = some desc →
      desc.texture_height = 1 ∧ desc.texture_samples = 1) ∧
    (∀ internal_desc desc, convert_resource_desc_from_texture3d internal_desc = some desc →
      desc.texture_samples = 1 ∧ desc.texture_height = internal_desc.Height) := by
  refine ⟨?_, ?_⟩ <;> intro internal_desc desc h
  · simp only [convert_resource_desc_from_texture1d] at h
    split at h
    · split at h
      · cases h; exact ⟨rfl, rfl⟩
      · cases h
    · cases h
  · simp only [convert_resource_desc_from_texture3d] at h
    split at h
    · split at h
      · cases h; exact ⟨rfl, rfl⟩
      · cases h
    · cases h

/-- Claim C25 amended, at a 1D texture descriptor of width 64 with 4 layers. -/
theorem texture_1d_3d_height_and_samples_witness :
    ∃ desc, convert_resource_desc_from_texture1d
        { zeroed_texture1d_desc with Width := 64, MipLevels := 1, ArraySize := 4 } =
          some desc ∧
      desc.texture_height = 1 ∧ desc.texture_samples = 1 :=
  ⟨_, rfl, texture_1d_3d_height_and_samples.1
    { zeroed_texture1d_desc with Width := 64, MipLevels := 1, ArraySize := 4 } _ rfl⟩

/-! ## Failure conditions of the forward view translators -/

/-- Claim C26: the failure conditions of the forward view translators. The
depth-stencil and render-target translators are a contract violation exactly
when `desc.type = buffer` or `texture.levels ≠ 1`; the unordered-access
translator exactly when `desc.type ≠ buffer` and `texture.levels ≠ 1`, or
`desc.type = buffer` and `buffer.offset` or `buffer.size` exceeds `2^32 - 1`;
the shader-resource translator exactly when `desc.type = buffer` and
`buffer.offset` or `buffer.size` exceeds `2^32 - 1`. -/
theorem forward_view_failure_conditions (desc : resource_view_desc) :
    (∀ internal_desc, convert_resource_view_desc_to_dsv desc internal_desc = none ↔
      (desc.type = resource_view_type.buffer ∨ desc.texture_levels ≠ 1)) ∧
    (∀ internal_desc, convert_resource_view_desc_to_rtv desc internal_desc = none ↔
      (desc.type = resource_view_type.buffer ∨ desc.texture_levels ≠ 1)) ∧
    (∀ internal_desc, convert_resource_view_desc_to_uav desc internal_desc = none ↔
      ((desc.type ≠ resource_view_type.buffer ∧ desc.texture_levels ≠ 1) ∨
        (desc.type = resource_view_type.buffer ∧
          (desc.buffer_offset > 2 ^ 32 - 1 ∨ desc.buffer_size > 2 ^ 32 - 1)))) ∧
    (∀ internal_desc, convert_resource_view_desc_to_srv desc internal_desc = none ↔
      (desc.type = resource_view_type.buffer ∧
        (desc.buffer_offset > 2 ^ 32 - 1 ∨ desc.buffer_size > 2 ^ 32 - 1))) := by
  refine ⟨?_, ?_, ?_, ?_⟩ <;> intro internal_desc
  · by_cases hl : desc.texture_levels = 1 <;>
      rcases hd : desc with ⟨t, f, a, b, c, e⟩ <;> rw [hd] at hl <;> simp only at hl <;>
      cases t <;> simp [convert_resource_view_desc_to_dsv, hl]
  · by_cases hl : desc.texture_levels = 1 <;>
      rcases hd : desc with ⟨t, f, a, b, c, e⟩ <;> rw [hd] at hl <;> simp only at hl <;>
      cases t <;> simp [convert_resource_view_desc_to_rtv, hl]
  · by_cases hl : desc.texture_levels = 1 <;>
      by_cases ho : desc.buffer_offset ≤ 4294967295 <;>
      by_cases hs : desc.buffer_size ≤ 4294967295 <;>
      rcases hd : desc with ⟨t, f, a, b, c, e⟩ <;> rw [hd] at hl ho hs <;>
      simp only at hl <;>
      cases t <;> simp [convert_resource_view_desc_to_uav, UINT_MAX, hl, ho, hs] <;> omega
  · by_cases ho : desc.buffer_offset ≤ 4294967295 <;>
      by_cases hs : desc.buffer_size ≤ 4294967295 <;>
      rcases hd : desc with ⟨t, f, a, b, c, e⟩ <;> rw [hd] at ho hs <;>
      cases t <;> simp [convert_resource_view_desc_to_srv, UINT_MAX, ho, hs] <;> omega

/-! ## Native-only fields -/

/-- Claim C27: dropped native-only fields do not influence the abstract
result. Replacing the depth-stencil `Flags`, the buffer `Flags` of an
unordered-access view (base or versioned), the `BufferEx` `Flags` of a
shader-resource view (base or versioned), or the two `PlaneSlice` fields of a
versioned view, by any other content gives the same `resource_view_desc`. -/
theorem native_only_fields_are_dropped :
    (∀ (internal_desc : D3D11_DEPTH_STENCIL_VIEW_DESC) (flags : Nat),
      convert_resource_view_desc_from_dsv { internal_desc with Flags := flags } =
        convert_resource_view_desc_from_dsv internal_desc) ∧
    (∀ (internal_desc : D3D11_UNORDERED_ACCESS_VIEW_DESC) (flags : Nat),
      convert_resource_view_desc_from_uav { internal_desc with Buffer_Flags := flags } =
        convert_resource_view_desc_from_uav internal_desc) ∧
    (∀ (internal_desc : D3D11_UNORDERED_ACCESS_VIEW_DESC1) (flags plane plane_array : Nat),
      convert_resource_view_desc_from_uav1
          { internal_desc with
            Buffer_Flags := flags
            Texture2D_PlaneSlice := plane
            Texture2DArray_PlaneSlice := plane_array } =
        convert_resource_view_desc_from_uav1 internal_desc) ∧
    (∀ (internal_desc : D3D11_SHADER_RESOURCE_VIEW_DESC) (flags : Nat),
      convert_resource_view_desc_from_srv { internal_desc with BufferEx_Flags := flags } =
        convert_resource_view_desc_from_srv internal_desc) ∧
    (∀ (internal_desc : D3D11_SHADER_RESOURCE_VIEW_DESC1) (flags plane plane_array : Nat),
      convert_resource_view_desc_from_srv1
          { internal_desc with
            BufferEx_Flags := flags
            Texture2D_PlaneSlice := plane
            Texture2DArray_PlaneSlice := plane_array } =
        convert_resource_view_desc_from_srv1 internal_desc) ∧
    (∀ (internal_desc : D3D11_RENDER_TARGET_VIEW_DESC1) (plane plane_array : Nat),
      convert_resource_view_desc_from_rtv1
          { internal_desc with
            Texture2D_PlaneSlice := plane
            Texture2DArray_PlaneSlice := plane_array } =
        convert_resource_view_desc_from_rtv1 internal_desc) :=
  ⟨fun _ _ => rfl, fun _ _ => rfl, fun _ _ _ _ => rfl, fun _ _ => rfl,
    fun _ _ _ _ => rfl, fun _ _ _ => rfl⟩

/-! ## BUFFEREX views -/

/-- Claim C28: `BUFFEREX` is not turned into a plain buffer. For a native
shader-resource descriptor with `ViewDimension = BUFFEREX` (its element fields
being 32-bit values) the reverse conversion returns a description whose tag is
not `buffer` (it is the value-initialised tag, `unknown`), with
`buffer.offset = FirstElement` and `buffer.size = NumElements`; converting
that description forward again succeeds, writes `Format` and leaves
`ViewDimension` and everything else as it was, so it does not set
`D3D11_SRV_DIMENSION_BUFFER`. -/
theorem bufferex_is_not_a_buffer (native : D3D11_SHADER_RESOURCE_VIEW_DESC)
    (hdim : native.ViewDimension = D3D11_SRV_DIMENSION_BUFFEREX)
    (hfirst : native.BufferEx_FirstElement ≤ UINT_MAX)
    (hnum : native.BufferEx_NumElements ≤ UINT_MAX) :
    (convert_resource_view_desc_from_srv native).type ≠ resource_view_type.buffer ∧
    (convert_resource_view_desc_from_srv native).type =
      resource_view_desc.value_initialized.type ∧
    (convert_resource_view_desc_from_srv native).buffer_offset =
      native.BufferEx_FirstElement ∧
    (convert_resource_view_desc_from_srv native).buffer_size = native.BufferEx_NumElements ∧
    ∀ internal_desc,
      convert_resource_view_desc_to_srv (convert_resource_view_desc_from_srv native)
          internal_desc = some { internal_desc with Format := native.Format } ∧
      ∀ result,
        convert_resource_view_desc_to_srv (convert_resource_view_desc_from_srv native)
            internal_desc = some result →
        result.ViewDimension = internal_desc.ViewDimension := by
  simp only [UINT_MAX] at hfirst hnum
  have e1 : native.BufferEx_FirstElement % 4294967296 = native.BufferEx_FirstElement := by
    omega
  have e2 : native.BufferEx_NumElements % 4294967296 = native.BufferEx_NumElements := by
    omega
  have e3 : native.BufferEx_FirstElement / 4294967296 = 0 := by omega
  have e4 : native.BufferEx_NumElements / 4294967296 = 0 := by omega
  have hrev : convert_resource_view_desc_from_srv native =
      { type := resource_view_type.unknown
        format := native.Format
        texture_first_level := native.BufferEx_FirstElement
        texture_levels := 0
        texture_first_layer := native.BufferEx_NumElements
        texture_layers := 0 } := by
    simp [convert_resource_view_desc_from_srv, hdim, resource_view_desc.value_initialized,
      resource_view_desc.set_buffer_offset, resource_view_desc.set_buffer_size,
      e1, e2, e3, e4]
  rw [hrev]
  refine ⟨by simp, rfl, ?_, ?_, ?_⟩
  · simp [resource_view_desc.buffer_offset]
  · simp [resource_view_desc.buffer_size]
  · intro internal_desc
    refine ⟨by simp [convert_resource_view_desc_to_srv], ?_⟩
    intro result h
    simp [convert_resource_view_desc_to_srv] at h
    subst h
    rfl

/-- Claim C28, at a `BUFFEREX` descriptor with `FirstElement = 16` and
`NumElements = 64`. -/
theorem bufferex_is_not_a_buffer_witness :
    (convert_resource_view_desc_from_srv
        { zeroed_srv_desc with
          ViewDimension := D3D11_SRV_DIMENSION_BUFFEREX
          BufferEx_FirstElement := 16
          BufferEx_NumElements := 64
          BufferEx_Flags := 1 }).type ≠ resource_view_type.buffer ∧
    (convert_resource_view_desc_from_srv
        { zeroed_srv_desc with
          ViewDimension := D3D11_SRV_DIMENSION_BUFFEREX
          BufferEx_FirstElement := 16
          BufferEx_NumElements := 64
          BufferEx_Flags := 1 }).buffer_offset = 16 :=
  ⟨(bufferex_is_not_a_buffer
      { zeroed_srv_desc with
        ViewDimension := D3D11_SRV_DIMENSION_BUFFEREX
        BufferEx_FirstElement := 16
        BufferEx_NumElements := 64
        BufferEx_Flags := 1 } rfl (by decide) (by decide)).1,
    (bufferex_is_not_a_buffer
      { zeroed_srv_desc with
        ViewDimension := D3D11_SRV_DIMENSION_BUFFEREX
        BufferEx_FirstElement := 16
        BufferEx_NumElements := 64
        BufferEx_Flags := 1 } rfl (by decide) (by decide)).2.2.1⟩

/-! ## The sentinel comes only from the sentinel -/

/-- Claim C30: the sentinel is produced only from the sentinel. In the
shader-resource cube-array case, for a 32-bit `texture.layers` the forward
conversion yields `NumCubes = 0xFFFFFFFF` exactly when
`texture.layers = 0xFFFFFFFF` (a quotient by 6 is below the sentinel), and the
reverse conversion yields `texture.layers = 0xFFFFFFFF` exactly when
`NumCubes = 0xFFFFFFFF` (the wrapped product `NumCubes * 6` is even). -/
theorem sentinel_only_from_sentinel :
    (∀ (desc : resource_view_desc) (internal_desc native : D3D11_SHADER_RESOURCE_VIEW_DESC),
      desc.type = resource_view_type.texture_cube_array →
      desc.texture_layers ≤ UINT_MAX →
      convert_resource_view_desc_to_srv desc internal_desc = some native →
      (native.TextureCubeArray_NumCubes = 0xFFFFFFFF ↔ desc.texture_layers = 0xFFFFFFFF)) ∧
    (∀ native : D3D11_SHADER_RESOURCE_VIEW_DESC,
      native.ViewDimension = D3D11_SRV_DIMENSION_TEXTURECUBEARRAY →
      ((convert_resource_view_desc_from_srv native).texture_layers = 0xFFFFFFFF ↔
        native.TextureCubeArray_NumCubes = 0xFFFFFFFF)) ∧
    (∀ layers : Nat, layers ≤ UINT_MAX → layers / 6 ≠ 0xFFFFFFFF) ∧
    (∀ cubes : Nat, cubes * 6 % 2 ^ 32 % 2 = 0) := by
  refine ⟨?_, ?_, ?_, ?_⟩
  · intro desc internal_desc native htype hlayers h
    obtain ⟨t, f, a, b, c, e⟩ := desc
    simp only [UINT_MAX] at htype hlayers
    subst htype
    simp only [convert_resource_view_desc_to_srv, Option.some.injEq] at h
    subst h
    by_cases he : e = 0xFFFFFFFF
    · simp [he]
    · have h1 : e / 6 ≠ 4294967295 := by omega
      simp [he, h1]
  · intro native hdim
    by_cases hn : native.TextureCubeArray_NumCubes = 0xFFFFFFFF
    · simp [convert_resource_view_desc_from_srv, hdim, hn]
    · have h1 : native.TextureCubeArray_NumCubes * 6 % 4294967296 ≠ 4294967295 := by omega
      simp [convert_resource_view_desc_from_srv, hdim, hn, h1]
  · intro layers h
    simp only [UINT_MAX] at h
    omega
  · intro cubes
    omega

/-- Claim C30, at a cube-array description with 12 layers: `NumCubes` is 2,
not the sentinel. -/
theorem sentinel_only_from_sentinel_witness :
    ∃ native, convert_resource_view_desc_to_srv
        { type := resource_view_type.texture_cube_array, format := 28, texture_first_level := 0,
          texture_levels := 1, texture_first_layer := 0, texture_layers := 12 }
        zeroed_srv_desc = some native ∧
      (native.TextureCubeArray_NumCubes = 0xFFFFFFFF ↔ (12 : Nat) = 0xFFFFFFFF) :=
  ⟨_, rfl, sentinel_only_from_sentinel.1
    { type := resource_view_type.texture_cube_array, format := 28, texture_first_level := 0,
      texture_levels := 1, texture_first_layer := 0, texture_layers := 12 }
    zeroed_srv_desc _ rfl (by decide) rfl⟩

/-! ## Reverse output satisfies the forward preconditions -/

/-- A 32-bit value written to `buffer.offset` and `buffer.size` is read back
from both members. -/
theorem buffer_members_of_uint (desc : resource_view_desc) (offset size : Nat)
    (hoffset : offset ≤ UINT_MAX) (hsize : size ≤ UINT_MAX) :
    ((desc.set_buffer_offset offset).set_buffer_size size).buffer_offset = offset ∧
    ((desc.set_buffer_offset offset).set_buffer_size size).buffer_size = size := by
  simp only [UINT_MAX] at hoffset hsize
  simp only [resource_view_desc.set_buffer_offset, resource_view_desc.set_buffer_size,
    resource_view_desc.buffer_offset, resource_view_desc.buffer_size]
  omega

/-- Claim C31: the reverse output always satisfies the forward preconditions.
For every native view descriptor of the four base kinds, whatever its
`ViewDimension` (also one without a `case`), and every previous content of the
descriptor that is filled, the description returned by the native to abstract
translator is accepted by the abstract to native translator of the same kind:
a depth-stencil or render-target result never has the tag `buffer` and has
`texture.levels = 1`; an unordered-access result has `texture.levels = 1`
unless its tag is `buffer`; and in a shader-resource or unordered-access
result with the tag `buffer`, `buffer.offset` and `buffer.size` are the 32-bit
`FirstElement` and `NumElements`, so they fit in 32 bits. -/
theorem reverse_output_is_accepted :
    (∀ native internal_desc : D3D11_DEPTH_STENCIL_VIEW_DESC,
      (convert_resource_view_desc_to_dsv (convert_resource_view_desc_from_dsv native)
        internal_desc).isSome = true ∧
      (convert_resource_view_desc_from_dsv native).type ≠ resource_view_type.buffer ∧
      (convert_resource_view_desc_from_dsv native).texture_levels = 1) ∧
    (∀ native internal_desc : D3D11_RENDER_TARGET_VIEW_DESC,
      (convert_resource_view_desc_to_rtv (convert_resource_view_desc_from_rtv native)
        internal_desc).isSome = true ∧
      (convert_resource_view_desc_from_rtv native).type ≠ resource_view_type.buffer ∧
      (convert_resource_view_desc_from_rtv native).texture_levels = 1) ∧
    (∀ native internal_desc : D3D11_SHADER_RESOURCE_VIEW_DESC,
      native.Buffer_FirstElement ≤ UINT_MAX → native.Buffer_NumElements ≤ UINT_MAX →
      (convert_resource_view_desc_to_srv (convert_resource_view_desc_from_srv native)
        internal_desc).isSome = true ∧
      ((convert_resource_view_desc_from_srv native).type = resource_view_type.buffer →
        (convert_resource_view_desc_from_srv native).buffer_offset =
          native.Buffer_FirstElement ∧
        (convert_resource_view_desc_from_srv native).buffer_size =
          native.Buffer_NumElements ∧
        (convert_resource_view_desc_from_srv native).buffer_offset ≤ 2 ^ 32 - 1 ∧
        (convert_resource_view_desc_from_srv native).buffer_size ≤ 2 ^ 32 - 1)) ∧
    (∀ native internal_desc : D3D11_UNORDERED_ACCESS_VIEW_DESC,
      native.Buffer_FirstElement ≤ UINT_MAX → native.Buffer_NumElements ≤ UINT_MAX →
      (convert_resource_view_desc_to_uav (convert_resource_view_desc_from_uav native)
        internal_desc).isSome = true ∧
      ((convert_resource_view_desc_from_uav native).type ≠ resource_view_type.buffer →
        (convert_resource_view_desc_from_uav native).texture_levels = 1) ∧
      ((convert_resource_view_desc_from_uav native).type = resource_view_type.buffer →
        (convert_resource_view_desc_from_uav native).buffer_offset =
          native.Buffer_FirstElement ∧
        (convert_resource_view_desc_from_uav native).buffer_size =
          native.Buffer_NumElements ∧
        (convert_resource_view_desc_from_uav native).buffer_offset ≤ 2 ^ 32 - 1 ∧
        (convert_resource_view_desc_from_uav native).buffer_size ≤ 2 ^ 32 - 1)) := by
  refine ⟨?_, ?_, ?_, ?_⟩
  · intro native internal_desc
    cases hdim : native.ViewDimension <;>
      simp [convert_resource_view_desc_to_dsv, convert_resource_view_desc_from_dsv, hdim,
        resource_view_desc.value_initialized]
  · intro native internal_desc
    cases hdim : native.ViewDimension <;>
      simp [convert_resource_view_desc_to_rtv, convert_resource_view_desc_from_rtv, hdim,
        resource_view_desc.value_initialized]
  · intro native internal_desc hfirst hnum
    have hb := buffer_members_of_uint
      { resource_view_desc.value_initialized with
        format := native.Format, type := resource_view_type.buffer }
      native.Buffer_FirstElement native.Buffer_NumElements hfirst hnum
    simp only [UINT_MAX] at hfirst hnum
    cases hdim : native.ViewDimension
    case D3D11_SRV_DIMENSION_BUFFER =>
      have hrev : convert_resource_view_desc_from_srv native =
          (({ resource_view_desc.value_initialized with
              format := native.Format, type := resource_view_type.buffer
            } : resource_view_desc).set_buffer_offset native.Buffer_FirstElement).set_buffer_size
            native.Buffer_NumElements := by
        simp [convert_resource_view_desc_from_srv, hdim]
      rw [hrev]
      have ht : ((({ resource_view_desc.value_initialized with
              format := native.Format, type := resource_view_type.buffer
            } : resource_view_desc).set_buffer_offset native.Buffer_FirstElement).set_buffer_size
            native.Buffer_NumElements).type = resource_view_type.buffer := rfl
      refine ⟨?_, fun _ => ⟨hb.1, hb.2, ?_, ?_⟩⟩
      · simp only [convert_resource_view_desc_to_srv, ht, hb.1, hb.2, UINT_MAX]
        simp [hfirst, hnum]
      · rw [hb.1]; omega
      · rw [hb.2]; omega
    all_goals
      simp [convert_resource_view_desc_to_srv, convert_resource_view_desc_from_srv, hdim,
        resource_view_desc.value_initialized, resource_view_desc.set_buffer_offset,
        resource_view_desc.set_buffer_size]
  · intro native internal_desc hfirst hnum
    have hb := buffer_members_of_uint
      { resource_view_desc.value_initialized with
        format := native.Format, texture_levels := 1, type := resource_view_type.buffer }
      native.Buffer_FirstElement native.Buffer_NumElements hfirst hnum
    simp only [UINT_MAX] at hfirst hnum
    cases hdim : native.ViewDimension
    case D3D11_UAV_DIMENSION_BUFFER =>
      have hrev : convert_resource_view_desc_from_uav native =
          (({ resource_view_desc.value_initialized with
              format := native.Format, texture_levels := 1,
              type := resource_view_type.buffer
            } : resource_view_desc).set_buffer_offset native.Buffer_FirstElement).set_buffer_size
            native.Buffer_NumElements := by
        simp [convert_resource_view_desc_from_uav, hdim]
      rw [hrev]
      have ht : ((({ resource_view_desc.value_initialized with
              format := native.Format, texture_levels := 1,
              type := resource_view_type.buffer
            } : resource_view_desc).set_buffer_offset native.Buffer_FirstElement).set_buffer_size
            native.Buffer_NumElements).type = resource_view_type.buffer := rfl
      refine ⟨?_, fun h => absurd ht h, fun _ => ⟨hb.1, hb.2, ?_, ?_⟩⟩
      · simp only [convert_resource_view_desc_to_uav, ht, hb.1, hb.2, UINT_MAX]
        simp [hfirst, hnum]
      · rw [hb.1]; omega
      · rw [hb.2]; omega
    all_goals
      simp [convert_resource_view_desc_to_uav, convert_resource_view_desc_from_uav, hdim,
        resource_view_desc.value_initialized]

/-- Claim C31, at an unordered-access buffer view with `FirstElement = 16`
and `NumElements = 64`: the description that comes back is accepted by the
forward translator and its `buffer.offset` is 16. -/
theorem reverse_output_is_accepted_witness :
    (convert_resource_view_desc_to_uav
      (convert_resource_view_desc_from_uav
        { zeroed_uav_desc with
          ViewDimension := D3D11_UAV_DIMENSION_BUFFER
          Buffer_FirstElement := 16
          Buffer_NumElements := 64 })
      zeroed_uav_desc).isSome = true ∧
    (convert_resource_view_desc_from_uav
      { zeroed_uav_desc with
        ViewDimension := D3D11_UAV_DIMENSION_BUFFER
        Buffer_FirstElement := 16
        Buffer_NumElements := 64 }).buffer_offset = 16 :=
  ⟨(reverse_output_is_accepted.2.2.2
      { zeroed_uav_desc with
        ViewDimension := D3D11_UAV_DIMENSION_BUFFER
        Buffer_FirstElement := 16
        Buffer_NumElements := 64 }
      zeroed_uav_desc (by decide) (by decide)).1,
    ((reverse_output_is_accepted.2.2.2
      { zeroed_uav_desc with
        ViewDimension := D3D11_UAV_DIMENSION_BUFFER
        Buffer_FirstElement := 16
        Buffer_NumElements := 64 }
      zeroed_uav_desc (by decide) (by decide)).2.2 rfl).1⟩

/-! ## Versioned and base view translators -/

/-- The field `Texture2D.PlaneSlice` of a versioned descriptor shares its word
with fields of other members: a `texture_3d` description converted into a
stored versioned render-target descriptor whose payload words are 10, 11, 12
and 13 leaves `Texture3D.FirstWSlice`, 3, in `Texture2D.PlaneSlice`, and a
`texture_2d_array` description leaves `Texture2DArray.FirstArraySlice` there;
`Texture2DArray.PlaneSlice`, the last word, keeps its 13. -/
theorem texture2d_plane_slice_shares_storage :
    (∃ result,
      convert_resource_view_desc_to_rtv1_stored
        { type := resource_view_type.texture_3d, format := 28, texture_first_level := 2,
          texture_levels := 1, texture_first_layer := 3, texture_layers := 4 }
        numbered_rtv_desc1_stored = some result ∧
      numbered_rtv_desc1_stored.Texture2D_PlaneSlice = 11 ∧
      result.Texture2D_PlaneSlice = 3 ∧
      result.Texture2DArray_PlaneSlice = 13) ∧
    (∃ result,
      convert_resource_view_desc_to_rtv1_stored
        { type := resource_view_type.texture_2d_array, format := 28,
          texture_first_level := 2, texture_levels := 1, texture_first_layer := 3,
          texture_layers := 4 }
        numbered_rtv_desc1_stored = some result ∧
      result.Texture2D_PlaneSlice = 3 ∧
      result.Texture2DArray_PlaneSlice = 13) :=
  ⟨⟨_, rfl, rfl, rfl, rfl⟩, ⟨_, rfl, rfl, rfl⟩⟩

/-- Claim C16: the versioned and the base view translators agree, on stored
descriptors. For the render-target, shader-resource and unordered-access
kinds, every description and every previous content of the versioned
descriptor: the versioned forward translator fails exactly when the base
translator fails on the leading words; when it completes, the leading words
(`Format`, `ViewDimension` and the payload shared with the base descriptor)
are what the base translator writes and the last word, which holds
`Texture2DArray.PlaneSlice`, keeps its content; for a `texture_2d`
description `Texture2D.PlaneSlice` keeps its content as well. The versioned
reverse translator returns what the base reverse translator returns on the
leading words. -/
theorem versioned_translators_agree_on_stored :
    (∀ desc (internal_desc : D3D11_RENDER_TARGET_VIEW_DESC1_stored),
      ((convert_resource_view_desc_to_rtv1_stored desc internal_desc).isSome =
        (convert_resource_view_desc_to_rtv_stored desc
          internal_desc.toD3D11_RENDER_TARGET_VIEW_DESC_stored).isSome) ∧
      (∀ result, convert_resource_view_desc_to_rtv1_stored desc internal_desc = some result →
        convert_resource_view_desc_to_rtv_stored desc
            internal_desc.toD3D11_RENDER_TARGET_VIEW_DESC_stored =
          some result.toD3D11_RENDER_TARGET_VIEW_DESC_stored ∧
        result.Texture2DArray_PlaneSlice = internal_desc.Texture2DArray_PlaneSlice ∧
        (desc.type = resource_view_type.texture_2d →
          result.Texture2D_PlaneSlice = internal_desc.Texture2D_PlaneSlice))) ∧
    (∀ desc (internal_desc : D3D11_SHADER_RESOURCE_VIEW_DESC1_stored),
      ((convert_resource_view_desc_to_srv1_stored desc internal_desc).isSome =
        (convert_resource_view_desc_to_srv_stored desc
          internal_desc.toD3D11_SHADER_RESOURCE_VIEW_DESC_stored).isSome) ∧
      (∀ result, convert_resource_view_desc_to_srv1_stored desc internal_desc = some result →
        convert_resource_view_desc_to_srv_stored desc
            internal_desc.toD3D11_SHADER_RESOURCE_VIEW_DESC_stored =
          some result.toD3D11_SHADER_RESOURCE_VIEW_DESC_stored ∧
        result.Texture2DArray_PlaneSlice = internal_desc.Texture2DArray_PlaneSlice ∧
        (desc.type = resource_view_type.texture_2d →
          result.Texture2D_PlaneSlice = internal_desc.Texture2D_PlaneSlice))) ∧
    (∀ desc (internal_desc : D3D11_UNORDERED_ACCESS_VIEW_DESC1_stored),
      ((convert_resource_view_desc_to_uav1_stored desc internal_desc).isSome =
        (convert_resource_view_desc_to_uav_stored desc
          internal_desc.toD3D11_UNORDERED_ACCESS_VIEW_DESC_stored).isSome) ∧
      (∀ result, convert_resource_view_desc_to_uav1_stored desc internal_desc = some result →
        convert_resource_view_desc_to_uav_stored desc
            internal_desc.toD3D11_UNORDERED_ACCESS_VIEW_DESC_stored =
          some result.toD3D11_UNORDERED_ACCESS_VIEW_DESC_stored ∧
        result.Texture2DArray_PlaneSlice = internal_desc.Texture2DArray_PlaneSlice ∧
        (desc.type = resource_view_type.texture_2d →
          result.Texture2D_PlaneSlice = internal_desc.Texture2D_PlaneSlice))) ∧
    (∀ internal_desc : D3D11_RENDER_TARGET_VIEW_DESC1_stored,
      convert_resource_view_desc_from_rtv1_stored internal_desc =
        convert_resource_view_desc_from_rtv_stored
          internal_desc.toD3D11_RENDER_TARGET_VIEW_DESC_stored) ∧
    (∀ internal_desc : D3D11_SHADER_RESOURCE_VIEW_DESC1_stored,
      convert_resource_view_desc_from_srv1_stored internal_desc =
        convert_resource_view_desc_from_srv_stored
          internal_desc.toD3D11_SHADER_RESOURCE_VIEW_DESC_stored) ∧
    (∀ internal_desc : D3D11_UNORDERED_ACCESS_VIEW_DESC1_stored,
      convert_resource_view_desc_from_uav1_stored internal_desc =
        convert_resource_view_desc_from_uav_stored
          internal_desc.toD3D11_UNORDERED_ACCESS_VIEW_DESC_stored) := by
  refine ⟨?_, ?_, ?_, ?_, ?_, ?_⟩
  · intro desc internal_desc
    obtain ⟨t, f, a, b, c, e⟩ := desc
    refine ⟨?_, ?_⟩
    · by_cases hb : b = 1 <;> cases t <;>
        simp [convert_resource_view_desc_to_rtv1_stored,
          convert_resource_view_desc_to_rtv_stored, D3D11_RENDER_TARGET_VIEW_DESC1_stored.set,
          D3D11_RENDER_TARGET_VIEW_DESC_stored.set, D3D11_RENDER_TARGET_VIEW_DESC_stored.set_word,
          rtv_field.word, D3D11_RENDER_TARGET_VIEW_DESC1_stored.Texture2D_PlaneSlice,
          D3D11_RENDER_TARGET_VIEW_DESC1_stored.Texture2DArray_PlaneSlice, hb]
    · intro result h
      by_cases hb : b = 1 <;> cases t <;>
        simp [convert_resource_view_desc_to_rtv1_stored,
          convert_resource_view_desc_to_rtv_stored, D3D11_RENDER_TARGET_VIEW_DESC1_stored.set,
          D3D11_RENDER_TARGET_VIEW_DESC_stored.set, D3D11_RENDER_TARGET_VIEW_DESC_stored.set_word,
          rtv_field.word, D3D11_RENDER_TARGET_VIEW_DESC1_stored.Texture2D_PlaneSlice,
          D3D11_RENDER_TARGET_VIEW_DESC1_stored.Texture2DArray_PlaneSlice, hb] at h ⊢ <;>
        subst h <;>
        simp_all
  · intro desc internal_desc
    obtain ⟨t, f, a, b, c, e⟩ := desc
    refine ⟨?_, ?_⟩
    · cases t <;>
        simp [convert_resource_view_desc_to_srv1_stored,
          convert_resource_view_desc_to_srv_stored, D3D11_SHADER_RESOURCE_VIEW_DESC1_stored.set,
          D3D11_SHADER_RESOURCE_VIEW_DESC_stored.set,
          D3D11_SHADER_RESOURCE_VIEW_DESC_stored.set_word,
          srv_field.word, D3D11_SHADER_RESOURCE_VIEW_DESC1_stored.Texture2D_PlaneSlice,
          D3D11_SHADER_RESOURCE_VIEW_DESC1_stored.Texture2DArray_PlaneSlice]
    · intro result h
      cases t <;>
        simp [convert_resource_view_desc_to_srv1_stored,
          convert_resource_view_desc_to_srv_stored, D3D11_SHADER_RESOURCE_VIEW_DESC1_stored.set,
          D3D11_SHADER_RESOURCE_VIEW_DESC_stored.set,
          D3D11_SHADER_RESOURCE_VIEW_DESC_stored.set_word,
          srv_field.word, D3D11_SHADER_RESOURCE_VIEW_DESC1_stored.Texture2D_PlaneSlice,
          D3D11_SHADER_RESOURCE_VIEW_DESC1_stored.Texture2DArray_PlaneSlice] at h ⊢ <;>
        (first
          | subst h
          | (obtain ⟨_, ⟨h1, h2, rfl⟩, rfl⟩ := h; exact ⟨⟨h1, h2, rfl⟩, rfl⟩)) <;>
        simp_all
  · intro desc internal_desc
    obtain ⟨t, f, a, b, c, e⟩ := desc
    refine ⟨?_, ?_⟩
    · by_cases hb : b = 1 <;> cases t <;>
        simp [convert_resource_view_desc_to_uav1_stored,
          convert_resource_view_desc_to_uav_stored, D3D11_UNORDERED_ACCESS_VIEW_DESC1_stored.set,
          D3D11_UNORDERED_ACCESS_VIEW_DESC_stored.set,
          D3D11_UNORDERED_ACCESS_VIEW_DESC_stored.set_word,
          uav_field.word, D3D11_UNORDERED_ACCESS_VIEW_DESC1_stored.Texture2D_PlaneSlice,
          D3D11_UNORDERED_ACCESS_VIEW_DESC1_stored.Texture2DArray_PlaneSlice, hb]
    · intro result h
      by_cases hb : b = 1 <;> cases t <;>
        simp [convert_resource_view_desc_to_uav1_stored,
          convert_resource_view_desc_to_uav_stored, D3D11_UNORDERED_ACCESS_VIEW_DESC1_stored.set,
          D3D11_UNORDERED_ACCESS_VIEW_DESC_stored.set,
          D3D11_UNORDERED_ACCESS_VIEW_DESC_stored.set_word,
          uav_field.word, D3D11_UNORDERED_ACCESS_VIEW_DESC1_stored.Texture2D_PlaneSlice,
          D3D11_UNORDERED_ACCESS_VIEW_DESC1_stored.Texture2DArray_PlaneSlice, hb] at h ⊢ <;>
        (first
          | subst h
          | (obtain ⟨_, ⟨h1, h2, rfl⟩, rfl⟩ := h; exact ⟨⟨h1, h2, rfl⟩, rfl⟩)) <;>
        simp_all
  · intro internal_desc
    cases hdim : internal_desc.ViewDimension <;>
      simp [convert_resource_view_desc_from_rtv1_stored,
        convert_resource_view_desc_from_rtv_stored,
        D3D11_RENDER_TARGET_VIEW_DESC1_stored.get, hdim]
  · intro internal_desc
    cases hdim : internal_desc.ViewDimension <;>
      simp [convert_resource_view_desc_from_srv1_stored,
        convert_resource_view_desc_from_srv_stored,
        D3D11_SHADER_RESOURCE_VIEW_DESC1_stored.get, hdim]
  · intro internal_desc
    cases hdim : internal_desc.ViewDimension <;>
      simp [convert_resource_view_desc_from_uav1_stored,
        convert_resource_view_desc_from_uav_stored,
        D3D11_UNORDERED_ACCESS_VIEW_DESC1_stored.get, hdim]

/-- Claim C16, at a `texture_2d` description and a stored versioned
render-target descriptor whose payload words are 10, 11, 12 and 13: the
leading words of the result are what the base translator writes, and
`Texture2DArray.PlaneSlice` and `Texture2D.PlaneSlice` still hold 13 and 11. -/
theorem versioned_translators_agree_on_stored_witness :
    ∃ result,
      convert_resource_view_desc_to_rtv1_stored
        { type := resource_view_type.texture_2d, format := 28, texture_first_level := 2,
          texture_levels := 1, texture_first_layer := 3, texture_layers := 4 }
        numbered_rtv_desc1_stored = some result ∧
      convert_resource_view_desc_to_rtv_stored
        { type := resource_view_type.texture_2d, format := 28, texture_first_level := 2,
          texture_levels := 1, texture_first_layer := 3, texture_layers := 4 }
        numbered_rtv_desc1_stored.toD3D11_RENDER_TARGET_VIEW_DESC_stored =
          some result.toD3D11_RENDER_TARGET_VIEW_DESC_stored ∧
      result.Texture2DArray_PlaneSlice = 13 ∧
      result.Texture2D_PlaneSlice = 11 :=
  ⟨_, rfl,
    ((versioned_translators_agree_on_stored.1
      { type := resource_view_type.texture_2d, format := 28, texture_first_level := 2,
        texture_levels := 1, texture_first_layer := 3, texture_layers := 4 }
      numbered_rtv_desc1_stored).2 _ rfl).1,
    ((versioned_translators_agree_on_stored.1
      { type := resource_view_type.texture_2d, format := 28, texture_first_level := 2,
        texture_levels := 1, texture_first_layer := 3, texture_layers := 4 }
      numbered_rtv_desc1_stored).2 _ rfl).2.1,
    ((versioned_translators_agree_on_stored.1
      { type := resource_view_type.texture_2d, format := 28, texture_first_level := 2,
        texture_levels := 1, texture_first_layer := 3, texture_layers := 4 }
      numbered_rtv_desc1_stored).2 _ rfl).2.2 rfl⟩

/-! ## Frame of the forward view translators -/

/-- Claim C17, as stated, fails on the stored descriptor: the shader-resource
translator run on a `texture_2d_array` description assigns the four fields of
the member `Texture2DArray`, and afterwards `Buffer.FirstElement` and
`Texture1D.MipLevels`, which that `case` does not assign, have changed as
well, because they are stored in the same words. -/
theorem forward_view_changes_overlapping_members :
    ∃ result,
      convert_resource_view_desc_to_srv_stored
        { type := resource_view_type.texture_2d_array, format := 28,
          texture_first_level := 2, texture_levels := 1, texture_first_layer := 3,
          texture_layers := 4 }
        zeroed_srv_desc_stored = some result ∧
      srv_field.Buffer_FirstElement ∉ srv_case_fields resource_view_type.texture_2d_array ∧
      srv_field.Texture1D_MipLevels ∉ srv_case_fields resource_view_type.texture_2d_array ∧
      zeroed_srv_desc_stored.get srv_field.Buffer_FirstElement = 0 ∧
      result.get srv_field.Buffer_FirstElement = 2 ∧
      zeroed_srv_desc_stored.get srv_field.Texture1D_MipLevels = 0 ∧
      result.get srv_field.Texture1D_MipLevels = 1 := by
  refine ⟨_, rfl, ?_, ?_, ?_, ?_, ?_, ?_⟩ <;> decide

/-- Claim C17, amended: the forward view conversion writes only the words of
the matching case. For every base translator, every description and every
previous content of the stored descriptor, after a call that completes
`Format` holds the format of the description, every word of the payload at
which the `case` of `desc.type` assigns no field keeps its previous content,
so every member field that shares no word with an assigned field reads what it
read before, while a member field stored in the word of an assigned field
reads what that field holds; when `desc.type` has no `case` in the
translator, everything but `Format` keeps its previous content; and the
depth-stencil `Flags` field is never modified. -/
theorem forward_view_conversion_word_frame (desc : resource_view_desc) :
    (∀ internal_desc result,
      convert_resource_view_desc_to_dsv_stored desc internal_desc = some result →
      result.Format = desc.format ∧
      result.Flags = internal_desc.Flags ∧
      (∀ offset, (∀ assigned ∈ dsv_case_fields desc.type, assigned.word ≠ offset) →
        result.word offset = internal_desc.word offset) ∧
      (∀ field, (∀ assigned ∈ dsv_case_fields desc.type, assigned.word ≠ field.word) →
        result.get field = internal_desc.get field) ∧
      (∀ field assigned, assigned ∈ dsv_case_fields desc.type →
        assigned.word = field.word → result.get field = result.get assigned) ∧
      (dsv_case_reads desc.type = none →
        result = { internal_desc with Format := desc.format })) ∧
    (∀ internal_desc result,
      convert_resource_view_desc_to_rtv_stored desc internal_desc = some result →
      result.Format = desc.format ∧
      (∀ offset, (∀ assigned ∈ rtv_case_fields desc.type, assigned.word ≠ offset) →
        result.word offset = internal_desc.word offset) ∧
      (∀ field, (∀ assigned ∈ rtv_case_fields desc.type, assigned.word ≠ field.word) →
        result.get field = internal_desc.get field) ∧
      (∀ field assigned, assigned ∈ rtv_case_fields desc.type →
        assigned.word = field.word → result.get field = result.get assigned) ∧
      (rtv_case_reads desc.type = none →
        result = { internal_desc with Format := desc.format })) ∧
    (∀ internal_desc result,
      convert_resource_view_desc_to_srv_stored desc internal_desc = some result →
      result.Format = desc.format ∧
      (∀ offset, (∀ assigned ∈ srv_case_fields desc.type, assigned.word ≠ offset) →
        result.word offset = internal_desc.word offset) ∧
      (∀ field, (∀ assigned ∈ srv_case_fields desc.type, assigned.word ≠ field.word) →
        result.get field = internal_desc.get field) ∧
      (∀ field assigned, assigned ∈ srv_case_fields desc.type →
        assigned.word = field.word → result.get field = result.get assigned) ∧
      (srv_case_reads desc.type = none →
        result = { internal_desc with Format := desc.format })) ∧
    (∀ internal_desc result,
      convert_resource_view_desc_to_uav_stored desc internal_desc = some result →
      result.Format = desc.format ∧
      (∀ offset, (∀ assigned ∈ uav_case_fields desc.type, assigned.word ≠ offset) →
        result.word offset = internal_desc.word offset) ∧
      (∀ field, (∀ assigned ∈ uav_case_fields desc.type, assigned.word ≠ field.word) →
        result.get field = internal_desc.get field) ∧
      (∀ field assigned, assigned ∈ uav_case_fields desc.type →
        assigned.word = field.word → result.get field = result.get assigned) ∧
      (uav_case_reads desc.type = none →
        result = { internal_desc with Format := desc.format })) := by
  obtain ⟨t, f, a, b, c, e⟩ := desc
  refine ⟨?_, ?_, ?_, ?_⟩ <;> intro internal_desc result h
  · have hb : b = 1 := by
      by_contra hb
      simp [convert_resource_view_desc_to_dsv_stored, hb] at h
    have hw : ∀ offset, (∀ assigned ∈ dsv_case_fields t, assigned.word ≠ offset) →
        result.word offset = internal_desc.word offset := by
      intro offset hoff
      cases t <;>
        simp [convert_resource_view_desc_to_dsv_stored, hb,
          D3D11_DEPTH_STENCIL_VIEW_DESC_stored.set,
          D3D11_DEPTH_STENCIL_VIEW_DESC_stored.set_word, dsv_field.word] at h <;>
        subst h <;>
        simp [dsv_case_fields, dsv_field.word] at hoff <;>
        rcases offset with _ | _ | _ | _ | offset <;>
        simp_all [D3D11_DEPTH_STENCIL_VIEW_DESC_stored.word]
    refine ⟨?_, ?_, hw, fun field hf => hw field.word hf,
      fun field assigned _ hword => by
        simp only [D3D11_DEPTH_STENCIL_VIEW_DESC_stored.get, hword],
      ?_⟩
    · cases t <;>
        simp [convert_resource_view_desc_to_dsv_stored, hb,
          D3D11_DEPTH_STENCIL_VIEW_DESC_stored.set,
          D3D11_DEPTH_STENCIL_VIEW_DESC_stored.set_word, dsv_field.word] at h <;>
        subst h <;> rfl
    · cases t <;>
        simp [convert_resource_view_desc_to_dsv_stored, hb,
          D3D11_DEPTH_STENCIL_VIEW_DESC_stored.set,
          D3D11_DEPTH_STENCIL_VIEW_DESC_stored.set_word, dsv_field.word] at h <;>
        subst h <;> rfl
    · cases t <;>
        simp [convert_resource_view_desc_to_dsv_stored, hb, dsv_case_reads] at h ⊢ <;>
        exact h.symm
  · have hb : b = 1 := by
      by_contra hb
      simp [convert_resource_view_desc_to_rtv_stored, hb] at h
    have hw : ∀ offset, (∀ assigned ∈ rtv_case_fields t, assigned.word ≠ offset) →
        result.word offset = internal_desc.word offset := by
      intro offset hoff
      cases t <;>
        simp [convert_resource_view_desc_to_rtv_stored, hb,
          D3D11_RENDER_TARGET_VIEW_DESC_stored.set,
          D3D11_RENDER_TARGET_VIEW_DESC_stored.set_word, rtv_field.word] at h <;>
        subst h <;>
        simp [rtv_case_fields, rtv_field.word] at hoff <;>
        rcases offset with _ | _ | _ | _ | offset <;>
        simp_all [D3D11_RENDER_TARGET_VIEW_DESC_stored.word]
    refine ⟨?_, hw, fun field hf => hw field.word hf,
      fun field assigned _ hword => by
        simp only [D3D11_RENDER_TARGET_VIEW_DESC_stored.get, hword],
      ?_⟩
    · cases t <;>
        simp [convert_resource_view_desc_to_rtv_stored, hb,
          D3D11_RENDER_TARGET_VIEW_DESC_stored.set,
          D3D11_RENDER_TARGET_VIEW_DESC_stored.set_word, rtv_field.word] at h <;>
        subst h <;> rfl
    · cases t <;>
        simp [convert_resource_view_desc_to_rtv_stored, hb, rtv_case_reads] at h ⊢ <;>
        exact h.symm
  · have hw : ∀ offset, (∀ assigned ∈ srv_case_fields t, assigned.word ≠ offset) →
        result.word offset = internal_desc.word offset := by
      intro offset hoff
      cases t <;>
        simp [convert_resource_view_desc_to_srv_stored,
          D3D11_SHADER_RESOURCE_VIEW_DESC_stored.set,
          D3D11_SHADER_RESOURCE_VIEW_DESC_stored.set_word, srv_field.word] at h <;>
        (first
          | subst h
          | (obtain ⟨_, _, h⟩ := h; subst h)) <;>
        simp [srv_case_fields, srv_field.word] at hoff <;>
        rcases offset with _ | _ | _ | _ | offset <;>
        simp_all [D3D11_SHADER_RESOURCE_VIEW_DESC_stored.word]
    refine ⟨?_, hw, fun field hf => hw field.word hf,
      fun field assigned _ hword => by
        simp only [D3D11_SHADER_RESOURCE_VIEW_DESC_stored.get, hword],
      ?_⟩
    · cases t <;>
        simp [convert_resource_view_desc_to_srv_stored,
          D3D11_SHADER_RESOURCE_VIEW_DESC_stored.set,
          D3D11_SHADER_RESOURCE_VIEW_DESC_stored.set_word, srv_field.word] at h <;>
        (first
          | subst h
          | (obtain ⟨_, _, h⟩ := h; subst h)) <;> rfl
    · cases t <;>
        simp [convert_resource_view_desc_to_srv_stored, srv_case_reads] at h ⊢
      exact h.symm
  · have hw : ∀ offset, (∀ assigned ∈ uav_case_fields t, assigned.word ≠ offset) →
        result.word offset = internal_desc.word offset := by
      intro offset hoff
      cases t <;>
        simp [convert_resource_view_desc_to_uav_stored,
          D3D11_UNORDERED_ACCESS_VIEW_DESC_stored.set,
          D3D11_UNORDERED_ACCESS_VIEW_DESC_stored.set_word, uav_field.word] at h <;>
        (first
          | subst h
          | (obtain ⟨_, h⟩ := h; subst h)
          | (obtain ⟨_, _, h⟩ := h; subst h)) <;>
        simp [uav_case_fields, uav_field.word] at hoff <;>
        rcases offset with _ | _ | _ | _ | offset <;>
        simp_all [D3D11_UNORDERED_ACCESS_VIEW_DESC_stored.word]
    refine ⟨?_, hw, fun field hf => hw field.word hf,
      fun field assigned _ hword => by
        simp only [D3D11_UNORDERED_ACCESS_VIEW_DESC_stored.get, hword],
      ?_⟩
    · cases t <;>
        simp [convert_resource_view_desc_to_uav_stored,
          D3D11_UNORDERED_ACCESS_VIEW_DESC_stored.set,
          D3D11_UNORDERED_ACCESS_VIEW_DESC_stored.set_word, uav_field.word] at h <;>
        (first
          | subst h
          | (obtain ⟨_, h⟩ := h; subst h)
          | (obtain ⟨_, _, h⟩ := h; subst h)) <;> rfl
    · cases t <;>
        simp [convert_resource_view_desc_to_uav_stored, uav_case_reads] at h ⊢ <;>
        (first | exact h.symm | exact h.2.symm)

/-- Claim C17 amended, at a `texture_2d` description and a stored
shader-resource descriptor whose payload words are 10, 11, 12 and 13: the
`case` assigns the two fields of `Texture2D`, stored in the first two words;
the third word still holds 12 and `TextureCubeArray.NumCubes`, stored in the
fourth word, still reads 13. -/
theorem forward_view_conversion_word_frame_witness :
    ∃ result,
      convert_resource_view_desc_to_srv_stored
        { type := resource_view_type.texture_2d, format := 28, texture_first_level := 2,
          texture_levels := 1, texture_first_layer := 3, texture_layers := 4 }
        numbered_srv_desc_stored = some result ∧
      result.word 2 = 12 ∧
      result.get srv_field.TextureCubeArray_NumCubes = 13 :=
  ⟨_, rfl,
    ((forward_view_conversion_word_frame
      { type := resource_view_type.texture_2d, format := 28, texture_first_level := 2,
        texture_levels := 1, texture_first_layer := 3, texture_layers := 4 }).2.2.1
      numbered_srv_desc_stored _ rfl).2.1 2 (by decide),
    ((forward_view_conversion_word_frame
      { type := resource_view_type.texture_2d, format := 28, texture_first_level := 2,
        texture_levels := 1, texture_first_layer := 3, texture_layers := 4 }).2.2.1
      numbered_srv_desc_stored _ rfl).2.2.1 srv_field.TextureCubeArray_NumCubes (by decide)⟩

/-! ## Texture-2D resource description round trip -/

/-- Restricting a word to a mask that contains `m` does not change its
intersection with `m`. -/
theorem and_and_of_and_eq (U M m : Nat) (hm : M &&& m = m) : (U &&& M) &&& m = U &&& m := by
  rw [Nat.and_assoc, hm]

/-- The usage that comes back from a usage converted to bind flags (into a
32-bit word) and back into an empty usage: the masks whose test succeeds on
the original usage, and the two copy masks. -/
theorem usage_roundtrip_closed_form (U B0 : Nat) (hB0 : B0 < 2 ^ 32) :
    convert_bind_flags_to_resource_usage (convert_resource_usage_to_bind_flags U B0) 0 =
      bind_mapped_usage
        (decide ((U &&& resource_usage.render_target) ≠ 0))
        (decide ((U &&& resource_usage.depth_stencil) ≠ 0))
        (decide ((U &&& resource_usage.shader_resource) ≠ 0))
        (decide ((U &&& resource_usage.unordered_access) ≠ 0))
        (decide ((U &&& resource_usage.index_buffer) ≠ 0))
        (decide ((U &&& resource_usage.vertex_buffer) ≠ 0))
        (decide ((U &&& resource_usage.constant_buffer) ≠ 0)) |||
      (resource_usage.copy_source ||| resource_usage.copy_dest) := by
  obtain ⟨h1, h2, h3, h4, h5, h6, h7⟩ := bind_flag_iff_usage U B0 hB0
  rw [convert_bind_flags_to_resource_usage_eq, decide_eq_decide.mpr h1,
    decide_eq_decide.mpr h2, decide_eq_decide.mpr h3, decide_eq_decide.mpr h4,
    decide_eq_decide.mpr h5, decide_eq_decide.mpr h6, decide_eq_decide.mpr h7,
    (bind_mapped_usage_projections _ _ _ _ _ _ _).1, Nat.or_comm]

/-- On a usage whose mapped part is a union of whole masks, the seven tests
return that union. -/
theorem bind_mapped_usage_of_tests (U : Nat) (rt ds sr ua ib vb cb : Bool)
    (hU : U &&& resource_usage_bind_mapped = bind_mapped_usage rt ds sr ua ib vb cb) :
    bind_mapped_usage
        (decide ((U &&& resource_usage.render_target) ≠ 0))
        (decide ((U &&& resource_usage.depth_stencil) ≠ 0))
        (decide ((U &&& resource_usage.shader_resource) ≠ 0))
        (decide ((U &&& resource_usage.unordered_access) ≠ 0))
        (decide ((U &&& resource_usage.index_buffer) ≠ 0))
        (decide ((U &&& resource_usage.vertex_buffer) ≠ 0))
        (decide ((U &&& resource_usage.constant_buffer) ≠ 0)) =
      U &&& resource_usage_bind_mapped := by
  obtain ⟨t1, t2, t3, t4, t5, t6, t7⟩ := bind_mapped_usage_tests rt ds sr ua ib vb cb
  rw [← and_and_of_and_eq U resource_usage_bind_mapped resource_usage.render_target (by decide),
    ← and_and_of_and_eq U resource_usage_bind_mapped resource_usage.depth_stencil (by decide),
    ← and_and_of_and_eq U resource_usage_bind_mapped resource_usage.shader_resource (by decide),
    ← and_and_of_and_eq U resource_usage_bind_mapped resource_usage.unordered_access
      (by decide),
    ← and_and_of_and_eq U resource_usage_bind_mapped resource_usage.index_buffer (by decide),
    ← and_and_of_and_eq U resource_usage_bind_mapped resource_usage.vertex_buffer (by decide),
    ← and_and_of_and_eq U resource_usage_bind_mapped resource_usage.constant_buffer
      (by decide),
    hU, t1, t2, t3, t4, t5, t6, t7]

/-- The mapped part of a subset of the seven mapped masks is that subset. -/
theorem bind_mapped_usage_and_mapped_self :
    ∀ (rt ds sr ua ib vb cb : Bool),
      bind_mapped_usage rt ds sr ua ib vb cb &&& resource_usage_bind_mapped =
        bind_mapped_usage rt ds sr ua ib vb cb := by
  decide

/-- The copy masks and the resolve mask that the texture-2D reverse conversion
adds lie outside the seven mapped masks. -/
theorem and_mapped_of_or_copy_resolve (x samples : Nat) :
    ((x ||| (resource_usage.copy_source ||| resource_usage.copy_dest)) |||
        (if samples > 1 then resource_usage.resolve_source
          else resource_usage.resolve_dest)) &&& resource_usage_bind_mapped =
      x &&& resource_usage_bind_mapped := by
  have hc : (resource_usage.copy_source ||| resource_usage.copy_dest) &&&
      resource_usage_bind_mapped = 0 := by decide
  have hr : (if samples > 1 then resource_usage.resolve_source
      else resource_usage.resolve_dest) &&& resource_usage_bind_mapped = 0 := by
    split <;> decide
  rw [Nat.and_comm, Nat.and_or_distrib_left, Nat.and_or_distrib_left,
    Nat.and_comm _ (resource_usage.copy_source ||| resource_usage.copy_dest), hc,
    Nat.and_comm _ (if samples > 1 then resource_usage.resolve_source
      else resource_usage.resolve_dest), hr, Nat.or_zero, Nat.or_zero, Nat.and_comm]

/-- Claim C29, as stated, fails: a texture-2D description whose usage holds
only the bit `0x10`, one of the two bits of the mask `depth_stencil`, comes
back with the usage `0x1C30` (the whole mask `depth_stencil`, the copy masks
and `resolve_dest`), while the original mapped bits plus `copy_source`,
`copy_dest` and `resolve_dest` are `0x1C10`. -/
theorem texture2d_usage_half_mask_widened :
    ∃ native result,
      convert_resource_desc_to_texture2d
        { type := resource_type.texture_2d, texture_width := 64, texture_height := 32,
          texture_depth_or_layers := 1, texture_levels := 1, texture_format := 28,
          texture_samples := 1, heap := memory_heap.gpu_only, usage := 0x10 }
        zeroed_texture2d_desc = some native ∧
      convert_resource_desc_from_texture2d native = some result ∧
      result.usage = 0x1C30 ∧
      (0x10 &&& resource_usage_bind_mapped) |||
          (resource_usage.copy_source ||| resource_usage.copy_dest) |||
          resource_usage.resolve_dest = 0x1C10 ∧
      result.usage ≠
        (0x10 &&& resource_usage_bind_mapped) |||
          (resource_usage.copy_source ||| resource_usage.copy_dest) |||
          resource_usage.resolve_dest := by
  refine ⟨_, _, rfl, rfl, ?_, ?_, ?_⟩ <;> decide

/-- Claim C29, amended: the texture-2D resource description round trip. For
a `resource_desc` of type `texture_2d` (its 16-bit fields holding 16-bit
values) and every previous content of the native descriptor (its `BindFlags` a
32-bit word), converting to `D3D11_TEXTURE2D_DESC` and back succeeds and
reproduces type, width, height, depth_or_layers, levels, format and samples;
the heap is reproduced except that `cpu_only` comes back as `gpu_to_cpu`, and
`cpu_only` never comes back; the usage that comes back holds, whole, each of
the seven mapped masks that the original usage intersects, and `copy_source`,
`copy_dest` and one resolve mask chosen by `samples > 1`; it is the original
mapped bits plus these exactly when the mapped part of the original usage is a
union of whole masks. -/
theorem texture2d_desc_roundtrip (desc : resource_desc)
    (internal_desc : D3D11_TEXTURE2D_DESC)
    (htype : desc.type = resource_type.texture_2d)
    (hlayers : desc.texture_depth_or_layers ≤ UINT16_MAX)
    (hlevels : desc.texture_levels ≤ UINT16_MAX)
    (hsamples : desc.texture_samples ≤ UINT16_MAX)
    (hflags : internal_desc.BindFlags < 2 ^ 32) :
    ∃ native result,
      convert_resource_desc_to_texture2d desc internal_desc = some native ∧
      convert_resource_desc_from_texture2d native = some result ∧
      result.type = desc.type ∧
      result.texture_width = desc.texture_width ∧
      result.texture_height = desc.texture_height ∧
      result.texture_depth_or_layers = desc.texture_depth_or_layers ∧
      result.texture_levels = desc.texture_levels ∧
      result.texture_format = desc.texture_format ∧
      result.texture_samples = desc.texture_samples ∧
      result.heap =
        (if desc.heap = memory_heap.cpu_only then memory_heap.gpu_to_cpu else desc.heap) ∧
      result.heap ≠ memory_heap.cpu_only ∧
      result.usage =
        bind_mapped_usage
          (decide ((desc.usage &&& resource_usage.render_target) ≠ 0))
          (decide ((desc.usage &&& resource_usage.depth_stencil) ≠ 0))
          (decide ((desc.usage &&& resource_usage.shader_resource) ≠ 0))
          (decide ((desc.usage &&& resource_usage.unordered_access) ≠ 0))
          (decide ((desc.usage &&& resource_usage.index_buffer) ≠ 0))
          (decide ((desc.usage &&& resource_usage.vertex_buffer) ≠ 0))
          (decide ((desc.usage &&& resource_usage.constant_buffer) ≠ 0)) |||
        (resource_usage.copy_source ||| resource_usage.copy_dest) |||
        (if desc.texture_samples > 1 then resource_usage.resolve_source
          else resource_usage.resolve_dest) ∧
      (result.usage =
          (desc.usage &&& resource_usage_bind_mapped) |||
          (resource_usage.copy_source ||| resource_usage.copy_dest) |||
          (if desc.texture_samples > 1 then resource_usage.resolve_source
            else resource_usage.resolve_dest) ↔
        ∃ rt ds sr ua ib vb cb,
          desc.usage &&& resource_usage_bind_mapped =
            bind_mapped_usage rt ds sr ua ib vb cb) := by
  have hfwd : convert_resource_desc_to_texture2d desc internal_desc =
      some { internal_desc with
        Width := desc.texture_width
        Height := desc.texture_height
        MipLevels := desc.texture_levels
        ArraySize := desc.texture_depth_or_layers
        Format := desc.texture_format
        SampleDesc_Count := desc.texture_samples
        Usage := (convert_memory_heap_to_d3d_usage desc.heap internal_desc.CPUAccessFlags).1
        CPUAccessFlags :=
          (convert_memory_heap_to_d3d_usage desc.heap internal_desc.CPUAccessFlags).2
        BindFlags :=
          convert_resource_usage_to_bind_flags desc.usage internal_desc.BindFlags } := by
    simp only [convert_resource_desc_to_texture2d, htype, if_true]
  have hmod : desc.texture_samples % 2 ^ 16 = desc.texture_samples := by
    simp only [UINT16_MAX] at hsamples; omega
  have hrev := convert_resource_desc_from_texture2d_eq
    { internal_desc with
      Width := desc.texture_width
      Height := desc.texture_height
      MipLevels := desc.texture_levels
      ArraySize := desc.texture_depth_or_layers
      Format := desc.texture_format
      SampleDesc_Count := desc.texture_samples
      Usage := (convert_memory_heap_to_d3d_usage desc.heap internal_desc.CPUAccessFlags).1
      CPUAccessFlags :=
        (convert_memory_heap_to_d3d_usage desc.heap internal_desc.CPUAccessFlags).2
      BindFlags := convert_resource_usage_to_bind_flags desc.usage internal_desc.BindFlags }
    hlayers hlevels
  simp only [hmod, usage_roundtrip_closed_form desc.usage internal_desc.BindFlags hflags]
    at hrev
  refine ⟨_, _, hfwd, hrev, htype.symm, rfl, rfl, rfl, rfl, rfl, rfl, ?_, ?_, rfl, ?_⟩
  · cases hheap : desc.heap <;>
      simp [convert_memory_heap_to_d3d_usage, convert_d3d_usage_to_memory_heap]
  · cases hheap : desc.heap <;>
      simp [convert_memory_heap_to_d3d_usage, convert_d3d_usage_to_memory_heap]
  · constructor
    · intro h
      have h2 := congrArg (fun x => x &&& resource_usage_bind_mapped) h
      simp only [and_mapped_of_or_copy_resolve, bind_mapped_usage_and_mapped_self,
        Nat.and_assoc, Nat.and_self] at h2
      exact ⟨_, _, _, _, _, _, _, h2.symm⟩
    · rintro ⟨rt, ds, sr, ua, ib, vb, cb, hU⟩
      simp only [bind_mapped_usage_of_tests desc.usage rt ds sr ua ib vb cb hU]

/-- Claim C29 amended, at a `cpu_only` multisampled 2D texture description used as
render target and copy source, converted into a zero-filled descriptor. -/
theorem texture2d_desc_roundtrip_witness :
    ∃ native result,
      convert_resource_desc_to_texture2d
        { type := resource_type.texture_2d, texture_width := 64, texture_height := 32,
          texture_depth_or_layers := 1, texture_levels := 1, texture_format := 28,
          texture_samples := 4, heap := memory_heap.cpu_only,
          usage := resource_usage.render_target ||| resource_usage.copy_source }
        zeroed_texture2d_desc = some native ∧
      convert_resource_desc_from_texture2d native = some result ∧
      result.texture_samples = 4 ∧
      result.heap = memory_heap.gpu_to_cpu ∧
      result.usage =
        resource_usage.render_target |||
        (resource_usage.copy_source ||| resource_usage.copy_dest) |||
        resource_usage.resolve_source := by
  obtain ⟨native, result, h1, h2, _, _, _, _, _, _, h9, h10, _, _, h13⟩ :=
    texture2d_desc_roundtrip
      { type := resource_type.texture_2d, texture_width := 64, texture_height := 32,
        texture_depth_or_layers := 1, texture_levels := 1, texture_format := 28,
        texture_samples := 4, heap := memory_heap.cpu_only,
        usage := resource_usage.render_target ||| resource_usage.copy_source }
      zeroed_texture2d_desc rfl (by decide) (by decide) (by decide) (by decide)
  exact ⟨native, result, h1, h2, h9, h10,
    (h13.mpr ⟨true, false, false, false, false, false, false, by decide⟩).trans
      (by decide)⟩

end reshade.d3d11
